import Mathlib

/-!
Verification of `main.py` from `greigdp/android-pattern-combinations`.

The program enumerates Android 3x3 unlock patterns.  Grid points are the
integers 0..8 in row-major order.  The shallow embedding below translates
each Python function into a Lean definition with the same name; patterns
are `List Nat`, exactly as the source manipulates Python lists of ints.
-/

namespace AndroidPatterns

/-- Embeds `getAdjacent` (main.py lines 39-57): the source's chain of
equality tests, returning the literal lists of the source.  Note the
source's entry for dot 4 lists `3` twice and omits `2`.  For a dot
outside 0..8 the Python function falls off the chain and returns `None`;
that branch is unreachable in the program and is modelled as `[]`. -/
def getAdjacent (dot : Nat) : List Nat :=
  if dot = 0 then [1, 3, 4]
  else if dot = 1 then [0, 2, 4, 3, 5]
  else if dot = 2 then [1, 5, 4]
  else if dot = 3 then [0, 6, 4, 1, 7]
  else if dot = 4 then [1, 3, 5, 7, 0, 3, 6, 8]
  else if dot = 5 then [2, 8, 4, 7, 1]
  else if dot = 6 then [3, 7, 4]
  else if dot = 7 then [6, 8, 4, 3, 5]
  else if dot = 8 then [7, 5, 4]
  else []

/-- Embeds `getEndLinear` (main.py lines 85-103): the collinear
non-adjacent ("skip one point") partners of each dot. -/
def getEndLinear (dot : Nat) : List Nat :=
  if dot = 0 then [2, 6, 8]
  else if dot = 1 then [7]
  else if dot = 2 then [0, 8, 6]
  else if dot = 3 then [5]
  else if dot = 4 then []
  else if dot = 5 then [3]
  else if dot = 6 then [0, 8, 2]
  else if dot = 7 then [1]
  else if dot = 8 then [6, 2, 0]
  else []

/-- Embeds `getMiddle` (main.py lines 109-128).  The source sorts the two
arguments and runs a chain of `if` tests each ending in `return`; when no
test matches it falls off the end and Python implicitly returns `None`,
modelled here as `none`. -/
def getMiddle (dot1 dot2 : Nat) : Option Nat :=
  let lower := min dot1 dot2
  let higher := max dot1 dot2
  if lower = 0 ∧ higher = 2 then some 1
  else if lower = 0 ∧ higher = 6 then some 3
  else if lower = 0 ∧ higher = 8 then some 4
  else if lower = 1 ∧ higher = 7 then some 4
  else if lower = 2 ∧ higher = 6 then some 4
  else if lower = 2 ∧ higher = 8 then some 5
  else if lower = 3 ∧ higher = 5 then some 4
  else if lower = 6 ∧ higher = 8 then some 7
  else none

/-- Embeds `isAlreadyVisited` (main.py lines 131-132): `next in currentPattern`. -/
def isAlreadyVisited (currentPattern : List Nat) (nxt : Nat) : Bool :=
  currentPattern.contains nxt

/-- Embeds `getLast` (main.py lines 135-136): `currentPattern[len(currentPattern)-1]`.
The source indexes the list; on an empty list Python would raise, a case no
caller exercises, so the out-of-range default 0 is never used. -/
def getLast (currentPattern : List Nat) : Nat :=
  currentPattern.getD (currentPattern.length - 1) 0

/-- Embeds the membership test `intersect in currentPattern` in
`getAllowedNextDots`, where `intersect` is the value returned by
`getMiddle` and may be Python `None`; `None` is never an element of a
list of ints, so that case tests false. -/
def optVisited (currentPattern : List Nat) (intersect : Option Nat) : Bool :=
  match intersect with
  | some m => isAlreadyVisited currentPattern m
  | none => false

/-- The source's `allDots = [0, 1, 2, 3, 4, 5, 6, 7, 8]` (main.py line 143). -/
def allDots : List Nat := [0, 1, 2, 3, 4, 5, 6, 7, 8]

/-- The per-dot decision inside the loop of `getAllowedNextDots`
(main.py lines 145-166): a visited dot is removed; an unvisited dot
adjacent to the last dot is kept; an unvisited dot end-linear to the last
dot is kept iff the intervening dot was visited; any other unvisited dot
falls through the tests and is kept. -/
def allowedDot (currentPattern : List Nat) (dot : Nat) : Bool :=
  if isAlreadyVisited currentPattern dot then false
  else if (getAdjacent (getLast currentPattern)).contains dot then true
  else if (getEndLinear (getLast currentPattern)).contains dot then
    optVisited currentPattern (getMiddle dot (getLast currentPattern))
  else true

/-- Embeds `getAllowedNextDots` (main.py lines 139-169).  The source
copies `allDots` and removes the disallowed dots while iterating over
`allDots`; since `allDots` is duplicate-free this is the same as keeping
the dots the loop does not remove, in the order 0..8. -/
def getAllowedNextDots (currentPattern : List Nat) : List Nat :=
  allDots.filter (allowedDot currentPattern)

/-- Embeds `getNextOptions` (main.py lines 202-212): one extended pattern
per allowed dot, in the order `getAllowedNextDots` returns them. -/
def getNextOptions (currentPattern : List Nat) : List (List Nat) :=
  (getAllowedNextDots currentPattern).map (fun i => currentPattern ++ [i])

/-- The iterations `i = 1 .. iterationsToDo - 1` of the loop in
`recursivelyEvaluate` (main.py lines 234-242): each round replaces the
working list of branches by the concatenation of `getNextOptions` over
all branches. -/
def iterateBranches : Nat → List (List Nat) → List (List Nat)
  | 0, branches => branches
  | n + 1, branches => iterateBranches n (branches.flatMap getNextOptions)

/-- Embeds `recursivelyEvaluate` (main.py lines 215-244).  The source is
dynamically typed: with `iterationsToDo = targetLength - 1` equal to 0
(targetLength 0 or 1, Python's `range` of a non-positive number being
empty, like truncated `Nat` subtraction) the loop never runs and the
function returns `currentPattern = [patternStart]`, a bare list of ints
(a single pattern); with at least one iteration it returns a list of
patterns.  The sum type records exactly that shape difference. -/
def recursivelyEvaluate (patternStart targetLength : Nat) :
    Sum (List Nat) (List (List Nat)) :=
  match targetLength - 1 with
  | 0 => Sum.inl [patternStart]
  | n + 1 => Sum.inr (iterateBranches n (getNextOptions [patternStart]))

/-- Extracts the list of patterns from a `recursivelyEvaluate` result.
For `targetLength ≥ 2` (in particular for every production call, which
uses lengths 4..9) the result is always `Sum.inr`.  In the degenerate
`Sum.inl` case (targetLength ≤ 1) the source extends its result list
with the bare integers of the returned pattern, so the result holds no
patterns at all; that case is modelled as the empty list of patterns. -/
def patternsOf : Sum (List Nat) (List (List Nat)) → List (List Nat)
  | Sum.inl _ => []
  | Sum.inr patterns => patterns

/-- Embeds `findAllPatterns` (main.py lines 248-253): concatenate the
results of `recursivelyEvaluate` over the nine starting points. -/
def findAllPatterns (targetLength : Nat) : List (List Nat) :=
  (List.range 9).flatMap (fun i => patternsOf (recursivelyEvaluate i targetLength))

/-- Embeds `findAllCombinations` (main.py lines 256-265): concatenate
`findAllPatterns` over the lengths `range(4, maxLength + 1)`. -/
def findAllCombinations (maxLength : Nat) : List (List Nat) :=
  (List.range' 4 (maxLength + 1 - 4)).flatMap findAllPatterns

/-! ### Basic facts about the embedded topology tables -/

/-- Membership in the source's `allDots` list is exactly being one of the
nine grid points. -/
lemma mem_allDots {d : Nat} : d ∈ allDots ↔ d < 9 := by
  simp only [allDots, List.mem_cons, List.not_mem_nil, or_false]
  omega

/-- The last element, as the source computes it, is a member of any
non-empty pattern. -/
lemma getLast_mem : ∀ (p : List Nat), p ≠ [] → getLast p ∈ p := by
  intro p
  induction p with
  | nil => intro h; exact absurd rfl h
  | cons a l ih =>
      intro _
      cases l with
      | nil => simp [getLast]
      | cons b m =>
          have h2 : getLast (a :: b :: m) = getLast (b :: m) := by
            simp [getLast, List.getD_cons_succ]
          rw [h2]
          exact List.mem_cons_of_mem a (ih (by simp))

/-- Appending a dot makes it the last element. -/
lemma getLast_append (p : List Nat) (d : Nat) : getLast (p ++ [d]) = d := by
  unfold getLast
  rw [List.getD_eq_getElem?_getD]
  have hlen : (p ++ [d]).length - 1 = p.length := by simp
  rw [hlen, List.getElem?_append_right (Nat.le_refl _)]
  simp

/-- `getLast` commutes with `List.map` on non-empty lists. -/
lemma getLast_map (f : Nat → Nat) (p : List Nat) (h : p ≠ []) :
    getLast (p.map f) = f (getLast p) := by
  unfold getLast
  rw [List.getD_eq_getElem?_getD, List.getD_eq_getElem?_getD]
  have hlen : p.length - 1 < p.length := by
    cases p with
    | nil => exact absurd rfl h
    | cons a l => simp
  rw [List.length_map, List.getElem?_map]
  rw [List.getElem?_eq_getElem hlen]
  simp

/-- Adjacent dots are grid points and are never also end-linear: the two
tables of the source are disjoint. -/
lemma adjacent_facts :
    ∀ l < 9, ∀ d ∈ getAdjacent l, d < 9 ∧ d ∉ getEndLinear l := by decide

/-- End-linear dots are grid points, `getMiddle` returns on them the
arithmetic midpoint `(d + l) / 2`, which is a grid point adjacent to `l`
and not end-linear to `l`. -/
lemma endLinear_facts :
    ∀ l < 9, ∀ d ∈ getEndLinear l,
      d < 9 ∧ getMiddle d l = some ((d + l) / 2) ∧ (d + l) / 2 < 9 ∧
      (d + l) / 2 ∈ getAdjacent l ∧ (d + l) / 2 ∉ getEndLinear l ∧
      (d + l) / 2 ∉ [d, l] := by decide

/-- `getMiddle` is symmetric in its two arguments, because the source
sorts them before the table lookup. -/
lemma getMiddle_comm (a b : Nat) : getMiddle a b = getMiddle b a := by
  unfold getMiddle
  rw [Nat.min_comm, Nat.max_comm]

/-! ### The characterization of `getAllowedNextDots`

The adjacency test in the source only short-circuits the end-linear test:
since the two tables are disjoint, a dot is kept exactly when it is a
grid point, unvisited, and not an end-linear dot whose intervening dot is
unvisited. -/

lemma contains_iff_mem {l : List Nat} {a : Nat} : l.contains a = true ↔ a ∈ l := by
  simp [List.contains, List.elem_iff]

lemma allowedDot_iff (p : List Nat) (hne : p ≠ []) (hb : ∀ x ∈ p, x < 9)
    (d : Nat) :
    allowedDot p d = true ↔
      d ∉ p ∧ (d ∈ getEndLinear (getLast p) →
        ∃ m, getMiddle d (getLast p) = some m ∧ m ∈ p) := by
  have hlast : getLast p < 9 := hb _ (getLast_mem p hne)
  unfold allowedDot
  by_cases hv : d ∈ p
  · have : isAlreadyVisited p d = true := by
      simpa [isAlreadyVisited] using contains_iff_mem.mpr hv
    simp [this, hv]
  · have hvf : isAlreadyVisited p d = false := by
      simp only [isAlreadyVisited]
      rw [Bool.eq_false_iff]
      intro hc
      exact hv (contains_iff_mem.mp hc)
    rw [hvf]
    simp only [Bool.false_eq_true, if_false]
    by_cases ha : d ∈ getAdjacent (getLast p)
    · have hnotEL : d ∉ getEndLinear (getLast p) :=
        (adjacent_facts _ hlast _ ha).2
      have hac : (getAdjacent (getLast p)).contains d = true := contains_iff_mem.mpr ha
      simp [hac, hv, hnotEL]
    · have hacf : (getAdjacent (getLast p)).contains d = false := by
        rw [Bool.eq_false_iff]
        intro hc
        exact ha (contains_iff_mem.mp hc)
      rw [hacf]
      simp only [Bool.false_eq_true, if_false]
      by_cases he : d ∈ getEndLinear (getLast p)
      · have hec : (getEndLinear (getLast p)).contains d = true := contains_iff_mem.mpr he
        rw [hec]
        simp only [if_true]
        obtain ⟨-, hmid, -, -, -, -⟩ := endLinear_facts _ hlast _ he
        rw [hmid]
        simp only [optVisited, isAlreadyVisited]
        constructor
        · intro hcm
          exact ⟨hv, fun _ => ⟨_, rfl, contains_iff_mem.mp hcm⟩⟩
        · rintro ⟨-, himp⟩
          obtain ⟨m, hm, hmp⟩ := himp he
          obtain rfl : (d + getLast p) / 2 = m := by
            injection hm
          exact contains_iff_mem.mpr hmp
      · have hecf : (getEndLinear (getLast p)).contains d = false := by
          rw [Bool.eq_false_iff]
          intro hc
          exact he (contains_iff_mem.mp hc)
        rw [hecf]
        simp [hv, he]

/-- The full characterization: a dot is allowed iff it is a grid point,
unvisited, and — when end-linear to the last dot — its midpoint has been
visited. -/
lemma mem_getAllowedNextDots (p : List Nat) (hne : p ≠ []) (hb : ∀ x ∈ p, x < 9)
    (d : Nat) :
    d ∈ getAllowedNextDots p ↔
      d < 9 ∧ d ∉ p ∧ (d ∈ getEndLinear (getLast p) →
        ∃ m, getMiddle d (getLast p) = some m ∧ m ∈ p) := by
  unfold getAllowedNextDots
  rw [List.mem_filter, mem_allDots]
  constructor
  · rintro ⟨hd, hal⟩
    exact ⟨hd, (allowedDot_iff p hne hb d).mp hal⟩
  · rintro ⟨hd, h1, h2⟩
    exact ⟨hd, (allowedDot_iff p hne hb d).mpr ⟨h1, h2⟩⟩

/-! ### Counting the enumeration

`countLevels n p` counts the leaves of the source's branching process
after `n` further rounds of `getNextOptions`, without materializing the
pattern lists. -/

def countLevels : Nat → List Nat → Nat
  | 0, _ => 1
  | n + 1, p => (getAllowedNextDots p).foldl (fun acc d => acc + countLevels n (p ++ [d])) 0

lemma foldl_add_eq_sum (f : Nat → Nat) :
    ∀ (l : List Nat) (acc : Nat), l.foldl (fun a d => a + f d) acc = acc + (l.map f).sum := by
  intro l
  induction l with
  | nil => intro acc; simp
  | cons d t ih =>
      intro acc
      simp only [List.foldl_cons, List.map_cons, List.sum_cons]
      rw [ih]
      omega

lemma countLevels_succ (n : Nat) (p : List Nat) :
    countLevels (n + 1) p = ((getAllowedNextDots p).map (fun d => countLevels n (p ++ [d]))).sum := by
  rw [countLevels, foldl_add_eq_sum]
  omega

lemma sum_map_one : ∀ (ps : List (List Nat)), (ps.map (fun _ => 1)).sum = ps.length := by
  intro ps
  induction ps with
  | nil => rfl
  | cons p t ih =>
      simp only [List.map_cons, List.sum_cons, List.length_cons, ih]
      omega

lemma sum_map_flatMap (g : List Nat → List (List Nat)) (h : List Nat → Nat) :
    ∀ (ps : List (List Nat)),
      ((ps.flatMap g).map h).sum = (ps.map (fun p => ((g p).map h).sum)).sum := by
  intro ps
  induction ps with
  | nil => rfl
  | cons p t ih => simp [List.flatMap_cons, ih]

/-- The length of the working set after `n` rounds is the sum of the
per-branch leaf counts. -/
lemma length_iterateBranches :
    ∀ (n : Nat) (ps : List (List Nat)),
      (iterateBranches n ps).length = (ps.map (countLevels n)).sum := by
  intro n
  induction n with
  | zero =>
      intro ps
      rw [iterateBranches]
      rw [show (countLevels 0) = (fun _ : List Nat => 1) from rfl, sum_map_one]
  | succ n ih =>
      intro ps
      rw [iterateBranches, ih, sum_map_flatMap]
      apply congrArg
      apply List.map_congr_left
      intro p _
      rw [countLevels_succ]
      simp only [getNextOptions, List.map_map]
      rfl

lemma recursivelyEvaluate_succ (i n : Nat) :
    recursivelyEvaluate i (n + 2) = Sum.inr (iterateBranches n (getNextOptions [i])) := rfl

/-- For target lengths at least 2, `findAllPatterns` has as many entries
as the branch counts from the nine singleton start patterns. -/
lemma length_findAllPatterns (n : Nat) :
    (findAllPatterns (n + 2)).length =
      ((List.range 9).map (fun i => countLevels (n + 1) [i])).sum := by
  unfold findAllPatterns
  rw [List.length_flatMap]
  apply congrArg
  apply List.map_congr_left
  intro i _
  show (patternsOf (recursivelyEvaluate i (n + 2))).length = countLevels (n + 1) [i]
  rw [recursivelyEvaluate_succ]
  show (iterateBranches n (getNextOptions [i])).length = countLevels (n + 1) [i]
  rw [length_iterateBranches, countLevels_succ]
  simp only [getNextOptions, List.map_map]
  rfl

/-! ### The visited set as a bit mask

`countLevels` only inspects a pattern through membership tests and its
last element, so it factors through the pair (visited bit mask, last
dot).  This is what makes the count computable by dynamic programming. -/

def maskOf (p : List Nat) : Nat := p.foldl (fun acc x => acc ||| (1 <<< x)) 0

lemma maskOf_go (x : Nat) :
    ∀ (p : List Nat) (acc : Nat),
      Nat.testBit (p.foldl (fun a y => a ||| (1 <<< y)) acc) x =
        (Nat.testBit acc x || decide (x ∈ p)) := by
  intro p
  induction p with
  | nil => intro acc; simp
  | cons y t ih =>
      intro acc
      simp only [List.foldl_cons]
      rw [ih]
      simp only [Nat.one_shiftLeft, Nat.testBit_or, Nat.testBit_two_pow, List.mem_cons]
      by_cases hxy : x = y
      · subst hxy; simp
      · have : ¬ (y = x) := fun h => hxy h.symm
        simp [hxy, this, Bool.or_assoc]

lemma maskOf_testBit (p : List Nat) (x : Nat) :
    Nat.testBit (maskOf p) x = decide (x ∈ p) := by
  unfold maskOf
  rw [maskOf_go]
  simp

lemma maskOf_bit (p : List Nat) (x : Nat) : ((maskOf p >>> x) % 2 = 1) ↔ x ∈ p := by
  have h := maskOf_testBit p x
  rw [Nat.testBit_to_div_mod] at h
  rw [Nat.shiftRight_eq_div_pow]
  constructor
  · intro hx
    have : decide (x ∈ p) = true := by rw [← h]; simpa using hx
    exact of_decide_eq_true this
  · intro hx
    have : decide (maskOf p / 2 ^ x % 2 = 1) = true := by rw [h]; simpa using hx
    exact of_decide_eq_true this

lemma maskOf_append (p : List Nat) (d : Nat) :
    maskOf (p ++ [d]) = maskOf p ||| (1 <<< d) := by
  unfold maskOf
  rw [List.foldl_append]
  rfl

lemma maskOf_single (i : Nat) : maskOf [i] = 1 <<< i := by
  simp [maskOf]

lemma maskOf_lt_go :
    ∀ (p : List Nat) (acc : Nat), (∀ x ∈ p, x < 9) → acc < 512 →
      p.foldl (fun a y => a ||| (1 <<< y)) acc < 512 := by
  intro p
  induction p with
  | nil => intro acc _ h; simpa using h
  | cons y t ih =>
      intro acc hb hacc
      simp only [List.foldl_cons]
      apply ih _ (fun x hx => hb x (List.mem_cons_of_mem y hx))
      have hy : y < 9 := hb y (List.mem_cons_self y t)
      have h1 : (1 <<< y) < 512 := by
        rw [Nat.one_shiftLeft]
        calc 2 ^ y < 2 ^ 9 := Nat.pow_lt_pow_right (by omega) hy
        _ = 512 := by norm_num
      have : (512 : Nat) = 2 ^ 9 := by norm_num
      rw [this] at hacc h1 ⊢
      exact Nat.or_lt_two_pow hacc h1

lemma maskOf_lt (p : List Nat) (hb : ∀ x ∈ p, x < 9) : maskOf p < 512 :=
  maskOf_lt_go p 0 hb (by norm_num)

/-! ### Arithmetic form of the legal-move test

`pairTable` packs, four bits per ordered pair `(last, d)` of grid points,
the midpoint of the pair when `d` is end-linear to `last` and the sentinel
15 otherwise.  It is verified against `getEndLinear`/`getMiddle` below. -/

def pairTable : Nat := 34109041701243992067406714404210307902911562671661981065909097844642393592327804916272495564157439

def allowedA (mask last d : Nat) : Bool :=
  cond ((mask >>> d) % 2 == 1) false
    (cond ((pairTable >>> ((last * 9 + d) * 4)) % 16 == 15) true
      ((mask >>> ((pairTable >>> ((last * 9 + d) * 4)) % 16)) % 2 == 1))

lemma pairTable_not_endLinear :
    ∀ l < 9, ∀ d < 9, ((pairTable >>> ((l * 9 + d) * 4)) % 16 = 15 ↔ d ∉ getEndLinear l) := by
  decide

lemma pairTable_mid :
    ∀ l < 9, ∀ d ∈ getEndLinear l,
      getMiddle d l = some ((pairTable >>> ((l * 9 + d) * 4)) % 16) := by
  decide

lemma beq_one_eq_decide (a : Nat) : (a == 1) = decide (a = 1) := by
  by_cases h : a = 1
  · subst h; rfl
  · simp [h]

/-- The legal-move test of the source, factored through the visited mask
and the last dot. -/
lemma allowedDot_eq_allowedA (p : List Nat) (hne : p ≠ []) (hb : ∀ x ∈ p, x < 9)
    (d : Nat) (hd : d < 9) :
    allowedDot p d = allowedA (maskOf p) (getLast p) d := by
  have hlast : getLast p < 9 := hb _ (getLast_mem p hne)
  have hvis : ((maskOf p >>> d) % 2 == 1) = decide (d ∈ p) := by
    rw [beq_one_eq_decide]
    exact decide_eq_decide.mpr (maskOf_bit p d)
  unfold allowedDot allowedA
  by_cases hv : d ∈ p
  · have h1 : isAlreadyVisited p d = true := contains_iff_mem.mpr hv
    rw [h1, hvis, decide_eq_true hv]
    rfl
  · have h1 : isAlreadyVisited p d = false := by
      rw [Bool.eq_false_iff]
      intro hc
      exact hv (contains_iff_mem.mp hc)
    rw [h1, hvis, decide_eq_false hv]
    simp only [Bool.false_eq_true, if_false, cond_false]
    by_cases he : d ∈ getEndLinear (getLast p)
    · have h15 : ((pairTable >>> ((getLast p * 9 + d) * 4)) % 16 == 15) = false := by
        rw [Bool.eq_false_iff]
        intro hc
        have := eq_of_beq hc
        exact ((pairTable_not_endLinear _ hlast _ hd).mp this) he
      rw [h15]
      have hadj : d ∉ getAdjacent (getLast p) := by
        intro hc
        exact (adjacent_facts _ hlast _ hc).2 he
      have h2 : (getAdjacent (getLast p)).contains d = false := by
        rw [Bool.eq_false_iff]
        intro hc
        exact hadj (contains_iff_mem.mp hc)
      have h3 : (getEndLinear (getLast p)).contains d = true := contains_iff_mem.mpr he
      rw [h2, h3]
      simp only [Bool.false_eq_true, if_false, if_true, cond_false]
      rw [pairTable_mid _ hlast _ he]
      simp only [optVisited, isAlreadyVisited]
      rw [beq_one_eq_decide]
      rw [decide_eq_decide.mpr (maskOf_bit p _)]
      by_cases hm : (pairTable >>> ((getLast p * 9 + d) * 4)) % 16 ∈ p
      · rw [decide_eq_true hm, contains_iff_mem.mpr hm]
      · rw [decide_eq_false hm]
        rw [Bool.eq_false_iff]
        intro hc
        exact hm (contains_iff_mem.mp hc)
    · have hx : (pairTable >>> ((getLast p * 9 + d) * 4)) % 16 = 15 :=
        (pairTable_not_endLinear _ hlast _ hd).mpr he
      have h15 : ((pairTable >>> ((getLast p * 9 + d) * 4)) % 16 == 15) = true := by
        rw [hx]
        rfl
      rw [h15]
      simp only [cond_true]
      have h3 : (getEndLinear (getLast p)).contains d = false := by
        rw [Bool.eq_false_iff]
        intro hc
        exact he (contains_iff_mem.mp hc)
      rw [h3]
      simp

/-- The mask-level counting mirror of `countLevels`. -/
def cntA : Nat → Nat → Nat → Nat
  | 0, _, _ => 1
  | n + 1, mask, last =>
      allDots.foldl
        (fun acc d => cond (allowedA mask last d) (acc + cntA n (mask ||| (1 <<< d)) d) acc) 0

lemma foldl_filter_cond (q : Nat → Bool) (g : Nat → Nat) :
    ∀ (l : List Nat) (acc : Nat),
      (l.filter q).foldl (fun a d => a + g d) acc =
        l.foldl (fun a d => cond (q d) (a + g d) a) acc := by
  intro l
  induction l with
  | nil => intro acc; rfl
  | cons d t ih =>
      intro acc
      rw [List.filter_cons]
      by_cases hq : q d = true
      · rw [if_pos hq]
        simp only [List.foldl_cons, hq, cond_true]
        exact ih _
      · rw [if_neg hq]
        have hq' : q d = false := Bool.eq_false_iff.mpr hq
        simp only [List.foldl_cons, hq', cond_false]
        exact ih _

lemma foldl_congr_mem {f g : Nat → Nat → Nat} :
    ∀ (l : List Nat), (∀ acc d, d ∈ l → f acc d = g acc d) →
      ∀ acc, l.foldl f acc = l.foldl g acc := by
  intro l
  induction l with
  | nil => intro _ acc; rfl
  | cons d t ih =>
      intro h acc
      simp only [List.foldl_cons]
      rw [h acc d (List.mem_cons_self d t)]
      exact ih (fun a x hx => h a x (List.mem_cons_of_mem d hx)) _

/-- `countLevels` factors through the visited mask and the last dot. -/
lemma countLevels_eq_cntA :
    ∀ (n : Nat) (p : List Nat), p ≠ [] → (∀ x ∈ p, x < 9) →
      countLevels n p = cntA n (maskOf p) (getLast p) := by
  intro n
  induction n with
  | zero => intro p _ _; rfl
  | succ n ih =>
      intro p hne hb
      rw [countLevels]
      unfold getAllowedNextDots
      rw [foldl_filter_cond]
      rw [cntA]
      apply foldl_congr_mem
      intro acc d hd
      have hd9 : d < 9 := mem_allDots.mp hd
      rw [allowedDot_eq_allowedA p hne hb d hd9]
      cases allowedA (maskOf p) (getLast p) d
      · rfl
      · simp only [cond_true]
        rw [ih (p ++ [d]) (by simp) (by
          intro x hx
          rcases List.mem_append.mp hx with h | h
          · exact hb x h
          · rw [List.mem_singleton.mp h]; exact hd9)]
        rw [maskOf_append, getLast_append]

lemma foldl_cond_le (c : Nat → Bool) (g : Nat → Nat) (C : Nat) (hg : ∀ d, g d ≤ C) :
    ∀ (l : List Nat) (acc : Nat),
      l.foldl (fun a d => cond (c d) (a + g d) a) acc ≤ acc + l.length * C := by
  intro l
  induction l with
  | nil => intro acc; simp
  | cons d t ih =>
      intro acc
      simp only [List.foldl_cons, List.length_cons]
      cases c d
      · calc t.foldl _ acc ≤ acc + t.length * C := ih acc
        _ ≤ acc + (t.length + 1) * C := by
              have : t.length * C ≤ (t.length + 1) * C := Nat.mul_le_mul_right C (by omega)
              omega
      · calc t.foldl _ (acc + g d) ≤ (acc + g d) + t.length * C := ih _
        _ ≤ acc + (t.length + 1) * C := by
              have hgd := hg d
              have : (t.length + 1) * C = t.length * C + C := by ring
              omega

lemma cntA_le : ∀ (n mask last : Nat), cntA n mask last ≤ 9 ^ n := by
  intro n
  induction n with
  | zero => intro _ _; simp [cntA]
  | succ n ih =>
      intro mask last
      rw [cntA]
      calc allDots.foldl _ 0 ≤ 0 + allDots.length * 9 ^ n :=
            foldl_cond_le _ _ _ (fun d => ih _ d) allDots 0
      _ = 9 * 9 ^ n := by simp [allDots]
      _ = 9 ^ (n + 1) := by rw [pow_succ]; ring

/-! ### A table-driven evaluation of the counts

To make the total pattern count kernel-checkable, the 4608 values
`cntA n mask last` (`mask < 512`, `last < 9`) of one level are packed
into a single natural number with one 32-bit digit per state, and one
level is computed from the previous one.  `tabulate` builds such a packed
table from an entry function by binary splitting (so kernel reduction
stays shallow), and `getDigit` reads one entry back. -/

def B : Nat := 4294967296

def getDigit (t j : Nat) : Nat := (t >>> (32 * j)) % B

def tabulate (f : Nat → Nat) : Nat → Nat → Nat
  | 0, s => f s * 2 ^ (32 * s)
  | d + 1, s => tabulate f d s + tabulate f d (s + (1 <<< d))

lemma tabulate_dvd (f : Nat → Nat) :
    ∀ (d s : Nat), 2 ^ (32 * s) ∣ tabulate f d s := by
  intro d
  induction d with
  | zero => intro s; exact Dvd.intro_left (f s) rfl
  | succ d ih =>
      intro s
      rw [tabulate]
      apply Nat.dvd_add (ih s)
      exact Dvd.dvd.trans
        (Nat.pow_dvd_pow 2 (Nat.mul_le_mul_left 32 (Nat.le_add_right s (1 <<< d))))
        (ih (s + (1 <<< d)))

lemma tabulate_lt (f : Nat → Nat) (hf : ∀ j, f j < B) :
    ∀ (d s : Nat), tabulate f d s < 2 ^ (32 * (s + 2 ^ d)) := by
  intro d
  induction d with
  | zero =>
      intro s
      rw [tabulate]
      have hp : 0 < (2:Nat) ^ (32 * s) := Nat.pos_pow_of_pos _ (by omega)
      have h0 : (2:Nat) ^ (0:Nat) = 1 := rfl
      rw [h0]
      calc f s * 2 ^ (32 * s) < B * 2 ^ (32 * s) := (Nat.mul_lt_mul_right hp).mpr (hf s)
      _ = 2 ^ (32 * (s + 1)) := by
            have hB : B = 2 ^ 32 := by norm_num [B]
            rw [hB, ← Nat.pow_add]
            apply congrArg
            ring
  | succ d ih =>
      intro s
      rw [tabulate, Nat.one_shiftLeft]
      obtain ⟨a, ha⟩ := tabulate_dvd f d (s + 2 ^ d)
      have hxK : tabulate f d s < 2 ^ (32 * (s + 2 ^ d)) := ih s
      have hsplit : (2:Nat) ^ (32 * (s + 2 ^ d + 2 ^ d)) =
          2 ^ (32 * (s + 2 ^ d)) * 2 ^ (32 * 2 ^ d) := by
        rw [← Nat.pow_add]
        apply congrArg
        ring
      have hyM : tabulate f d (s + 2 ^ d) < 2 ^ (32 * (s + 2 ^ d + 2 ^ d)) := ih (s + 2 ^ d)
      rw [hsplit] at hyM
      have haa : a < 2 ^ (32 * 2 ^ d) := by
        by_contra hcon
        push_neg at hcon
        have hle : 2 ^ (32 * (s + 2 ^ d)) * 2 ^ (32 * 2 ^ d) ≤ tabulate f d (s + 2 ^ d) := by
          rw [ha]
          exact Nat.mul_le_mul_left _ hcon
        exact absurd (Nat.lt_of_lt_of_le hyM hle) (lt_irrefl _)
      have hexp : 32 * (s + 2 ^ (d + 1)) = 32 * (s + 2 ^ d + 2 ^ d) := by
        have h2 : (2:Nat) ^ (d + 1) = 2 ^ d + 2 ^ d := by
          rw [Nat.pow_succ]
          omega
        omega
      rw [hexp, hsplit]
      calc tabulate f d s + tabulate f d (s + 2 ^ d)
          = tabulate f d s + 2 ^ (32 * (s + 2 ^ d)) * a := by rw [ha]
      _ < 2 ^ (32 * (s + 2 ^ d)) + 2 ^ (32 * (s + 2 ^ d)) * a := by omega
      _ = 2 ^ (32 * (s + 2 ^ d)) * (a + 1) := by ring
      _ ≤ 2 ^ (32 * (s + 2 ^ d)) * 2 ^ (32 * 2 ^ d) := Nat.mul_le_mul_left _ (by omega)

lemma tabulate_digit (f : Nat → Nat) (hf : ∀ j, f j < B) :
    ∀ (d s j : Nat), j < 2 ^ d → getDigit (tabulate f d s) (s + j) = f (s + j) := by
  intro d
  induction d with
  | zero =>
      intro s j hj
      have hj0 : j = 0 := by simpa using hj
      subst hj0
      rw [tabulate]
      unfold getDigit
      rw [Nat.add_zero, Nat.shiftRight_eq_div_pow,
        Nat.mul_div_cancel _ (Nat.pos_pow_of_pos _ (by omega))]
      exact Nat.mod_eq_of_lt (hf s)
  | succ d ih =>
      intro s j hj
      rw [tabulate, Nat.one_shiftLeft]
      obtain ⟨a, ha⟩ := tabulate_dvd f d (s + 2 ^ d)
      by_cases hlo : j < 2 ^ d
      · rw [← ih s j hlo]
        unfold getDigit
        rw [Nat.shiftRight_eq_div_pow, Nat.shiftRight_eq_div_pow]
        have hKsplit : (2:Nat) ^ (32 * (s + 2 ^ d)) =
            2 ^ (32 * (s + j)) * 2 ^ (32 * (2 ^ d - j)) := by
          rw [← Nat.pow_add]
          apply congrArg
          have : j + (2 ^ d - j) = 2 ^ d := by omega
          omega
        have hy2 : tabulate f d (s + 2 ^ d) =
            (2 ^ (32 * (2 ^ d - j)) * a) * 2 ^ (32 * (s + j)) := by
          rw [ha, hKsplit]
          ring
        rw [hy2, Nat.add_mul_div_right _ _ (Nat.pos_pow_of_pos _ (by omega))]
        have hEsplit : (2:Nat) ^ (32 * (2 ^ d - j)) = 2 ^ (32 * (2 ^ d - j) - 32) * B := by
          have hB : B = 2 ^ 32 := by norm_num [B]
          rw [hB, ← Nat.pow_add]
          apply congrArg
          omega
        rw [hEsplit]
        have hre : 2 ^ (32 * (2 ^ d - j) - 32) * B * a =
            (2 ^ (32 * (2 ^ d - j) - 32) * a) * B := by
          ring
        rw [hre, Nat.add_mul_mod_self_right]
      · have hpow2 : (2:Nat) ^ (d + 1) = 2 ^ d + 2 ^ d := by
          rw [Nat.pow_succ]
          omega
        have hj' : j - 2 ^ d < 2 ^ d := by omega
        have hjj : s + j = (s + 2 ^ d) + (j - 2 ^ d) := by omega
        rw [hjj, ← ih (s + 2 ^ d) (j - 2 ^ d) hj']
        unfold getDigit
        rw [Nat.shiftRight_eq_div_pow, Nat.shiftRight_eq_div_pow]
        have hKx : tabulate f d s < 2 ^ (32 * (s + 2 ^ d)) := tabulate_lt f hf d s
        have hKpos : 0 < (2:Nat) ^ (32 * (s + 2 ^ d)) := Nat.pos_pow_of_pos _ (by omega)
        have hsplit : (2:Nat) ^ (32 * (s + 2 ^ d + (j - 2 ^ d))) =
            2 ^ (32 * (s + 2 ^ d)) * 2 ^ (32 * (j - 2 ^ d)) := by
          rw [← Nat.pow_add]
          apply congrArg
          ring
        rw [hsplit, ← Nat.div_div_eq_div_mul, ← Nat.div_div_eq_div_mul]
        have h1 : (tabulate f d s + tabulate f d (s + 2 ^ d)) / 2 ^ (32 * (s + 2 ^ d)) = a := by
          rw [ha, Nat.add_mul_div_left _ _ hKpos, Nat.div_eq_of_lt hKx, Nat.zero_add]
        have h2 : tabulate f d (s + 2 ^ d) / 2 ^ (32 * (s + 2 ^ d)) = a := by
          rw [ha, Nat.mul_div_cancel_left _ hKpos]
        rw [h1, h2]

/-- A state `(mask, last)` is stored at index `last * 512 + mask`, so the
512 entries sharing one last dot form a contiguous block of the packed
table.  `part t l` extracts that block (a `512`-digit number), so that
the digit reads of one level step work on small numbers. -/
def part (t l : Nat) : Nat := (t >>> (16384 * l)) % (1 <<< 16384)

lemma div_mod_add_high (r q a b c : Nat) (h : b + c ≤ a) :
    (2 ^ a * q + r) / 2 ^ b % 2 ^ c = r / 2 ^ b % 2 ^ c := by
  have hb : 0 < (2:Nat) ^ b := Nat.pos_pow_of_pos _ (by omega)
  have hsplit : (2:Nat) ^ a * q = ((2 ^ (a - b - c) * q) * 2 ^ c) * 2 ^ b := by
    have hpows : (2:Nat) ^ a = 2 ^ (a - b - c) * 2 ^ c * 2 ^ b := by
      rw [← Nat.pow_add, ← Nat.pow_add]
      congr 1
      omega
    rw [hpows]
    ring
  rw [hsplit, Nat.add_comm, Nat.add_mul_div_right _ _ hb, Nat.add_mul_mod_self_right]

lemma mod_pow_div_mod (x a b c : Nat) (h : b + c ≤ a) :
    x % 2 ^ a / 2 ^ b % 2 ^ c = x / 2 ^ b % 2 ^ c := by
  conv_rhs => rw [← Nat.div_add_mod x (2 ^ a)]
  rw [div_mod_add_high _ _ _ _ _ h]

lemma part_digit (t l m : Nat) (hm : m < 512) :
    getDigit (part t l) m = getDigit t (l * 512 + m) := by
  unfold getDigit part
  rw [Nat.one_shiftLeft]
  simp only [Nat.shiftRight_eq_div_pow]
  have hB : B = 2 ^ 32 := by norm_num [B]
  rw [hB, mod_pow_div_mod _ 16384 (32 * m) 32 (by omega),
    Nat.div_div_eq_div_mul, ← Nat.pow_add]
  have hexp : 16384 * l + 32 * m = 32 * (l * 512 + m) := by ring
  rw [hexp]

/-- Selects the block of the previous level's table that holds the states
whose last dot is `d`. -/
def pickPart (p0 p1 p2 p3 p4 p5 p6 p7 p8 d : Nat) : Nat :=
  match d with
  | 0 => p0
  | 1 => p1
  | 2 => p2
  | 3 => p3
  | 4 => p4
  | 5 => p5
  | 6 => p6
  | 7 => p7
  | 8 => p8
  | _ => 0

lemma pickPart0 (p0 p1 p2 p3 p4 p5 p6 p7 p8 : Nat) :
    pickPart p0 p1 p2 p3 p4 p5 p6 p7 p8 0 = p0 := rfl

lemma pickPart1 (p0 p1 p2 p3 p4 p5 p6 p7 p8 : Nat) :
    pickPart p0 p1 p2 p3 p4 p5 p6 p7 p8 1 = p1 := rfl

lemma pickPart2 (p0 p1 p2 p3 p4 p5 p6 p7 p8 : Nat) :
    pickPart p0 p1 p2 p3 p4 p5 p6 p7 p8 2 = p2 := rfl

lemma pickPart3 (p0 p1 p2 p3 p4 p5 p6 p7 p8 : Nat) :
    pickPart p0 p1 p2 p3 p4 p5 p6 p7 p8 3 = p3 := rfl

lemma pickPart4 (p0 p1 p2 p3 p4 p5 p6 p7 p8 : Nat) :
    pickPart p0 p1 p2 p3 p4 p5 p6 p7 p8 4 = p4 := rfl

lemma pickPart5 (p0 p1 p2 p3 p4 p5 p6 p7 p8 : Nat) :
    pickPart p0 p1 p2 p3 p4 p5 p6 p7 p8 5 = p5 := rfl

lemma pickPart6 (p0 p1 p2 p3 p4 p5 p6 p7 p8 : Nat) :
    pickPart p0 p1 p2 p3 p4 p5 p6 p7 p8 6 = p6 := rfl

lemma pickPart7 (p0 p1 p2 p3 p4 p5 p6 p7 p8 : Nat) :
    pickPart p0 p1 p2 p3 p4 p5 p6 p7 p8 7 = p7 := rfl

lemma pickPart8 (p0 p1 p2 p3 p4 p5 p6 p7 p8 : Nat) :
    pickPart p0 p1 p2 p3 p4 p5 p6 p7 p8 8 = p8 := rfl

lemma pickPart_digit (t d m : Nat) (hd : d < 9) (hm : m < 512) :
    getDigit (pickPart (part t 0) (part t 1) (part t 2) (part t 3) (part t 4)
      (part t 5) (part t 6) (part t 7) (part t 8) d) m = getDigit t (d * 512 + m) := by
  interval_cases d
  · rw [pickPart0]
    exact part_digit t 0 m hm
  · rw [pickPart1]
    exact part_digit t 1 m hm
  · rw [pickPart2]
    exact part_digit t 2 m hm
  · rw [pickPart3]
    exact part_digit t 3 m hm
  · rw [pickPart4]
    exact part_digit t 4 m hm
  · rw [pickPart5]
    exact part_digit t 5 m hm
  · rw [pickPart6]
    exact part_digit t 6 m hm
  · rw [pickPart7]
    exact part_digit t 7 m hm
  · rw [pickPart8]
    exact part_digit t 8 m hm

/-- One packed-table entry: the sum over the allowed next dots of the
previous level's entries, exactly the recursion of `cntA`, reading each
previous entry from the block of its last dot. -/
def entryB (p0 p1 p2 p3 p4 p5 p6 p7 p8 mask last : Nat) : Nat :=
  allDots.foldl
    (fun acc d => cond (allowedA mask last d)
      (acc + getDigit (pickPart p0 p1 p2 p3 p4 p5 p6 p7 p8 d) (mask ||| (1 <<< d))) acc) 0

/-- The entry function used to build a level table: states outside the
4608 state slots, and states whose mask does not contain the last dot,
get a zero entry; the reduction modulo `B` keeps every entry one digit
wide. -/
def leafG (p0 p1 p2 p3 p4 p5 p6 p7 p8 j : Nat) : Nat :=
  (cond (decide (j < 4608) && (((j % 512) >>> (j / 512)) % 2 == 1))
    (entryB p0 p1 p2 p3 p4 p5 p6 p7 p8 (j % 512) (j / 512)) 0) % B

def dpStep (t : Nat) : Nat :=
  tabulate (leafG (part t 0) (part t 1) (part t 2) (part t 3) (part t 4)
    (part t 5) (part t 6) (part t 7) (part t 8)) 13 0

def initTable : Nat := tabulate (fun _ => 1) 13 0

def dpIter : Nat → Nat
  | 0 => initTable
  | n + 1 => dpStep (dpIter n)

lemma dpIter_succ (n : Nat) : dpIter (n + 1) = dpStep (dpIter n) := rfl

/-- The correctness predicate of a packed level table. -/
def TableOK (n t : Nat) : Prop :=
  ∀ mask, mask < 512 → ∀ last, last < 9 → (mask >>> last) % 2 = 1 →
    getDigit t (last * 512 + mask) = cntA n mask last

lemma bit_iff_testBit (m x : Nat) : (m >>> x) % 2 = 1 ↔ Nat.testBit m x = true := by
  rw [Nat.testBit_to_div_mod, Nat.shiftRight_eq_div_pow]
  simp

lemma or_bit_self (mask d : Nat) : ((mask ||| 1 <<< d) >>> d) % 2 = 1 := by
  rw [bit_iff_testBit]
  simp [Nat.one_shiftLeft, Nat.testBit_or, Nat.testBit_two_pow]

lemma init_TableOK : TableOK 0 initTable := by
  intro mask hm last hl _
  have h13 : (2:Nat) ^ 13 = 8192 := by norm_num
  have hidx : last * 512 + mask < 2 ^ 13 := by omega
  have := tabulate_digit (fun _ => 1) (fun _ => by norm_num [B]) 13 0 (last * 512 + mask) hidx
  rw [Nat.zero_add] at this
  rw [initTable, this]
  rfl

lemma leafG_lt (p0 p1 p2 p3 p4 p5 p6 p7 p8 : Nat) :
    ∀ j, leafG p0 p1 p2 p3 p4 p5 p6 p7 p8 j < B :=
  fun j => Nat.mod_lt _ (by norm_num [B])

lemma step_TableOK (n t : Nat) (h : TableOK n t) (hn : 9 ^ (n + 1) < B) :
    TableOK (n + 1) (dpStep t) := by
  intro mask hm last hl hbit
  have hidx : last * 512 + mask < 4608 := by omega
  have h13 : (2:Nat) ^ 13 = 8192 := by norm_num
  have hidx2 : last * 512 + mask < 2 ^ 13 := by omega
  have hdig := tabulate_digit
    (leafG (part t 0) (part t 1) (part t 2) (part t 3) (part t 4)
      (part t 5) (part t 6) (part t 7) (part t 8))
    (leafG_lt (part t 0) (part t 1) (part t 2) (part t 3) (part t 4)
      (part t 5) (part t 6) (part t 7) (part t 8))
    13 0 (last * 512 + mask) hidx2
  rw [Nat.zero_add] at hdig
  rw [dpStep, hdig]
  unfold leafG
  have hdiv : (last * 512 + mask) / 512 = last := by
    rw [Nat.mul_comm last 512, Nat.mul_add_div (by omega), Nat.div_eq_of_lt hm,
      Nat.add_zero]
  have hmod : (last * 512 + mask) % 512 = mask := by
    rw [Nat.mul_comm last 512, Nat.mul_add_mod, Nat.mod_eq_of_lt hm]
  rw [hdiv, hmod]
  have hguard : (decide (last * 512 + mask < 4608) && ((mask >>> last) % 2 == 1)) = true := by
    rw [decide_eq_true hidx, beq_one_eq_decide, decide_eq_true hbit]
    rfl
  rw [hguard, cond_true]
  have hentry : entryB (part t 0) (part t 1) (part t 2) (part t 3) (part t 4)
      (part t 5) (part t 6) (part t 7) (part t 8) mask last = cntA (n + 1) mask last := by
    rw [entryB, cntA]
    apply foldl_congr_mem
    intro acc d hd
    have hd9 : d < 9 := mem_allDots.mp hd
    cases allowedA mask last d
    · rfl
    · simp only [cond_true]
      have hm' : mask ||| 1 <<< d < 512 := by
        have h512 : (512 : Nat) = 2 ^ 9 := by norm_num
        rw [h512]
        apply Nat.or_lt_two_pow
        · omega
        · rw [Nat.one_shiftLeft]
          exact Nat.pow_lt_pow_right (by omega) hd9
      rw [pickPart_digit t d _ hd9 hm', h _ hm' _ hd9 (or_bit_self mask d)]
  rw [hentry]
  exact Nat.mod_eq_of_lt (Nat.lt_of_le_of_lt (cntA_le (n + 1) mask last) hn)

lemma dpIter_TableOK : ∀ n, n ≤ 8 → TableOK n (dpIter n) := by
  intro n
  induction n with
  | zero => intro _; exact init_TableOK
  | succ n ih =>
      intro hn
      rw [dpIter]
      apply step_TableOK n (dpIter n) (ih (by omega))
      have h1 : (9:Nat) ^ (n + 1) ≤ 9 ^ 8 := Nat.pow_le_pow_right (by omega) (by omega)
      have h2 : (9:Nat) ^ 8 < B := by norm_num [B]
      omega

/-- Reading off the nine start states of a level table. -/
def sumStarts (t : Nat) : Nat :=
  (List.range 9).foldl (fun acc i => acc + getDigit t (i * 512 + (1 <<< i))) 0

lemma sumStarts_eq (t : Nat) :
    sumStarts t = ((List.range 9).map (fun i => getDigit t (i * 512 + (1 <<< i)))).sum := by
  rw [sumStarts, foldl_add_eq_sum]
  omega

/-- For every production length, the number of patterns found equals the
row of start-state entries of the corresponding level table. -/
lemma length_findAllPatterns_dp (L : Nat) (h2 : 2 ≤ L) (h9 : L ≤ 9) :
    (findAllPatterns L).length = sumStarts (dpIter (L - 1)) := by
  obtain ⟨n, rfl⟩ : ∃ n, L = n + 2 := ⟨L - 2, by omega⟩
  rw [length_findAllPatterns]
  have hsub : n + 2 - 1 = n + 1 := rfl
  rw [hsub, sumStarts_eq]
  apply congrArg
  apply List.map_congr_left
  intro i hi
  have hi9 : i < 9 := List.mem_range.mp hi
  rw [countLevels_eq_cntA (n + 1) [i] (by simp)
    (by intro x hx; rw [List.mem_singleton.mp hx]; exact hi9)]
  have hlast : getLast [i] = i := rfl
  rw [hlast, maskOf_single]
  have hm : (1 <<< i) < 512 := by
    have h512 : (512 : Nat) = 2 ^ 9 := by norm_num
    rw [h512, Nat.one_shiftLeft]
    exact Nat.pow_lt_pow_right (by omega) hi9
  have hbit : ((1 <<< i) >>> i) % 2 = 1 := by
    rw [bit_iff_testBit]
    simp [Nat.one_shiftLeft, Nat.testBit_two_pow]
  exact (dpIter_TableOK (n + 1) (by omega) _ hm _ hi9 hbit).symm

/-! ### Checkpointed level tables

Each level table is recorded as an explicit numeral, and one `decide!`
per level lets the kernel check one `dpStep` against the next recorded
table.  Splitting the production run into per-level checks keeps every
single kernel evaluation small. -/

def tbl0 : Nat := 3751660040255930455506698144606023153999415668541591345170816371713656632820421222097586368967648707347658157419560120560678521722608830166952511710727633931687585559018773240184194488836706862450783856889439558605519865559296090497420351616916630456647814952081775210406829233816395650914978916275822842432038239712633551880346426459073597125067170226725873425806751690517084087492871458116541976417078897908313313700557830925953736681473058962950967767161468833059966361834962135716602995829798197288915394554244461006373182768601695291157524370939460601862684067174099489110239637284823367962798792690981719959019503994034911518449473775276548441579343722450955117683165025543476289200680124893802388975438274962199002970641792509043406227399370509048715172481134774540819700622676806083031369815571465498377796963922631503968329201332620184902038955087717127730660887464125152234641246327413750057223149563916248465331323407131674134593759350992942408437000289779774521955965180036721246059785242175540818157544575391394464688437035888872918133909344291325504647260555321378871608989492637436568063736900658970625642993026207214213201364508435746311152610849842756481930874577355754307318408634680379085439408304720982663371612671302267230771627249832387296244237933882096281495647381961154570301214991464624900102892192286591551695122139652081542890679907565364997190700262868533141375608691030646156172599031631506763968023085478580262637855298447835056734602869733346337243072278806798542735450025135610066649398258067423074806019369448145038377835235223223275026247480190319144453241941901230141797789723945714027096547967581837343292962075750541489506342138854773951779331962577673074759301642758941689179375229013739131692166852977011640508568902916738386621378838656413777192866089606628677006328826781102680323768608549333582351449115040060773692696990033674726683158773998785067818674998606407972459176387796609290839773962268630065974640997409934074888885470048305746891283569331074445494073223604401090133956867733731561530351733334660014534134688737949090609312279613398814247169124264505277276720301631326645550928617405999167876004494720438856103182217692364522400049861390291422259790952324096112580132493873189893724817129358412382998758825532338696232077669037367729802401998128732043698744380269607787007635284839319711152492961869846180718917897707782565715467915865317360650805228573956670207360371367114004951311202909782041967727925769057048017320262778110628128317952495581085452027522399056726976765050481452042888041648400435798420705861218607938914997015474245170040645806573650159451614185067899348813370010209655804292232654568751252480850859307489058549514308497854878073934035370100005299428960339369273204018739517526808184722408368190336893016088915478831130793985644536250496793654961151221989165395442102058474267467348083662930275096138614933720511351627430969802641530359565541592101099316123881874195032644191280469839886424322542748306206032062876557909361089575867296366472202380823221563146223605430339879511154224101463997223227257306455683433800103735582114698553497542349733676642976101247096050080155359570815298414766965875644397659317197371690649483558704171501472574338583194984045582554281702445136203856026884512081828449412364091457973471009279825284058712449756850404659021202895218220053494939049960800764612991976155429469573003232389730255049127002843509240022866953512469406696778712161475825001534988175236933652267695651865524989573865243132804569650660618098307802935715860762351940994137626084105912313305021519387651191753163016400999469107941154842492319367620474216583140915829928130418189424257799408254616591421115521467165057496333117629505971936786083364068264880392148877765444665267810148991039974498314403177619338081652765076252877454150713835164146152598601733763305766969880686178360302290382218380210179677546078304668605702268543363338059170216187787482663816013259563097627463434125743043194478855548373392680089909479735432644420520232345562020463522154682877728721934662542700831811633207232705265145580129509541947825618863660559476608232757826905418168530840399773179677419851875179389053676187259386594901410947436395851308445372522691082601239014275013418384298572901459681252923043621178472845943196960012260130632858078828757169889714253830145753500727525044128634719625348668594987485009384105544928621930739943596880561216581664655052998260067626396455664810597283811586769829730874449390755116505240790578091632360248828156854133883344190217353755550365689066935169111434941892810608314113357984092656268392580371289377923761833719858954098880465899304425436525322593351097810543610401047146754919032828744817738793725209366323173507933594857525644765205253312570738914888216485963560455260554674183160438264267786019376079847268723556923101154913688852189279993512431881417566666652766718885582390992506091080212125267991000349461223191496867897304593693835707269250748793928111597350305628872033003423895808066818019870783034019158203219574987446815782035293823215940853764644122728505147666689171707552244383151563109257277014846342870016101823064827252052690411282466122655968295787646129758538702373584455387508563740229691694166592860275384416172467721428513527762078981868802272692810296452154522763534298449598419125535046541549254238527509790358620723581154569526631341064315690642108679465572362734990780091592437002734350233891639716109945978183445588505854426230915638574114345364843543518444683407184162088996982832788943105306324292599858029811564985212950643932606807873216839250929210357783814646358227133653788209855073954621678614155973421793576917531157950903505443920472998576006508713968240534250131949753411848559274680148194000411874790973367653396873023663033884074929876860597247139488292553737535312971063450529047317755288837286142267833625798216494479177302921439908813886474092004780915708274963427186921396270862906440540096428391252095284966660354714313477357149315035216932641258011054419613470278956702398259909121940991397214193842856279837810705429025837566752514041765255617746425237664032532989116644406601983004399973994117770135925730875097443173641924511891112579955300419486855525334060274812985887646049228060636448968296805539766081983135371962540623976710329108155022259346655243643489266574802464958960632777251690777773558457064327569154717308876067224706096820079908989542966029878361015017990500963426314041384457554227170298803544201243107985354851570252405627651560998102412225328540314876851820447130269404913604628562972631914241441361692957167870403847105650789616264363350629549067705685346856730972470756180823204793606280616064930505770360567840695980944660313461700182635797750160250547941472982939103022234370539142552354318395027495501469080396717155510086290120259642525244512665800956600348068526995814403385034974275152297345723079261966420654798553092554104660735518582166510352472104210229332646652996631484894147873369738914596936573200317259909569626721025230635036935583323569629312462438676649006589399884817333382028526297317609401586363378331888241628193247460890569877232239618081093415890890795387351062010094803956345852524317066083874082206102338582148135936150304243134359791466435430307099878664892327717497177612103220869773606900626107167430365801987647293848715347786441523853880885427970117696342232352078990606509902687156735244878204709789484813388310240590049821287033827127155749731490601908317663922500616878509593636119225386969337767569419879840896969339492089119588697286252082787504702665113180963743403956182223905882290483698842057044903657637052153343299126039899668020068576750198513894470260182486289632780274276090759346636553513411931367057244542427547655318156649343135037497878831397089493770779688001300707639689756105610249136409578895356646634215855586864190115518345857738492502042813056439708932036516036530016538532529014765556966848419948926100607171505997806920949469149690512965772729953875211756461337442754605580153347676305727894662035410372681911383564603637307123656794991664275462114540970671359817683051403621478950878757956073451491037239646475598952624778947812089681409849652912308239833211971088215979487674051212923110295056896475093652306687107768503967769947978646359075373510317997150875863995571397852535937318221882147400007029083778421999057089615760687304985165217574986117051453703700688936028398481704844991100799878943746685971813555329299522801481254704739143802321350689672802356901885178833586449563522545324476572430166629226094177558834253450348031537307637332646341749909222527177094221786838384741141660326418054461736647755062591855459354366794164317801243339239688632839699121513917092759649633550110317519424842792197339902706605031866686097130508416755847089995844998065072022626592915375515650750930295470457737558482412913120769656583429642590838536127681187159250735038224819148086240385829029067932719599084663292949842214540661357473042567606408141617710182683208542213472220294044211064366079572015529960618745724408240928845447946779505754779193626177752574701812148621898403574603408349976466302027911067350419757085461354348475355238216633446597481359642766457043370818494003877978284951171754242385052013269518029074333497718544960415263603351866876685768271877813480834540827675754020913063250201728399284715304063504385452542498879222903290703840325368807750277328896755137730414367407266673675857325529819617727554431293453636750581664450367703598342039937876313949141396858750088313943890267581428811871577176972456444983052596787980519475946197241092752347728894446831100001754721491089038664359244479920226579291863900926203628122811710025512964543445791280413213263637264184434956379269115139823154316141332279155455983630177940580095645455626945988388666000703438211218687592777298508790734743026401961000662708969593659864929355665067660852835022525398864217131916296020509573372289442525448232601679584597584814865800728928028259640372035270021493856677430480626859793208358010314172294331065732532389566358994667648226234451149903746722144643535664325386488335502177005752440462772438109018814654326505717771850433893310399473402465466546020380123366744566006377444488655044855715697953252871516391357897831966968148733142525665276006597673491003784335460770735639809147466296690136436092275596790112604727069308856764929688321671301807343725080711597951953356567597470291819475003590853895710443311803071083252227571197216069682268289536720984925026049893000762772028142651613773274598842880866042975829840396890496531662196832255325211870714866527252632294103395218735612632269997165305093000384601611752841004643139810150217297551192139195728999902337642187844773156622514967025403671012152059349040486143568766281418519289996539263034599586777505979971056606321765571603459791618218056436217939041906484083099397544200076196117510620840730764684431375656489675102174702772695888450130861644910156863656847896837524408887424279907175893971236233392224735710352361000701803741323412077864438855623863476066826902650366341003090221705810367838149543414289330506629650597545789689604187170997807142589635701137333779075174004356565873373410854716048838421663843384466831853895136279652405286173785366497170605211987351515057380656080301946539372941313468607834620251246817958047169698489203805975252869142841861529292356376958394989272771548168596614108817216907854062144650797149541176753330430229055098295290370769363537072211466495426577464255564520635664885440488135753594599212519340297201300023991899252437209530320315161985129325839692188182721977681662339838067226807045499964345815712108468689608658159019161604633895805894830500268894277194465307879936743593514830975651496993940896750239680114055430763943633884393025983394875573235755554369910579370931431552328637213729348091486839317391285296800886211467361619950627783307393289058832313459452156533966373498355865373091722320498055735797409604784929686603722565232718174221266742930996299795236355920690340348357435883361399329063761990021480116449972059715630500172207611306128291926632031913227497034544265955190942864188750008163171484747804503538740967972241249040181409732814546762100314330240354276823140802890284045577067201203300442235005406054795351006761124064639349699598190527830645417794419420813577378786220220112317928165255242095453926676235540275913283933336658524611701401737334654319723987438309737014883502111597060122400682481187776490081468247016836920962756218224234884760308652463693475825727340467173553043507044328975053324399656354022476530238834348856723031365238936749456038162381662573088906970982191934718103975960253075827760004204275013408483371993354801770924455608278641253129927224039124363918617741620760334160981472138204951552536970981876243809891135070861436534978025774929996042028927353278161055774584513946454223186527018626892988836217595724955125311574086314912300059882702124368201686891779520045154820600839724877084930014529088988442489488762954267666965853214237987699780849766802469906116650244867589285309026182707442518063406285660796090286854208646888313789994083533384754517593821762859732562264416869019222255027781883384232884171504531862835325298783224699577380001476169783648889771460560487645887715029120141377385008438175413712346028291792561114530760473390337950035226930128472132908524352981627672567978516701261233002742939052098327022164477482650062681406202061118429360677102777179010682046804209265082584111813470501004667810571706786649625804701262625722934153107265312472078046076911394999632725758202458381158991113260789256947895265918893730040949225744665326089209500081079409325982249081921447902546457842288687767986821027730855230460334370722281249418538005583124156572680797557822668744050105835961223740662620553859209369541790879174040279570916342623774101955441678112129769795772280723730482816797628671997972329525536303485202001337046916442439521643265855533353613866095049979012763169537864702001513686898188886734534717852325885052692999700319414403987523792368290755381085755744303902441014494474457157080699448369025380162086786902177782445511758140907608552823800776439948855505865020956521119333760956143752928636943062627734051558291918895944703616385304565019898853323895919649206229773363082279462843917492170776395730580457874677753310836219838008373163584952896845638890051506359086682768003902995102357378573273665318441996050597435749672702685310952642731761006322992935810443800695812984550456317407074043308354571614390916133553539576853963247669679216367821267300936690592063023670919767874299215904743929798165840964786893826045407857367180250956282525809445505364507899569329408466003371873351508189147011318324567965374964984380815133413037141899638701585309511957316573398502136283512772119627262475950919294927571243637947629247771102604797548945260097606795159732026096415587829359311620972790521504330194801255249653808341793902581661477399775769551041683268301505526721298894832976137283486562977228898328737329885456118085575523201594643231392188895430787259869096708996149948160686333948085721314090177830298666741005226703069248627192195312330847162876948801611549026686221236448954722218136505629554550685494222685686812028064806524149041540196518791592228421144106308833784665249241126748483053109108238694843407381110238380157080643152044339734428620397495734663957975802013502938309630416424046896608280968782641260526977962706700654403121505740440069633229107637190151166789071215136001061089203476832242226412874580053645951317772642997059285243243523161096087692885619778402423184073812294414379584410247305132350396982631734049418856349306889397988612696979388564685437840352293442594209953669414264017284494276240065556317950955295436568821944244521619994568581737897852391160997236622285895746558734152376261197433186739849583492579923604418972219956217391828116510066804829458621133865636792883735780266098679500567995485893795110124002721539921803820457587646731120621338125972268893221807636685319637078313395351127940282909842603299443689551866343336103090935985990140498163390398420049147924204308673118826341732598889570965937193434246418792583201773648662386968049202036652906206784424686121906989023771079366757110848257287302265153003503040350200436989389416578331286982566201432519277304585422985873991985334851092425610680918027481022058303571869275840330733591062012795540009827171822175863065473703227071713545540990730407856128348997939248338514174077556678619139292570571869002087763509533199796374480931904039016287530825176723594618100928032919113250825951706608484394494314075268303112167787157578235445342743431643042181716747311567025231041824914059532925864318749234130980341133480150696612134634507057592853486924660661015508374586742922848389853466396723245878616436658066476336498680519907917163914579177535173820411695848649414338272053783969470315714016667230900427013231552173088247233081073795977406378754417046349665418005052122679910661583635177511561397456312779737217563363969881958911446858717506778512625581151094763595446433566894489457203004316214904194794789575263485855018628975845936867426770525929066756730576985843755573087389356597100485367445418853948407487745263473466419461303784338890061539995349004425862679593675144754457825293881080918064733452300821622677844969392398074573742338880814575180191696187004988989957138469561054058393224572706861858483902298986303558677234658517845165917699854472890329087609881428187012433331063397935005266989024784869353941775178219691040011335858927586663287419187047719947945230787367453056418584286913583899043029949106057264219538119067121674954857196493492916661190190978247989207731271095208573870780113446461483199227847253394412070279546189449223303334918889629317498222621739847896865786774984620347414296555197959648690944071105005131089282401680894073356753142554910199345307785475205486880298851572640701223947974699411986107891204795329516875902641971630743292228509912375321495755138511396652991924646950173176810046245627257900788277160146587127232497679345616158173982803463902519317326789825055235319107990371475492222065712867763398465637217692827776648849074515991708602564119737138348588152177850774445621469265642480841703464594335990045218789948592585418558617251590603924151812332405139517088107703546396027273011824428810521230323786417033686237544916024550222128456518653903545969935331253265773743472423648222063786788898417281142699145981837494593010490143246018848372656270370409107008767965985989529114368330961337270219752591230690843343983587169767171656657164496249429062122162745832235498729040609290503920822594468702046670901073134829540416723950216693650126157060918491339382903854227579278440780556593521399665291903816829655707467289275727700712550553588169608508735676268769238198702475319647631476758976368568103357477246984753929085453635312657576595431274649985269984147238275836356058541630943066773744589878139724804681849298392013200864029496903123137748634790232021413907737053683801559712745018600176285661274205355623284553989033557117030077589079879922620355373394780800969589144262344999024274319605365706611315515213164634490311506968043705662956514953413882442010791308460929878680163116615832820514913995651999068334782692345835981891547003486233909197907477873653554017308484074321305698314333935989292980899603013630755710698674304782575390213731799533206909988519016522826565324299194991387881619863451937815086866944449693155853194830542977565674692930515063379667305838258478473619529372632123846344384076547072718289389219233505314770001149940976279150300410003856847860941375177348758294387298283934632597827419001955105720150130711660655393476756623431155514481905978600873307204214918594881083366791739614938190249899691398395725448827978167348357538587589648858689345783476719389151158519958680796781947896079163482318564298733264032130826076494072601270087128065832649357344474433320544759573138431045466879573431152785927927969172366904125061997916049427880375878747636331111811604007058264789769163214540737599805920388175102893257378963498445267377595524706180055626965452839299139077069481024193938011146646591968361435410255999528078444945589841317965971554334829064439552019885441354234405423817566752504012206401520986195813334659547084818012156924960466943724829245291331067378116126421959880276447251850205235698256484923806129672025620181196687234192093305254612776765898291160923464197615969559630043288907158135732364580572478564262736540127060179550074874755288150526406950901132801173833623839447237206020739521037072399037978790103883634120686330672576242712511086000670830535213036375812361465896060654571579364490561015495666060320825989335612341312652574746445059484594573333092815101506211164016009150112639953418594224179831670754237210121822161043348602783715132961216342708049227391554484211310951046031771585763949630282794564532924996692433611427414246480415892139631005437802379097101868949409636611701158431513765414657610625845426635652109652726972143065631342741212087379681609531694115910738351484200904463470346918180612563954847492397558284761392233593295040074246260906925718516544540105756760643252849870775301664248739575502167839727103442622432478124315685844394500195277018216465319578256112720011041415379612435030108278809090863170945113020433837145387633990924265617079345644212970295144372643815303541239170008660974639847401704100653640504609321683551995515953221077021721279652780588404388327409300124814702991909804140600698301262195152588477052435256207141323364387859694532322796889306637655784350013422914032423112876320977115699888372061637345463087327334750106909791482983821377466375780679322228095465671097724262755693076147996840355131182826570855242742332396941362257218625934296502802742586223147226860783496441436442303603260163475539668349385330213267253572889969972989812632334403490028307864293201008589669618111594006016099344726661294028441073809324781605193524265223609119626732867587682866110506751423226579474565322420811126860429277737826297077879952947425386547957581327271342051853002015137263313817300360495173076893352599507801226745094452091423738017963818739304292944885872275042787027478857759410090054325347140442749932026411150522173589459702756387469439579497766548693005806163382504114742785163886823229222568487258101705208920739484642183567798567715891001683553508098719436030368410976066979996642398876856378974075526743422681884165515467453543636905390718828223216124563091161780977673805295946727011962876779916303285154473275587861563124368396251389659769082888558734111388264315225541203183084755820885601635872155810753274291542169379214215379325261655713349437281741018853998595096228357248425456553770979663539324155877373986198638704338539009108112830368328772540750213970596202979611761938500852322466134137497338558598268227819773097508328518915651248083492313270459353569892544952253734546529416433116492403429003715189703138618257273149338182366339106211524117347028312974955965218011928294036902131115600810757847978494731265851667580494692635958119311286935773433945246861987435661277081701963811762167827032986458568311495285668289830762265259523349279360545216643228209712865500575139316045536304500173156166768402660446815701018334548428418870346958823137079260893554099395534748922832639839991393523259719617848163110126499679815884200875712208223468698189102353179557912413477596389873328715473128291940241770525332686487625611072284061396299578973862490630018271077426349824700566686699045813727721056525956465207483272589483825659364035562044968524174416443941758238221570130904891810872585226546233800907165361391315705848835000536741091739496422192233575344148886371757894059422757830411092740678396116032262721773735355031921142657547908587168812847026203643703329988283416956676261195058293647788210359142068958166422594019917537901418092956140032271982010298251272823880805068168232677589845679866790470316333298880812234947177490959546858002365970740888548790963791089362690345634807457288294955362360041731127223988986891402711446715539508396523794835152182433861678163344463832306724494517444453503820286359346663432771488441696927179786240121504599555099249195560206789223154389423266372990842937557194304910132317491383056863654180857089151785769167446886132429497344954701519975931156847782933661253544010313852127768622777914778327110785487653633556628998459509255594888521265068925785936289217010618010275465153714662197066055801321951099384797012431216068574184229899804572265982238311753503569928994590938957005381085202862851437569457957810792087730376158784674798830758503680817774799763185150372606507234123415900959326257950729915597431947736760230444151166345833817049528952400312170074264763611155472446556943639283707050606764326343962710969195666556397446939969830179131377819628071171812615412031363786581128805166966505857055141314779682262109713369856894858526947075603669010443862214443808579961092374816601490247102981336971299363871506039410620821325557727949257544673526061866004403259588424424200218445525430390847662079186559718732599344110742765120630720357468994931117159040420957574802662222517446336454620524597186459372457081499830630647824831038153373672529678979149211749171895469841268489529553832471266526731215552311083688875747459653304754390803954637902636652916615861097626479507325111026521561806174943282872972809924932181769660929444510762681065129897329263925667984383470932243451700745954669225854500647875639755256026345231517446901107086003449942007409937394888287320529103363167275049245795844814313796714773367081693488796503945481188579948599263888040135352998595861460272812937074601545504450413843568854423860124841114774167498864889158952909281535638420678438770776166418919180983059773206026102829449409002324727480520530063241840123799684274297067646508478719935149653943689329248479911083817820337923362847584977933095633494320285706916108371779921521322455690113507562604580064099552767395265198229134057453961050010554065010827633941291422066214776165841592742529683520791784174272802601530811788072434271787857399323499146303492555211352343576429597480026159739308915503307274800807833737640155848490456014700914526187431320975221416776969684303158744666144615319090888417307829241522283167655503029222119104716862581541862263455961480140240119938501059542768229079281759898443863706311384424312614524073144856289495980635861300305049797425992992612966836540707454823232907736866335189031900955338153664060144126202638473934573637872516101935348879514224175831524252385820175105790800969934483438099493729748795729087420415655496958241565133679385302076045348608786959103065372260737568713201890062742779288950001408242487420859722971278969099296154705686062430329207116811621716737225787104479796951686960021376745260655538453016767077671173732026837351503503005037778907909747708563825368101269519365288564212300287935477988660138784436179982050864965115920200016447162430910245991640181616382537961316670580126675775003320171251330102953966406291776825175339550389021216017361702763841552280007284637639318057418980119702932637212552377616718907823807275208629098287364063644194997482129264758170578717619967978124143712514718526107685736252846498033691490221240610414368444329224313876041273147437232463694801476543748308891161094635516920687596766520960536613048518426097390191146131865106849744645029722877888836508281033743131419562686363172801892150169557045070674685378655020695039701847526585729137760918453695432901763487598305288828712946780322191328693146207639651492953986870730249397105728980983785644653521336835191136209608102428185408838452560894938531172851368147504620401029624230905859060356998370749840564934715713315065225199497062788743124912866993227462772254574938403018440647178405415333665727280935377631245778467549841112775035411345940129448491702509267014974903780098101293154626913654331676840991801455030403078406053990403039367048871891396236761942971149086655020226456189749251964738623305720149314715408707439572159829894132228873489614708605697464252715951096700141383423856107708723664060177878353030639746617983311136052414423656527185190538128163643285895356443544219541256809009425886747020804760820737139705965876796224411456406042413756048643450575274855954346169727192132062029937920062904619804268677024047350254034350684414624667907365664829128576379946605745895138563045808472884725352128140977858220025193503373372458173170577356632071652354080755292798866239697803146479209287614620509805457464768254654373423334821536992122276254775515657000735289551542263734355287637759567218654817993325047905782279164432506393808283470610639518115523769733478205654138379944990064605309524865474338703396942806100352974320031272110953251983135765796377892222847053876974798214933462861211687824685904973104441837305302654679917920444061097528770282944669104075562663313784928702457870398758873705644606586462319562668362547615234348135487272444008903280267453862621537502132665988448634877685554431283543335956467254743671211874436575817745370983374331223028148383439111376932916212142427489345407427349601144122106921745533134075066770463981797563171103573693386661498887051719247718439846131267099988935690977578833499805446274009298636100869570668064343907626072981619106846200301291398486458640852405995503954987902541981408195349375134437303213965326760843749532166172209702061782395595405645127121189597220811812019159060082213912100168711390034021524360338134020776046444382846998516928381823581957684428703427237110415127809759461844791049622286939160591360614633046411916764723877371945762287683179062439213651803554537445669868333367850341053754590101288328275310046407476501083113238880279331180986041333772141808681408907279231948580358903973269929804389637519224056770566636304847609785540373913733236370168087259589569104467480358814410757502118000300862375819833476164655078686391794206825192871884567889161102738779244609342836476816657488115668396305723809815486006015292806845232372662779593646990663257006146506082116948750849685660639184698322394997661976272562976632321588104403523884666404911328982546522602240232686129819600444854935549171820468666824871046489957584779307288267953357701928421180148069214477471032394783505014430670427128982010046158246881288030988515324739301313459832789750814610811840408242425040999276979958860015056624022490469744111839490556957638509593667484265478679665450604877490868567030279085271981849848819977539269768200484177457654091146962835535184561219016487755338161073231059876469616788260864678700002217913824825674142290531081395925421140441799486586112726091007097904089206652018933445684724346824671250459794077515011741900789190945738053320089921832645718551847950464511792930119640391893434598510947557719434180800266550098623581097405492444238787256703792056284510137994245633017411912803563563429351578203943659995383445160115915914689977493791053906727655356174273295729205700327386806883831294664293895762700062225306971347605684700698893423181258990523678384799760878632392066099480790761012199551683059307212810103390127871613623519785012778458903924065361899967012172493638519129682526307190394760854403743921308408196279105356110443561740349619538275454344989531023908248529696648632245814375179889736085207060129224231675724240602902434123188272027544731843682272237710973891399655035547132075281631829134837638735272677209237376135599466240431690724804168341506772251641496560590236303908727247226841071965169329327761277337949085699880496862684398425145380629877828222314346320992006094392544375958615924304919023602098250721942612163500566441849056879336655531975507023849835809210211389656442713008920931564715004302240899021540061569078042194086515877648600974993893219307928745288888564646283049418588072686209546635987897561223727837435974252711562809918318268989163568279987198935260782085504973103556336839968225276796233929924927473237123108141378502163406286607665894933325608713680649693227680739029941748896109650156755695073471637515238316685362574455584238637606578188932183303340284598286166783158765757423115326248715269943041826433491696886222276403200732112129666025871319964702881647083305304460862411671292626100888406702048228506124768058672635018606004512606242235061370671936985225809563226745281453270825247366001884463249913711204702184412699180148473466353340644563603114713799334741749997235990487785401343024177735148292702340532745020569271020421351094782277116120895421672820973719291865882591517489960469613051967868895433634013836393777533958467373642200330756781353267026281301114289733778392708791940997265228741479670443966613028088311718422503762426609841825879983558708618906793931751480766454983506843041151102381982264041872797250235323960017041807057020074505412983890445062088132453205121473994853586938674205897553375708555224801508139952952921248593277549135834812678778079573065975087183127000744572422440748547120670337804188497488678289384158803034456504446075593001822756220549084725077081024265906247331099931352522956865678213286982904027899207184043725986470672669816323721781589108591085847328014388163056135572668917397297332000557758778436725202850940370431034125877046481519208123225431686617783387240668963855296466723782746183840617305499211931568309196866047263757455919648076359992980693411430770456534533050014102441316417742897644138453041098222798047687459131170007665622567518181758188953090182924110473741000478869765018282966034910358517104074320229195356477696330901254871065838626198499843022020811273444944558586527183086708433318855459627507548422568644868186796786706461200875150238923512177098438860353491394188117806402695037031608959468357765885857184147044960136748593036332288919540652221418297751829630983248798324364937372505414479705429941040486771491355781120500333872673116057813465666269787712445278974958808157361856518621697192641091046857328499467791095904309557672707856002259247585393758108409773021520962722832315103064137502603992312043915731180364929256809954820556771321774854673569711321105931129261607615898182604877729564328284419870529618110128948851170396876350923138341200620224713270729914408036116490142827454821954577710237158004195465400230550445824126879691405748827630848514260323333155152053386738440963885315301052777379048759568773440361784059033685689468306783173825659411114718093345390092157566662699628650770580071610206928742697483949696913396055007623395587409733594603284628867683803035654166246540936351807904813826478147375173828202650340485971618268479631878295967449159036837758198467410644459033589804248512524231430875402161883448678148267531831736850368783635217693585616608242667681808865982770512597123982987834195798693611551529467194691720914584879041719998305598480274050604844676162357292315459112002608110748714610121403501691203785660608538281988462146757542441376900393310650786586041321369437951415999681403981521173501568356442582534500987804118228548705366819262980155172842384145558882202707352344258018711742391338699746857005811461841776265626037143116397001515650119677370341928772539299412081732904572490487369247187370181265692543401661577014407052533487206437069446746965443524907473480587905615450634438472221218929760779849346781607363531751701975730425347337328940232936327206951073420246998003342702240375438860082241892826815876893759885276411750844388571531134712613793911497464088081859958182684240232957637421368481949053682487701383583114559136521634966702427464518589672644051837978206075333134049388074804608862927731295205619865980820465676388896948461374034740643771883033796785067030528639960557598267577930115517824751690574699489389354638276130767591897193655765518228236731547952112175870085956288458234809978105091947800489872210288708631812458768007242172418524149018553378586025157532442372339448710016091302474384918909705209920508727584432228014789566396818875258028018281376174924822346139613967034844097668876840503737090451828247428155640869564766371567524799081506552958787729470497027426353132504870362411805920733243435257351121158217353372513797872208248749243151698704506663963435495933221576043957435240851286004294963229883118391288011134744340570468901414754392095177448079978062852291806860194852853370884712566643809094923085621448304770869404319471463617421874125891882665272884137345053250398209252202608340910660676882507378796735369557679883086326297258618439486005666669549153316511919521192015762969767653743459866347769664551834787667758601570208901995312342339387803953122439298167131594936607656542266507509991515245323574216868853490323158500877819600607101663343024134080820755509332718625751316229051785393388280565769841800202095011092639434626043348624935345923744611804509668056310311500673279537242949985420181488817491823322287872539624755578783017815069406516180178277167188338268010228986308624222044856050098868074813889628147392973279535038055853070766829387825371089099322640082123241450232479165476010272832115290174141804233912335333368551554039961637744735500560320168068509862660476415109149175964690759335592105299845807647143685546203411784550418591013597243284480328303774220027458027971387744646342938450791173610094022160232885574350857710240490550563664901164108323530661478352481610544888378780103375292164680378817753341199129260300299994725667152828103563503376569747695020350827463922114548035552167997357525776517859595091676686965425618180522707758282256037019185564533629725638382203764054059503285830238938932243465504705029173359300473970077683647859725259461170631951405487535922148707843198157808019800580770882647455508931062163924603288166265338871977245021963098316828104029776722769005290715193673871046729209184404344841562720455374018665613926740448212762041320965566855207508458370834958884238848353761818879234318268283310730141038845694863879655092350067029197346976288032481105198482503966040776826483589291399500275456318702653113440602441440064233162453694231679762699512171898981413079373145558387507440859847295544687303293504709974373375456470866561534836304520292369008576779651630218060098760266648607648456446862454600868446151025476726214039172748958022786138982905637550693054215872110520146034169159651944260916555728185674807341788817094011558325874234040718481057886961346087937767526691221427969025307928523426512104764510093634857581182293586973615459867123789953950235853097044887731478828451457716918731840434096562200303368545785827044772660964283350879860913206881678601777440534215457185240219668017170720403510244683657699070246351500775094368229672754707734502640155962035110793657086973376810776981283309805967123773838754402494319938196252930280608017049897279518701651865109357496360673036051205231965951369249279397342580243700285671331940687723813430601280965382953982525912315205820209763483487354040266830041543432392215883581833656562560926374023243677036033045097875337309284480866263138149315451629950534144085590567127321155022141009115191568051396148623979003791740108278034212539348034559683094115398759750865556159443697233101272252301066750497156599968728277646359461665296385297186055186035690157842487113399689185118162337103868461244654386225986674807068019936180603329874701235739005287517228807645389569739834838274266922454035942443638715382181716736984528385118480805932889201464311526369713418176815657683364777848377348056058871496345328140811173048604211730516224534035099427484426651424673773204149532206018637138820621956148306663974744472937612550875815034780142998914931140969352874071890142571756587850446748222622654656107269596623865040595613530421206272636373482785986768598179205722850265910280472107193598291012375722412887494073371152160401696405347472087039978174121016720311604691407493954973965444898041759489219569811858361093605885591611779773309286468826584915357867778109226498181326736277263837859310226918132058943329622999368992244642317480722527703857620057626912890492037387945981122934612297583065618644423248871570044160505833949129798677859063679671658893986848844211266069351958250253857265378703372088403818719192292432247086897199291065669770020131981564102747487640114924781204876518887383296412394679505316945709821575870046591256765041035547992242828904444752456725039374017233905285784792094865534197216402414035986331917231251100193185919914261960782951098499156623822596953135481052644181218791196033759010480764883599269100400169804170999359425390727919067120691383300919095512857023762431192787211908498117940727450259208773184171237301875175260503630351308951587143451928587539858615812668751598162822528903046216195470157531399017382505187168692113071905509627093019023429707869843939862480692860041076239895875430445062313943369539517389054823417442294870198079463222538608179019574466760052896828782431164971930446501194515122778352556209584572961809907243879387909185439786104671405553632003816194303467986509213541989849159505350927720166027528390581156399479489313543948667367969100270865947138919363232292447912150822380241287687072792470237247554982329775145513786378521935639323367192913891915061705222890879503140248489033857195298237686842115669522781713933465068167892778068246269436256848779868450599137404366180410226670958943491184256753712740432663232452448844734095944066348243821149151891270273461041994915506554211574815198620441718191413359924970671661453360352787907004191273123969798855457380148762147831579866668967698911336582404944061402883616853794211056621399085890354637863769079913077253868498367900762669736276206213922028952473635173982260287928248567825331073487971727021916682030898930330749750990725759279092655333099242997096138198158900892441290871648400165597382396236475187693257827402523273610303703094752741271089953682523978813174803293273153368003966861561746346623734090430930893160906875778599886787014763317229444772405957823754873977589344403964523440588923834617854306093618583898234837357307664080425259540870372036866156600565443866801583868137792776426673207541433321059592611799838129099247726957239279380633491589470985047624061333461292933727043617436514820803221225399468546217912742746854042852081781011504406723628185596870163187092001999463418243487945835967174475703005543106971761400444703776892834001053407818636640037469234008383056850964137913934576798725144091064385979251125889880313566032450143326670423580979248080631684023638035549663471204131989884533628182772853009397802358523512318048993329171174157382841676735292395439609543399166095354533126506058614777891622047271604948922170637256067942044045678117185254897946341280189904189363929137658937256416218092873785040567630857263268985058103327027339812097539643207275254868644481477931247620733264215611045969522880285697326305873552189606892401966569574598818703154622660413703306982735201532609991797657561407440380236611971612557819783527635517029541922279246625472573778829499974203211483214500560987120453407363127347243786739088492955011538206514760783216070444015959042793295923527473432716388281186499268143761018197731135732864371510301891464282712802896381396034216649719077031636192091503841095074710376103086724736424185581686504140603829458678206407305437475657468477475947505065597299246490718792059317725977013639124039001837349401743406188267022247283405618316054862853456248559425498734615811390374552923751692800487876616206091503775243328136987102711030787068134906869866157277094185371755835656793430753242681723290820345396366442987389340933609580437305174051668650836756506455827575371309364663915758757198638217927457919335560896056391306394243302506749883716759323140632199241999488139366198267500460872736378233874526956969603631071446200649952885941233462361344516906381236058683935652962323719596584912914858186222531429613819734224332084282511435320542962940114753333347254710707740766754546047703706413899166031542858464174758740181123559760319198050016275833813533523549798254174060728338274572126162506617594113858807420042777247841607224062220372227422510304133468066502672399878456272541150471760584314615428368075977093686508372741795618069145402663513129495156325586829680249140938162772432335075799155547751683342119818382653976336377349835452700008411504014839039576490648268443598840746510579404380768560281781171357836275970948527980965528913806610755275434195956914503231038918609277943543345921486242935981758284635765530961447438889915844743746605448294613184564324265676334818704668352583853437519131476360757274032851451359770051043256218359744507376603684322278331409983277737221010117126885986647412126854361947789689770782987004052139551129257081636677677664622158610914377538281275320649819244084791713193607892256511834457164087888123115060660741938086653713678487160519736769546579015429870132500852862980165305882543626821229144414641271583016947385545271215334144488958540156679227050788026930888800517612360343432534607996406306394514569344098287098269173550091477173370747874041760134688389049201173592810413993160518696853240546466204320334350464560395304864806828934959296310899013805920192006778283140067753791147210449549433550543903964519256979214073096931696122956388080173998079173383715881122981441773395545884303864352120859235825235971859407998860189940114617948238739107392541570838988289625735483833172104225416617910664571866659947006515404471776275828186106220863167324607489307900280744558538485571233786408537746479999722101927624974379192229779049486924504431691776019126229647514468772357203351870139324849911450849331681916608825291757820758008600344313607613575356447825913642080723069962547903945264488474069369834811958332088184707968337872886024218843849264440370630708186695386436539501443573837924900483004836248049653000325554851405043740477027813366549729110161523735165472700673561877387789042276498499645756130619113686551262899230053385309612541922193691981463659474434458473422643277652889229716155284677779081102575096648962994868771085704774045465148500972445687877640706888165063311335772526503831347243229241198720767181245016027623519404139236690354678634683580153663167154055924021953961758725436647351862191488939376740358469693760045827642719242137572211887178483970608636170640595690471555181827620127138920827135849737335267036634433365260608127791855188994737594750842404956252969137748457905002386245257567601998263487685147117504683023556132650693176226656377587162746607338882471134723983520251950995672850968511286147779920525890905781992247090064019304252126989475311260215100809933686793907861634851971241622646492774942877406937959137422206967821923079643852531279509396736495267787967695801801017927929548863143608695935158246174247333431941477694955298167560656887032413184638878330396026143280288735177814581172296928524756623395457754795832666689430775912402077037069522834521550915670860313106864822212169402542104573957117414206356330593912267172625448891829250474703242625474770506180635857856382544574073317835066032212117857630665017247604607190480609087216396434928346329345035025317499205351729044495061840531372097694663849927688923472512239869343013695911232807165048413756234727892588712562441564467208723242026829147051526249345109712547319495113450898927001615051562614610638816991452166990322282974475828657220797807276501212273404617870983224706141832560345833511717078849058728181810825800721363284480317302502640393890701351631370499872823054746973646049675645792399284151255275437212222634951536586364560468613698803498618444344240917424743881448279806131303023983091316466519511139149370084395689252159124233874236032422188404334701913738798314612932695647370380510606701137258793126157119636246980090858198251605441614672761760598058785976350620778744357465332930231178594589564073238169574737328112838186362332695558222569173197516175941910746086511055138838001225318208957071187017603652402064595754385651092394772193278121928467018843070040565776662988261036694568296364755260327396617438943286221172290146149176965406621140123530071854567374877412129104471699046874908021002580807993934862266781088070295323886511440300130110696244307355348498257127948729754267699387241819544593386251857081722300762108396476346440826737162065984204444965634841960538247877113613703441699193236968824335862828112230046922379313665124401716068852314680948595629774560496901436591361548990038963568255319232248519665118770968774684573572225321583462348470532615755347822477491306608753949281110234250095602549955816003001296765725876366495909315561985225496012610574696664369686166161642500586413879204393998718632570713752614506802385298097166930599486336480858503388487499629796712896557303178483875091957582293574396757824285424271491780233399858335158860507844762099255494558719167188606768321476744237334827139722604206550614638635219075965944860339192589445887102501678029204960076725252425234252265600283788536261551192847687239550872570359602527737749858850715932093974206510842426546790873345884339490385431615817099170002406414171723307591955179819174649639670355355603756525863933177816932189172916367378183879703035747360578275260030937014088926892844346937081049123846327214387112186027230082315624483925558814489979850865398373524533207577057754134826123503740876769091771152985613982049894726418152394474111975736197474509719812716004377000775754864540791845634733095336813884164876115516982404516358311790761384280676328871502779973757494976835451201658174912686652999487283382936351858590070376386669786214178990301999781110652690731411390795116006641686209471604756088256425752631781209059294850566201214354055129125222552029370566729048847930035696544204448528817426733359088261547092263905680684784984460461418340429863861734488314455358180079916526348267776290657521813194216143601641952835732533151939915847615699483346302175732043982651671785834495918779360664587392687318532046863585740618717727054998046026348378167683544157774765777297432412773733462305308133312366391035549251124254143662711610378978843806431544939642827313142397600666450241899364248337042020086847827915000072578147453805494662626360163612569112336432483741086284485852543715035473177262872340528642822807425045041366596208649122990658938190417622220819988176506069018397524533266526050653125907799229058096666686742705069872447024319336024754496845532334808182454871693929728767435438708550574715395728703713470256372504321174624205659799344130717780556621359234007148688688595299990578349931778787925554654904658453848092672968983440907232127697633865427734714062376855320660609735529232587564262309732933281660474484098290986199095582362210325590874472316730770139047238070710790818970243786983894000296902390602271829511621671900599305466788447153097121373138907984913431761790636562824974477938497295687535356142106823627911131013468393025757610375433313221132950044127031403847147831024271080375160539156714697093768695942077827382352990436041918156808473807601020981894967995363419087112490807019500300427763540726159767521889433354849288906586500938357013962294598206009088350178640153626451883669124648891536865319558465317751642454479399450017508355666080045040334983683478367524371052520327942815186336622815894472530638617205271250387088368186019469162449611803616155838371861525008049099715743089730900495809137118749017432868158809633563028856581595124326815449985407071394121291766710334267439845361244340532176754467104318194387342403969455295274329896725859490585997555077915900645533633528329855917069108054886514683282920529425110730631654082298912425982879989927979089491521787166231305744035135061004291340603969829790869140316062827105548714647153059196097162309758313480247335049832745163389417571200641450649700481115106112670793782249097665751035201283742903964580461678156067517817623282394582299268843951232781466889384351086411088010700448626574502406297221472161649970276387519123868345390271443671513258993468183436714220904945627125275280450485044978123188063550895683340748405611189562572422433911492497973702603950769195881815609496653537125137253892578924288836630033099333885316205950959312380524784232307851258448231934693204348311740957198414747076306724125724255522069699625613978389064192765694547625415675097669555663873898016670952190366226271735485128426117692624262542587810110511123864701170252148211132073206948631582771880506102539407954519289179064023061396393795153206351676013576267092929574993668655237744440338196910130385689067614778269800610642356711835715908988521461720487015493091992128780244452510523314968487943929897044392451362853441463714864692072945415221464958628407761862128849031729452966196950203192086543469771238822042006098108974082211022483735557682611407016260252858048399990968107458453353775174331712705583733598928606477786949922562942716048139025167229101485658925125025971989867746200715036524499329368095330626960569384110321892013596133430025230887037891094104359375080812688687980190347590583256667940081392830857889873957854000821172469505550532013107185673908605547712527510666947448604034930670104833208933695296036964152147917792327292003911706347791123047681332092628424722246737560618006524787761165480894981745637686425180129803047094205430506178164981680534512758057351465501951070272084061992436277751977795671633737745635030312046177456549231551000813773131352956382965769844895326835534946067902843944108544346888751986216982895578894886010860599341598619199795060395219275805512871336933011432598137861464409782618916076695501633083083778578374415331928589773725922752803903621298148462589107322781295586590862539322672996173098894239678608289051862538585015353697739522489345426596482687241441134931930659919133282864822403078268367692673030618643989282085693093356077922830818743945607096265508590669951874732963734550104917841241693719979134363153426183467707358990315610308091015708813261926584093496450831667219249113762240454102399609136593806920249594360815162918245001388574004198385867641683312212924983126580340064008534726052303668857044574275407990618270732067262464764572436362305204690349958011499884420297540284290192069847617820694474824005754319007284870270701838644509076706613954933232925946645957638541578147164561425606178291562258518086623230967274473303318283698067803862398223552502588758811636012082087168554960184522901463691284481290231520061244782291742664984284333404071129867553679909628857670170571342003110572863505352092889737795575882796523207579008507046633168240349935466785115324446413012491689452531909317886253871314386917661917169854882657306061011286893364697261047127870406449452932474529505968867015671963803460695162872598187503919062266886346307730163169294841066602514506364636901756464529341534799593896513121607326567563491810166654187802108362031105110908015391160386784150847946600887814012558620158393631410597734577362280807494176154129596834478042621411606213682221788920979601838555165269186190614058398407568252352239358649983974782062383003149463925691067947452485884646780566770916251401748394675114395259159284542805208414669159464634972160702850292381629590164725099688855521048660301911863620641724323563022074748463334394803401512955309681946364350631236207573804002819168200751544020417595937065933650463777506446708064896691171821583269448864484227289321523658507343170910116405960845602176788210265906022000809422240381981369959468540466572116744020596739708095564093700151559801915223122874819551424291034444223000565216492867965189251451448097216954256775107814319996633825244435780764700865546701755794196984817417432861970856884624259349309374038798832206721308883083345524750867606101173254186691595249765290932467379693184737344888428017856817657309363703012869060906994395209798509066319141156589133882278222894121262781990281961815550609050929108714124003836728809191444731598132711288604523475453337637304275625864156424049463392800550389809132637124575482411547636491207376145541923680670044466075290175791041334532636093820445974506113912308571951039182438376822269495941257993504422238452493585428324259988911246391951525463160861432215340205220428200823460762910272446128903822270236787562045784538492198754914662054073851039257298234648357343685927552224872432326964497143135219744027094396938653125674411304581633650010983084710704000145058776920217708249367404666896532377778045850705139712674532439292701392132069691500656950678408718855079353924067314664342548299899132576779829555843958428358978030643611341522397604766396282851472546555820166439284649034742949528360534279978751401998564750355488169475374778060310579070474408709930905177226971715428433112171850122847592636938039906088840090663368477795329791811996627548294496989172257679330275034356438104062819463680764882876834352412747172617900048591312860098716220507961374628805497342833534575915885714702784263765798739474567067933960607262274615790494288718085173117928367263749301198172277559503109871961824637823764542089238221080785633988148747634853792211909509072742324245023336239687534014133788425373933687836084231172226466419596575862244170876169312294103801807073821044638920629824313379927645975905805337454729238131421912774127468625703946181163817881033644008944448738336921837499070500680232870258473542473229149295567499240047548202885988423153597342806012319176061910751708486458865905715020312317226812909022844771444095685696247055926008187263093421542736716954013734963969908374746296281235200818707217028728455839506566642359358791243591601264164789793804820541463495670703077136516508997467331843459373698843043844125268290470497272417894848164907673485130018547304762895531524773144384353986847576898228800319784770489171083031057842841466105364872947538779895843806110782080332223194893295482012831600922302322311755985088507541825084756873662150715900452665108498598894250909991331326619836860137897975289183184957275373484249965570393858071976332259929505214993486608342745668700952906708677424192336193636739495606788859141115918861924891637551814530376328996581065633095799889298392571250292947275219632964711113465324870994490538528914937974200686474993495970937115969093866892073902274154098629628518224134400453263644285278822388109222263195194412620334006516810316816223851994802068807237719803933057359495233964006438190480945683849192683078297000981625213812463283867681986000079037713517280316793373309510635169957957466332199943459365167088083172480334708547799449655176081257859750123029870448508118468369155856824395709094739432040850001374825259048246452601205428797415998074573269160430322742347467475803172076181416994151120920882860739533315115942073801140111350142048737459497597961117729466730765571197656381178843236401810581386569378463093842151228830500311221771736920705679764291734682085740648313624206879234038222852289561280697686560382768953715815461461076722212258770121652275961498375802475267166249167571982065422910989196977319761729948676302487292815999182541719563652969108482890037933447047591359367690607179969424136319244641908358061218883716790971319115849873348408184915215387296003295329739445067858182734458247349453862785387359637315181887380353874645828714305182479999006558438024255024568486718066029700140778539428114471191657899477178382542176439548500564785459305139265734327491345987128861692727912481483032621732217743192066515823995894161878678725968778769974082541017863874553140690611497847121202269734510737475970958640742070419898196293490779026257590238298180961623930065287803605704046804716285734176502101971989145291586756109683736647449764102245136928733547524368488280465263503280151662943967097474052468137179349407874531692356741155289370386455321164707917714357342191653343598968873920957238144065177412940545180958784551594430378795355220743757011096377101435104163405646908249107551543614958921215774530552453928930332099418549109051868207058096534627904946050089199473316282660333853784910729002830561923741204335098150880488564860037976366728047711167826774013274927325924209616029464642277294105498715258968246855556683864964601437384919763582018000323573168874495360503396104776225943835763241052351905284595674733177164873592193710806603005162662659341917329452569290895093270241535102956290117918492940035224381516753152717058910204474941859956895526807646661905917642681454345543594666713402692294257069179365889149933370541445006293181261656709127000619308614252353713689242030093140634179273446186576998821020300738965765387994692917662277948082803456479140418700134175231472780646724255054446558196640264090041683122504337485581967529354414953049412430747983171835279549237880274039738737734075453348396473881801755845182833743574274479168889999723302252634976371735659890509954263175423884178037098761730854220560297242190626111668473096318117499250384903041968892285747941047823338917241533316948113155338052126170322106502888427366816365333121556963435183025491703909238260956233263754811910756156525682568520985035116302468533930143825608338925040194960807491314631229089753627530080888704320246593243784096244537185950155130865162080994001060705280584141389289488766656143729942508631530906606461747840590422377707388458283713880688021481916771489745800266090190019545453985739133111670591348080146214598875812361861379380735512560489362803175984770528356050969536872455591186891195568372165638141576286435988254977324578228831290641660552421865669941583490706961064284211979524345758928216030540939000414580360460162526046072332400722039357072353859464290363463651370055572920993856705607194750170476966314374346038644487660040495297754658972705545786357357512371629857615155922827473943807382187005768377042895160975994118610028118260929129592348199901107311279984702936210682588980336186300456693936508488564553135061366665410336915032883710465909015491976003330572967700124196138869627846784086702225944333840432625013029130981349881618383915988519345811714879713585395541601966747676858292316101786031125146448814743131373734088093902234005227029822561203004931776237305495221626109268667984445233128582161851112461775395336688787787047176462131093639441655710289317304413141773674684427950992676301767981129943191926910080684241171742138265405836268245647665636243409217475998021132277100125223066894217995475021891848238001524935804635976258845683779137931093913699081607038774506464481144130543006260579344149548890030403063559036668854537812207033437220065973643039234432854720930158148870856967292243420803226936634361875964061416767867256545834067600031368044312556046657893239139819185204454770037636838130993682161798530791064497183177244432366116019335024201368448469537677268730128905885878658180400074113158035905698708831136604032168108896616063413127336755019707388780581748012323612113666182213224220642258549376018877752919745752441773221914873876139606096470867824391468669997965384634510819728487944192844547522774631201409922035714541107096750822506960231583333169576876232832059217358993499248626239405467113284560544383244813107712735021002875905072675195321618697273279510737510411906056649747208076612082106891656756755807582282402152033007319131558622117758543957400050997368790880140841731289790315960057506640379890395749102138767054156003837852629966468898674386875902794946406752590708224480037796191666771288490653816800257301008204793970272184289618379156848311855194095988806774939748849326791989394357624258927435215415988733163919308791040470937322951901873604408806308767809315070101449974474650310417767541704070812005762263647541131350151531453371992763698226641707829719478704948347888570354093402278084400646145573435460946088789777705691327106000200318242604166371382236368006814620780767828147697146027571716171354395500346771548829873512132849091602352436210143476821466316390558515251521986648388753520042958257169458697413515517759414713993835301607695172013933936387376925613590034524172097505295249612965598532001669614228391958511835507189912544277209444611458989903693329548559155106837039954073544095169228970788398245611396810073714656029582318795195824213126429421353862711625730904595395336789380410262408603016980223694742199687780997524737866045617090528272190792285517539673743966970044456795996765895166042680076006046631316933539242440892982308734268272386525041225057266489527822251936710507614408615330483653967469168584557533103553785424490743260009029277385856324335358779866501370758213840462049786531452741813264381957938072585841124564714884399726728843732748747074630990057892629216238608853799787002517884562629454519117062810902553985684073872643911327573745204373805306761175323855756099940450177619601988997534705095086859026024228908689460029812474997298177540680292855971392243780853983340990518665003031347679820559785093524356314613308281897661509160146881419923916224620624310345388516003006628575427727038540842286072594234438308728284167727660720324455647713348677099214160883393758127611209459362750509710100200201636285675210847245729580388189384044274343000932814189075421720467791334923694512922255453762352245610856225785857530386512183650382281661102943580478564891571033811753550154550182833554976404899648201383909838361693268132983848469476355095773933006775600988032500466197810446806380682200396657694140886344769143068955807841014683371809480356990461873806397868987124692223350680786628651643976491077221451912633993774770801499557658055718386187085346370365076340620820757595738282221452866607606099932869479135607683569281245904345139293170293840658944364473506532617637336323757727868117689657215914623220377936340110150115959696836736471047210221133417857790288924083234569206747340991088685710254930670472891267540168415286601721002459555464860126312530157497963224748381296071815697462236418383448465967051531147368715760144907942668065012449030516356723370653177235640434518872286311869147572581302683640163386897022713899939550972886360077644256974209436499678173868215403209708843654364902984879589772313690263661190792133689615770726598266475252928728998716874285969373307654362830730751142879271104277200419838741092004807309967010349869111488583265169526665737631489940919524586949030897412383409179749402396057907273263900736350250882869669364835774474661501240126147567356466843785918360452109769325620994582163333444341334574007573797168508990526218891291399959584392237102589281191278113806504336091363067323900185225929089750302154478374430488629477310357346700560151692289747230299560494918715980007444591547446618824346548896903304632155703030039534900550610852923270207339709954520938163842101300994790994005621566316520343315500460468915875707170508312685453007944802457807373966063731434374772048806321257116569838569841441672628716950620309286336566320029207499313691725266951263427726614487663107527129943856903182129129728407977437566124198121835660302073939119240903102527960585770685621343280235447088335489342092519062704099657934425770753304679756186430222858604439166962949414130196464118716856555271660608055358049970279959359132209170968209353365507744758592953987731961149036366968317995229362834386018853728105860656247818890881847650062776128033970630607203823491785619828400851174742122691338829251550210065068242862941821303445646935055588453453988722662177312406806546222284502142933065300129491760148169072221153169661826501891271754033638254638585653588539420908726008037497622625509358871042833057723223454502198437017493099818880167429402856640359062958163915184124107782937398499401064184257830781595439749539051238858987272210853100078515696352038737221722289821697409553724460234682556166529699866594034938715312599611335501923454896251630960975487331419625116055281811935972525327508573667070812715190356088747572536404312457782165814740599571293602133405193981236497689152552519955496667456939869085821303922239353676038766193766798349120202161914344086451852251415836062112102276285292028381612449765745847934879599291669553456301922593692558371373476309865931393536140408950451461571757327422945438552782647380694220753063092277562923176159053656473113464983032593569877541076367920309219187010829998168434297012738181976483973345395844087986275581767761079248696479352036139584281817774059359582454017215928881033877732686540764306979249641088156493435992233436779458043646061989423281846976266746535098549908035930675159271543038801980842652614412479024546600735088773244063938205713213972273209141683701394863303367236785588080089346851350220466345208448350913234063556705456574663750527297142008044525419467436368265463882665237417140470649431082487698884147726051433811521696773080769348995206285445862706395337768551537341250060925108976114784138842365231232902783268253381559433273661088713870432724060040426814133941593813929841731725178756731502753642039712153608877487063953736132143673569126832918183392077242686070402358431837969119009139081760215471228751800256172040688083698243047661998915604430497119816256269803176681806402478380337925732484304556593235718907283524047314514690358145716670005928037859400464231413505217487097957550556115397641514921101712990162834584979435703485229113587336850841861432202966192543671363693919295953808574033063845884143572483717671314856098218816909774713475377917507354590937728729387231746592867965888570485395637673767091884221447881703484253747657960966895354047196629919468146559107685321200980232715233356337814928734321982034669397374455707797920020618278095805819812597161254066378068246099342221195787990348575490329231200931291701949059449559682475806100360935413582678848006579925718598197359464706592258132838305701283120776636644685934124741067515110074728352603291452008829412390834838186194210828902368725245338241723179943857980220601911678948836548776114953381125843008362258019800934897012444702551399453483484822634975455471340585597555649619096271573546106176452905673646586976471559648768065338210942933352153359452734136000920343937914364304316342188732559924949713704913746376732568307111557204723027091876563154538564253181376319862689751871933669311652156767999920512359194056153698116291048632720486028050306501216757838972194914745647348061957317253833668754271741655930668463545275834474061494383446594338866460408508100539192212867586612132786125870766297406980661282108386445211635530775485587176275441407867660786017021602172249153537262595481773658855760498863252060427191053707482165522033088756258503322981592933721522418390228536244468917555794892595495848528698327588099378277064548279139692786883502697505120898503569582380409499109303917813531911115418499744500552542247722011490724033739450764754884072102287676347010020609987569807456284503431081145809422571853472090103736601653586735210388328654372486246043840894206232266236924197304550817358801036255412309978743775585854928294169718135419161007137483514318005418784380601243585633764362501807391552232028990801216171747843214051704463213113554192696850256164635998516570905776937328899395995698947733738340642118504745968608888080318555565037401468133406599884957937637049041468978931740634744010435882962591162919706643220291443307060168553302612390211438365313195028460970650301356496606770432267433679127124852582676840833536060209405029564030136792391055502479080720636923418285593055274826194024980475598445625908954531077966740886563987881314244122807404206587531979569769617840847973418136026466453071814726376039475484431353600082273708628275580547507279299159698449411969676851627478058821552938589954001144708996834372129250630812082369031984535465134191005421975159574876170226994350213418176352375997445313048990232547880899067847079313725197876164143856635965904507563920333518119496501866196798354599966555854469154891118834976866188066934407451239488813042312666669627509660049984256158344081113545919589107222015187157332913172043314608389827924422179795595613031035475530002361078372474907877512502583236670323611242287472734258258051914528739012684127986239148946353582234885268675579387959698911354761038665910069243402103280722401663767844734865129983605084416877142892160546762388197197154017796638724940143923008247351244051901349866066763357085688502001060786104097986253063513276063628400645389949908664287141542204233977080882303554913081312883758256852511221705710776837827560650719660784701656596313352977695994878865323757947334413344446226463896291183216447776906743184484512317355085160220140703057883913756070706588063514174757769451153909706382266583138160020130955293157793107427901401953569048165274157672555888690263427595373371231636266864978812713798520806117327534354355026867625438489737639038430983720122677474513972118577869055915009181868063761438713353305550364724964575595804318583725112898160183039949795449306019610102376555763050387228197602639307914573305899777356796314142388468874325960673967300976454710213754755073622877006417224474832981071343946790735251634504090374801176488086446294493760630036218959401022109875529270598307283796500951239838541653027108497832909973453373207020263491359670146503878246967278346233030451102446649944257035095600529246886979015652665494671029246948829777263544953111992890730792547460917724342576270540289136571630677838586550253079913217395582511407067774170216826484664445414807473563634118267937753089975161942200361315299858864528702253266307200443022154180294737195441297212151322759960743395318392914476191697064070522075741364474904210056208365398495044214817212106470019871021332103099020967168052625116920341406290988327112563454072677254258211103674154885547620391105634832627255498873512294388422988490312560809471674591016882510471208203929209295266866812404794039478251844299286559301219467685879191819377310692331612447381980731513617148342149690153405434855236510243349507998453962992332901077427369430879981669317327698573305604621763797802300812340384958208067899893816509095412520900603374751006505210620391872470703311648064994088101178674881788160257788310516785942048112206379931176222374832481362064463506574232685959121417374243753878606388178507903462617198450011183841542339651021510704538096576510006472959955872240891892870904185903134658175171338762271641846489883875805911443299546756092364674691397514751628091688245220008123092414745387409420640184489879719993731225861443505719368461945702517593071184277087862862058263442802905220820263532609555426538831648489767085803784716241095530016282429468631424738393344712934677409869105202869651660946851106188482807462651332900901525608270031920345014595728111736303122476531163046464613507304414883782850762152741959004746107201401698168329165913455745013928081434971865954894108052130152491689795625520550227613605646079020352773751412692873268406645504580864658879949445060839357024132400333187827612632403563761778403168060495848869656344420154883910754280319245027485501390000983305604925699383731326352539957736175889120962355375429367885426550917110028364822513991143972202145136832221904539156284062307330480216517434345228193035664399089393435199534083891607185863833597354804442805742125875525088010905723585771927529725253344149513850076729778995893466690126340514626708093186212069894107583128048970206415097025937138053214628085262216292279718069188137076518761722102761034346738983712090884655786993526324558400965501784812839870696480993006585930030541565034353032117154661163723923506167014431256201977559379030143615449486893060256316493138542465670776319063211121830942654137562995335074970869695580287027179986834002985157259248961721570454919192969013450818958219033515987441911941611938789439415899003526132065418046787994128228362929409018893438793069681037448812536211351982975827987417093586309912445956586065712741798781374458703387342313414443663384597873105889644184713768038501860655143525158415386362442540362577327875110788021619198479963597185620965129079435717116812069389082549870570410357602275977735085656259080209604802482590157815409354890988693456941347111844205971424348354980063821985889383159342578020653992241671634001093123553510501001144214578234624177367527477347901767764404948203715526152796023740390964526622737084327562506253783082794538303077139355892094420695148376167488281476314988799302817827189480595392697854892381114675760430117323940373519146158109057018851913890085285122985145540548712706826667193352011515302362575147604120295174448542801393108939814172597947485813929071303256645897070744028748606218409086982741482756968869339978752039757200662619215623054720922243984921872898801299897867895089493077510701962458289848688541024815303315982030984952837351746647640726546428335402349959412879511030313248441833579955803997259790866882095501085205082587521505106234559769186322011340896450074236414360348644901014599557654174021929466669373696891442215343534849217234556432499953648215497496279387304855708549557217211549302212914511449244481569948974532116308083625843861445584285391668844848512294804821197011248647296551153943132893136759882805756082025870282522120192080251809174887369573550889203396525995210226769220355830711282553900041315136243616391761551521240303816114939657864744685240778438389384981903079008559903597781132144771269757777125181783073709792073186016101996919176617914988851733642870065755722062669091222098422676746082971460614095997783103467124314229477997297914660319206061980778686094391125241540245586500894145187190871488566751056854471971470648266544033706185765271097089742917743477880054204437864297444815077387863619573084333364633072605613457529762298037543252633976851567071994788614944995738859299245875298811515773428067991745139212064061320150309139742497440218028758301960283186258972452085881193960387878393270696117296196201349237205267618855621977475150470534234545021165342326863022684032550035756120221571036679889059420049540854071661439521807875776996055647318063578608555241040759818653208087077129802655676164320715490132568213112854818523192248581689299071341245749824211378699263150460699514026779678558630270081424668434929504541038923045130995781707038565087645821473025051455752907350869704188407080446982594205349203449087351836267350696714217996499642198611441408794287400224619836086688067442402510187011109193075961068202067127653014671086580644442893426678479841630446232231728451146499371495669276564916583378490332324454179749681072824204081216038042784648417941473897200766083111095690493798418739054618549073960536980615308208120015769708462119716307480993185652933167387510322107561477193320955514472483345215658509166922212591782340569950724495231173264822254524777797906813924962757364187473970558406741146671241688570369911334214102794287737175754021063520530071655993105090518100114651335490153448262028427014910658937433801040093153845294628904010163834917078324811961110695377648762242475229543257025538263209400101035110559889160639932960442682660535993867570145572992015559659668701994693282986927390993066606013192595296007795677321307100581800192728547773594294559291600520871937

def tbl1 : Nat := 258893356221801432441976503045952383388737717589745274548296998104262715213534266932020047363885706860523031889701781697039956568496421831707642224435825763908066344000360161937056462365940866506301577229440450731278729206074107738925669367259377944302065960719756573256431146817187120858903592065217702576554930417564835384094280540244093942981154206356280690467709329111417319039754072344984544733712711086645393363367270481209711093808591833696784263156890211994957791066494895122595363007452560637002714177131558381649499480734508217053174909371763106119004921506418563095271301127226408327733655791534607258778256526341427859059403374157628844026602057243780490196254953223496226245235759776829118305666158405546415709748950388301805966795696265802221891541114625403113737638096886489679430631717406783237370283203090821428457422609423684497900406968383758132501205927628815689483833484962388249635325732283032728193227787714655677135485430133472501589250011285944464286324961949453606502839582525175465346823300777631624138068697544016486999366867599429014300803055866912691096162060459337541373930925858249210232366802091361835537908065527503414441227885503169421714605450949426288306808926176894836081827880553365226345395826106985784026644673776688739752809745115352203179139569175552955147489257274638715315645395056910049392000232814010298029181934892070795699452111628999944425589508199694027092419138873757091700389290376142749292619249167787777014863375311585270190508050401611023519602085824771099335658564589078284843517064856317586419247779137390875205710946049669607666810282322565839376575449951213870881055217402829452647010127434271756467694288565639200036697222866451638585714528249399405126743333357285593295448125820292239475862128394611892240917517057365138644611864317620387857688909476749795634155918163367524611990775166182392874402474258813066586738746941564412788811761540145835558762056999450407652282568034368837561802185326297615171075635088642896351316209839234806937296024292723930154827091238348605669535385888886123621924053686079931933172485323693674590022188023204701269574267235073759863528657834868580737318010407202002226752847794095968426888099842756929048999702486788504582301446522508567071209335998127763386423887798303167776493923892758500615054291283831850721529301212543731452770686558874023485829265140414272875829872887457467290316166897611175708550054510700143636693062506901999213048319611934366451174844935171391697133114360510802625732243261654267799772142059800122946607342179141344819615124356444694669891598056204409334084663840357017657408756067187311251498155591086296669724026257218035733241160147447539472675835741885227138475075194645372405120773715513564712568846751561184428555602198808334987821998154251865709459339811629107343674436777381003985998820020418866116536861480676240757890425924482482355456864738108685907362309989766808432926151323185096700562904897524262225352087366040012471631776910499139122740859794405627239050301805760228653753289930831490613787202984382775320316421792306543835701544373674183969361330608883298922560776639838509173684414996610844976116324689851623510457271970213284680567721293195714253151792480359227875491710966938450622097287856984402393905428714391932514408179504375783811773373625007282258537266514557982638372217473383524204161823590857764826350346827421138085862516793002731838384787758842645682311846099867311129933631446687667185423749704929672943565814377640634408639546678292430642666381028488988842162293764153070457834919121853413614739172820011720571274551904543235914365065659148186871737203796003897414209042288748820739995326011278182506354685796655931779545832300092877396591177019390588558559649841490433365052358938215365932561940779193000254228787363221747674404781017399468631708428583887974121501779460059819833254624722059277415594484108554138835230097032485251100078408279826659263640557655762096089162063304540247320798163132592615165181719679903009761876892652813054697696005676007093140007057569970880901500749713778702190596510018506891246380670218501931369079336296801294025773186241615076108980255978881618102903348721224697193277037680099308167621475170572207019094744085481998102664109176815652810734808910305694430984710329777682406816616418958557234297685893603431871836332116387644654085819400389564954231993553954548543064708540832151614677328459027215815236376342786007782086619571479438003188256555928555254137414882727234243985297080849245123213333084378999732455026795061413953474565185028704806191454351978195760831742122405257664686067420690994406035177379756278112998233704974619467331547172339453290244822558909465716093418267409915044766210537236369128854420174115812820056642615747915133537846354088575333092334019821528113475914638517225431502560855696540037717973422944108501861280205844486517531219404149089997026303039476760234241296980059620261604108462476524867468178364631769333775699765408461835634185532052444635454432532278784818780242724483155183063074223049737711304746192748133746448900875652340122459459080591362277705655177973443759330125059054733003075038216922131417188369743069244113367804615297096472056351911490125977104020082528893163609596824295726656766550780238028041368926756125559244333641134203898315105864748553095806164613091015875057433641721051453844222585114698054640375242222226361666909790615860831607900696764702640704212263588923389087465530043666956557018159900790398429167152587052662478837423654762353571265252507368346880605013488399914552785228816769450012278204081749638239640920061896867883765569125954853464717238633571947840330398369545482287544985125895206965977557637000831754897975460179119450762222154822058569657886690814390220646437137663325560486334885888879695823355379962462785711553233980100186100143953909034193532086872522898281683036083237359339568922759575319438476935651625353980264461689663945447613382982473657490778908154552503779278877410471904922950881151126001958117766900333716618701414064534525333555941235275498993219677743900544067856560450118968884569701387009362133834292854849176103299672978329047707613514336693340694887185916766245983169164940649869312847883325903977834611759783944489634242044751806722491842795574645194488862742222663192312885598475297217847532461738922876665831536889494669669459633828535412602578369580298782804395820063137498104127478504736418103208216312349987212485254749615483687948151790767531875239997938594725991996292611363976402845100031202033056004374412323150122165320918646569082337287473251662842592571882100098844734376757625924767269608182923816076605403692579315832321784353457867563735604405347186725569802293670835159323807771756819407804872943124854973441096839322312605567690860143837098191587231043875245532374228316427061639770708853679602876236038266236724869207053558944458403719823723355887531026951943090689234200775854355832961384036315697430810623059388990506265655271089720397887086560747564006489964901108121779598593488189290861184252069021779092002730215717990271332711399188141906123613073480887958423061346411001050867540609749548857146840630504190311834503861367114517740474981900962663553559639744458497949642389405330945362522342700639092469649434501623367876725640319006788570825222676672792770620527048796270622302786574356547149031935834673985100675953896125956301655271631831107379807315452897324145323426171742508567160889554610089995007913733207185623878035830112386619649302317723771234568836322195870377379571373955484994695163707965439330934631879205554236237516051250653275723966925560278397978064252733944846946331511434062215131719472027573425261228907511503758153469746431763367379013829247517661934162307412450725912812049000893219072768694752181481423697985120956382202987791904969801555945676473634031063266143818902337907323639000976316673936111787746762328181247115571139697258312855707258262007728006792856277569939658506157756931918529718620528192671712332521595089795371915462637715112455547070775596440469031270813209093207137208530816778946549515846868306987540720754419314760116936837917813937766974200239138237360515212052937747753705210096462597106469655684431634511634283947629049676069341012867985460808554073270871116784824574703369116999188060862965297878450767218330285975036705977445629759405134201252580572932506061670984592958819528146260163226999033737261567908010245773475516138362865905055930343856421858323533186550790743676295421951821565253487203333856263571049721513345962966636508510378870164941218157423916224623060951217383138455807775969664504430480848409764819126977583335901635034659637688402856825851820614679460312954006638184003271604219379581563534027258572289288395666603019396570596127697493181297028769261922690920522513212856266746360961127459785181937992472242685844514055457378322640504915024077945231502489433033591263356869012060560142925166275185853470185683500645292839792141590647222165492987085034700269352455397956297183857885986300601489315379664861851525483037535350179620902698161067752249146578882920212202650180911441199520540649701882235556365145398518516486111224654712847842526112442612593706015326466993069180029264445669854859723015961699349907389300249626972043745765032266894879961186848317757738722321862944252601411265725157657269676808299726959259475800168579615149281121993420683115758950898250839751024838747828338351827375147250018741429976938031910181105191710532628432760572536493022633381621331136927797654513299348446676818220784349509108767626083408621050014200055937007199948760345624990292466979667605803952941928845499119659659583119529125760593328899250956348443589226187978985091732742033296097895852986512925649915059618312380943567736927229327234690965168407698798728008403942285082123034350129615472452339025492962297439492185298490007550181191152419545407901818794373642542758562100988248125489661311272691947664838997380589116061326706673481030316518969164963403119800927176534581033752491570155235077863429300501186168354794448620527303385162463630219620360481376521995613285373853207003996450310288601889417804080041289611030478266960980310429121424861428995208465551781115573333286288716573946320385633310274874546187413936452765350708059111335534717764243893080160139821027822365383536433260643710788826103441900578365941945398921521850119883711782757661021362045685415142762166604527423395790025833205973440914723986909558928821356223804192257404745845713193789619286916990568527907425175985679549076746842522659744586357001442712897074097779543157402653023007846824236432500007852663255212190716493013001266967431856535199265423127155979508905412443538609382732314045086836824283605416886803570564226081000427562186050049468131577515637913211363753437737961350440452823237042198591374258149398581187989710720534996320051438042366083996092726918418039023913326960020421795497779417074241284034258812677930894034859713875527757483485115689205979693119199097053648491373481000883789609711524228463725786321232006573338840200418521004675894031794555073744921700984526306492890670265393554411955931838903256796735131457691966050058285188593467791348448386254847802944172737050300128456637586549837527145398715331539183605633683032476365855396643503179385603513295251717008073277438704266431210534319313381607689686469473770314031046936345460199309207358929076815451257773081278166456032801385751989361076783399742087219134706151824360494323333988831751213298547259323026049597024628111454448798151177697860860818826524337239530081956319064806865022074200954447387548710717062903428120785010157646884924671266467660003143740917490455898295163776794256376336006755020404796290634968750874766691361499596768336713016641394959335023945495863496957206498521194449925230802378532812249775708873938125265279797229322451585932161110487241476482960839233529694994999462252915248788082080317563062042474847149031334620155820300405748167206132842100546582186529937953218051474522561733476147967659383161516070518857913320309910473458181981161613536735969241308783332979199798150662861376747192567875235492066895313599456420232419288644258819409913678308919594226957234593193040165050627782311249003238510325179379774246936822783769260878429104821627260721047728045153509420157182736748288642546783845470989976394526043377777931726108891241652808044396492398980248459640266394461322122935337860775282760360319363967835586597181413740625063249621126452074494388474593316452202589551051760292468362143921456274692771943296607104092883527407612271784707127894822311645059682815197276882564175100158245778406500394381928867734965371311488476360329473313662958007252100161138954756589676447616544058824935104348536929842420151653531479586765750903445143514533050621024178299279838116268832773318280456704572028430464050369214538483162083858951447798187935622089556766967922532200258407943428311298707124388326395051290114564111285397446510307263981753038116317359149699420717623455561353610398088467398346182142805905355967565368248227671700641308336231105660324997552473128158223671818041349485200222415502469912006068174245885354860857382105947386434738974325454798851170312171426420708387420748371090569409134421021877401286640094814697957505812971934247980869423306221808586542664672992520172848223161502334821869518955988274827372488571034653986901795728511050911232076769358689078004692236119807415365784781054666519037997921110757133278034815605433207833924212421689027164841884136630134332075422946090495711558815180886489995152491369804382343230195886429497888027910439449106273322540354775020909479089622580653859486376260915027111202177924145630027347396205713099551011728492980752692192466151344797432175585618561269802484097834995437043928513063773671065971431604018937100032911207669604524729284277747150053943254362387637233608857322881913806765318043222998832721412167166111634688503650862140142785609989640930504378855293200572583831669493993555048248347767724708184254422908934375415845919169468666548875752488978458016263174618423469951722205578750052770080591891192580605134043132320029693104258539229278698391567019080633023641674219364789502112408234960562998968735728495598623421910374344459456688215401439922030473584295079768614753054556158127768193200727176949579238226982083038849164167453167831374783251445372128741946771862257092405791871296923898706199551860064601951994544585484161981155455508629527103179525703115981570856286128091642058890004225383956391818327621126574834088962267316444361583734158550268531461747363688800413949722514584504512945250760223891873410742452854046439740165636400370473999023183389007394943171134916366728436538535333810296565036186017701825484179251864025463603157701014758619869769587006786306861030845788050809650956527342136362973652181160774173662785956202628970032540929361304169648145729509239408488512583867455180343769854382535491287773610583175543995889468570682801661496963389069738935207003674790106605172905840701088455476490928215251571533452408355131924991495699587164559133820550017978151936429505799548059359276519924211316715385316279032041278247542313190721572475405969176761308336169421102411461669526350583428090541543244331090633214789607329515861963738781343150477642226146846569951762049150437855645334772114463703129215174868629258551145286434267321770795192196107540143111023732127134154793800998043983713704914672955253251410583213849463301124056401772349827465428578924968963693147344838063253483282012804902522532403866160841971145248996773572570762743111447819918126791865129610030390702858344748481445893659468465885359143382542298841091099088690351140482340220556613975206787036302668179371767959929982549728885188074147881111073873321984152452106542486377194572632158439923579110520841058760348525003454875266256226303342887028234404400512418082956553001695273811608001643062928152622733715104751508858186840973707620465038170636038832823331977240727471705103662234923539486585051991709427508888536630379566687204916292638064290034739956765085369930054775971339634006328480923886226915109797254408459382594130751103494788653678826604843373335198639873032763690135745114722834391272634547134950097228952391247834658314700658871355010309801867912582140155269141905136960870352335161372785755996865901270698225960498133133930557009783902407837625741519453245559713672267636677276549755299371320620222373542169438329248657055717652562458459209064838090915466789630802653187336193617592629318702574845977265316888342112169764474410060910429249018372951335959932886917832700301195648353226759781741784930739318955893836805310872101243811082922845212743725192702675696940012029085650412749954392641754446736400182603214876899972437447543123541228040823988197356734085918306958287563060849843805758540187734404930075539977020629987775243160139890560809132051326064207965285317695299067667644959508719313062442512752009806973324925581454836460649280419253179702731028403559751680105430640043145126811351032394164938442191209732200494499125052199064387025981216975733312965164236965800495975513472998902541276674633003968859125385553402895478484867900499694829038108253963104490089433443547214506656619801992106788932730647999328701891101697113985654253121522953665560481576584305791349574981839682843973169358453407233448334525541106852640666949105107970735645896240638437706299765572974609867349876777084474668818893206564181301382000217835314316260944531886466878445761337310213410947072919892240651804158424088211907608155935220048686526198503055960482174204347334003321310819044514859472143345854030512914827226561097539459120373057275675092420091469888221363388537142802698460367965687145198982759294879918655749596487991997659816914689487174004273972339082911270119761513059018829598442403670275198648075426255950484860207056011662365783734758090216525123607549089741820618892564370967175747970169628282870441823997984132546863455347292183159157310209697925682411748400703528383405466567810954404435441839508732023853426283294410116127817491671877111727898649481879183039918369869548029225459591171235676039107771740106574569051899542754018465096810816705134237003873523540941912985779083854117920919171175792560689791803166656297562197478015412116791268502011126565692476244481298833746436412755553161806075928430015713493458172730942215739011897011791909924117624089690309341447090040960494901736435694801145316682170910233350521087894510297897127465599422393206650532449639473817476565021129358000142438034024868259940486941196557338105302316268929474758472330660905381388266515437592448678511601761340304552856197183419281614824077476567325017472820274756124504600729155175166529442887446935836195646183888121524982044076341717771627837298603061314938465165753726904283914661927404417122333327087458028907767066478747832401551633649797550758639180430148416808373912537645885280098577865665886228050112780818132453684547609615064922394620528296780552690414338264002753130469881598810855649186178307948949674136208525265081387804952855742478990220514489665490429858040876059378594924230821799002592457917895353306924612996691272092058946342322516839348206232082060754321779183711196763291453446746087824764188571559788987500475752866388416302729931702465181203654351523013124137080899569850276516803256260701529990413369046934133009729169921869610864624767317093377146355625623921811510443380642288411195612800187756167273557244025589883452379935405315837589214348333883510718582220744070187799247596644500699817381281264051618984075592962006180679430430673381293812413763472403768601166530484347113150921357631393206437256064692609621912051126649760705514208749575004791461774191414428002356743063545728597471758534274251444354236184840660941238549895927475340481153884280389559251006497479783189712813065879242977816831527033130672181829973220033857029126681599463991255226927847063330611575877666291638160056024758816747380323863462859271214663637684972692491246247650035638767071372111974564591415696546577505579081266039697750889457097066735899308792304526650777148850522340428588955532574602669783419497232435687853592773001565601558594130659809386843347252270252310862284580734975893736022042371783099719200714461599028260927075127226689494337796580452854204154873702733302995772664832582192178663567397574795008825070024462203993803997329372001097617316051409308673347266323236614843253000689951965513588945218831317786582622939616614177937385256668640396887869629659234380868554534271836541807765895404117893525977315120026865296206821407731664187415639996625112080849763286019395468642634730389919534955424804887228435611522199898422216915215759173258423737819239349082857025244073594895067327756460512388425776209396359863130361066902182684266097070197258832140176540535212106907675015461845459633399309284138682152542742532979946895651203314980101328122104723747821656305671274577222998319920236508412534044705785374066009741479628985503008397001003267697916260512477035000378854103639092280535188214471520037925785262342720388401984540985693743265191784466395365801350877016333042985838329539954851145872361024649595710725573075843445072521515994844878829231224370097819351279186720577562073620364020008815227984921211411240693347036123015026985398581000242520724208635449977054850457347004432764491869621603381364358963192267198320399687817812150115972546740802409134728452970653216382786605557612838974300687078392494871703537740720954892593906684900664890710652562418613179764470520116860246717515009452333930079376927778556155199971281602784037986806946672055720318680582685953691228522784217596114567932158156980114527786660585422181282393284913936988722343201757819066005885096513473583033336819973865267919679788915911414611170344884628545516629999962266622416638880335841604142814416744417174681066275979843947566100985749339481804815624091409402977311754252162406088436448132102454071991095158919210639976915005940065964543213313515545911410665073603650567476907227017057217428223033807798891832417294227026344342464037730238843063983602094883750083324386900535638260818419838029563653419422131635196643712500423075709608231066810902468817058398819750171330070053502634396550344113058440862892821679780098861298792312357620329578883054875609434651701385029126144406048373947718126020741574498703221330982833491286716704387226979365144971273799060071837549869897055889618677683172648083270312435665627425525203260073566679401103443609693108970318361753979631453367326929595219555559567904178817571532004885847819277160147111259368930469581613967047298697524731383755900368305128880478015240170569100326875107079884911573867843301393926140618222324215524513652143462693591295869481953040822375918787064243398668193441339685115354583235150309336950856150438993238322202856389674242298783521177190763870196378354886168138490216015682742963455900930960330254822985601665873978992352590859080384523990097145936721572875932436781772718762963989180110018954583164775880563986439384952724289708113578486267962037270439584033264313151260359749760197582901837379014505515197890641775758674180978125982955041369073274023697409788307465589839377309879067342105909543477425593235860222362873624559114641836731535425698721922331401005549599197453044887069561112567403813023724545871316429428247886835626070016103170819143186212323611538520565263458627279248424952599838699061803848451956232568359620235217714884287321559666021213054714667719489331186513793911949782250571242046378744946265165674688248017038949223407647781886471821456774995241911170739217287355038348730677121281059094309515903465013206183972720747131367458821605365378776720707874456105363241811455626683331955014362807866712182968824913638244624112896994145522973498844573784605914036717388854913000661898190192714125324646796531606091787712660587957627168246704006114666283115299045885564689277074156084593131567870359917006934757031374380842228712442138935404851884972386290476328146251612304410967006549773334202085262242629797285457296847962176647704470928252724861364264289724836663491336228439030434911226996591207309420209146724801539285081996479903867796685191325129914739851241315032216899862806439917625466121656857805017733388200174581411897996683518656781285332330697479310309233192071550459804193806058031562701824918421276109650331709792130644148673011342425619353514352923148840129706849556258983224166755184294462195495830248966488120570166119068565561089135326024259434433839178980502966374678220307338449723033490361029515642718861358400529399589111118843179655628895014076359770973336264599639443756951645120170621474243383819283864521863051964001255110084412804357747974077272829943758831430849516714193992354056109601845167454508260678260328244991236669147030467964431274567034168529723032462887360056295948251851512842651581885289909590846840277193291983587741335020892105174294227144514423706307663282543835283016630344174436877788012431015808263042147144499104997818791924392847732275204855645442256692641144975603206706210818080564339914211853390870722850353434876144711037084373595103300386279643018876619808773251104239311208361711856676167754216507548784590834100338055341355450762977353223693268136074261046245771316000170772797245701258949229369981926433892350922591840781043605360794083957699813572452754233238024839415487564839639901814165621267254299919976691113483568603418624940385463070346411119499149899365151106191641191780016978711647536426010879355116135858446800825698978296636395382318987774430305489258578019004327052299090083055439054634966067942732830244460763211217950193862419144581898536291243905635829161624074493023780399005647979429954540077102718121492797608424197108989493206496994261527587669357435719353257806666345270767939577318743061677175128888889662735778777420688023190440539032165147111175170976783832428614463905180936506932963333850660696054713441179816022919734789992276920171187769852105100018670033467950727797188506630157445847469536254473424794856521904206416676654261326225755261072147280344378229245735612536121712283995648270609990442312020169323768917565776805196443064756015789623692583894984602314153843418374138233704305976997637370906259621791817718595784993330881679941835157101512656392905897861465134793572135150296863321380457768674339025827593129915169188840984806590683819745303706845356431133001013573856366520060281074969514300201042702329315148984755726128205706729240583424156466607842298614041527681441666043037261499015487842067313118805409580712473993676523237312442318601405189062640636148261260551331858808790644784291963085878624772458244714559045162633159821897896351588807863341774551664621844212750715859978013247674002841619903034012949202492571406721064944502171418168123704459856054790388253160983355252084232156831689504248429514872185984131181819410500724412041979073744424909392997856267382313825688646463270643410922529079133088260800228550596264905519636973100303220123017355039199136695969527933341894340498101324998848889947781568758085294217812959314527891525621277410035803683499945033525021519861903793105261179895947354077840892381454728997677262630150438560209037125614786194557525979777967496196248542550324684244610778001586014782474967771033573755951584028584313996486276557107257091593677701270678773877902013786147400735622136546039335485787778201841713893406576935502668805042853848132020716357846828683250791788521582806436639687621859873791862064917318533072219672963527358898982305102622025443173242103727184559434267297870338921813409252674503293653289352521458360807750882545305956767960507148929461445543483132373776204681279196260907090620271803748144697463695452192668757810874904238964367141548394491697571050236378665064701800228375583875837140215740324303681802050867752703918637194619796117890247435371735046094827278515498673231165245508050559597195571470355942920699423910185608539718437651447146451343492174973328736054469800427015165439300570936950887969485925757462260752872567656290851370909908594936206207028929760175803475558551926526904450184873821429384685905834832002034381301879395886068816161215920750066632469576089950930874834853737829609322772430748228474937438848291188506597234446539741031520695310680540204106354826279745457514609875892210698057652811254500611874219035490599867178565683376289996194290980352905939444561317191866022885298115683002828607431093440761696348378358957469475496616121206805370235697041325665078841849910392640367819336371184267981064437069655971813528163420110132160971536390870750861570581267810484682818340215401453114520685384906481413604600866088043520910220817163569120687939921072010622133134511403733898395226749604535698300425798338350603560256333557319897762684609908368101816881266098039978918117353438596890661823530193793833230405054913730120528448678851053418564655141176758648777605942473654593761163873363158142456962924653995078691887093423798545899063266779463707026830005999143209992041603590512745463800111322551556292620627335558407536590551458266199249673066209109715254507924691995493367991675948894538053532802812586802559486448386321698096508245320460894075706987926462434746569271281255672079663666115971700976065440203854459641827700935546814761713415899459686979768085710322283059182173857690692655303409759185266474303206198772784866317783494366222318647051102840429034240807044683096009128381914731558412907912425225074364744362237902204949956029815776702751435511285714513539282778411507219285396854424007641780146890750561962596719881644766385195598009851858545940819057954381411317215371078819869910066961719133589035080999044033315907759617675611341226720429584539047672088599560160598357770911489643466039854298662971245003045578302242739002007044689802995324715634303982272374918464798060263266887678839088717872580197554698089766320629702754823163631539223874311722833486554503319925501975997853616952736008161942665256967691140700933710444496619663462088897624309355016683967400671611798019562368265074178198590116082604279189158945459803234284464028092091753622377968497886395868452718967525061971961604251230967946642090194231057769761483600924106701578976478284249113572728514752620483428408212651388420564706570741086574899553899830827105500757798216719459572568896583446781753272305600539847710582712601149972983015469671465910168337819567951208783285587108403780690214722941834914220216272225261562391794914138673746545735829560092908462202123943879343778885134386699979012962052639750798314651417380423086765016155034107332863862380976149268819991204695529261182523078261347216760146174869410414795075263870469360122848348932854446553775240298228944101156153658345356080307658059633949586012011351892947102598269808866795043746200109987691567118919103443357858842640639323803829521653250879384444141033845052861619978198198062176602610518032031234489719450216812340029420659655104480157840283566829595150383796079890431479570994608479691935861686533820525310470052661947499946185827006636629065894261760790641820393032351872677981238198576755673985399122013198510525502751056102297765917307991091072225975508845663589671417129850551931146455623685408770942676307921484160448167858318208339927162281788266823952456747411028754555518122688307039611729392526539648484920708847765492820009215573834845473753715101481305059294508332700124857567622131797204413168349019477568283288186073802454908953613029148455715805001323131467533571299083245919194212868885778400925603525385936568399857899615353354541912693394138770546283605040006308461282273417211189431335082577247668497955608360022294269441954159030880763751361466441226503264512577303043958239028669454353812333385795796080638343531186538026287704135331061157290210799048477038658701571794093724345457611556596302228797612443307432677552943286388602843602256739839269623534233967980710469882446097288993769888906313053684152314574120264007285797409056554073619187855548509111705747491779328953876824355208986035790086341043796684231939731414348657063219568416011527359016040766188916888276886183689626407349868791714246527424151271603033124564517113016644749268250408168273970333101677120424180421126310043414767416032209805509811055564917895524597111748015580188553463988528915250405030785763622439313698264742904580148891902864559530527618659054463718548556582549171063690953493028695538238984264454398251835090215454762751157798306821982019283779817913671178402131031717197350598648116862130730905298516906096201544643213876891011842965988561197042283170086500604970848910181332022105472925029487345745054238834167621027242199024311787718650419734417620601670510370137508551637471481297664832877271018990999413295857738926774262437908761396303483194475036680808792759987536959682361006015536322830991654427637173700420887004571666499428587725920372143910111760641532453239486914820297211251235182251879590548051835341892153537205874119234803516887867158821283820024182606281920175439590188543520208435619472821190216199319090152329553582793344188195352200732095657995104970903640038700666713985000545512207519161119920237053239943436261211089699227407610703871567199528335398182947801600306249718214207560334669988676397039424577533534579308391294937628132279035675844665747997244597920069614952424046445722505491833153989555320980041560702014333576107500092662963357202365198886748302055473296032266872250309950828388580973588266198188909166576186412420674646730523210788751264885538727042131630299405407227116351937472607814560392156861308513364613603873143649114792924637033784911148702801877622939294216864196864182155931460814838410873775034751143732627728944896121041515265988282173729824664359628094010424985109977350380127089000826172303001633816305041211893948938950975928930849574713065332264137184030517091087811604625942866987696946112839208133897533304462348320199968545121249877575192487608287845230656776196571955720195798014242410577560047482379472343587317895255357461327207748255113691094608741593517407415815363188362201467909962400929306081117560500595769870349625918078215353528505734777335325433835389068735851097398003745407119730820001747832357063701013542158426669179427029810096791319688216736905846313477470389968388798315666755210663210698822879728241392437763769636416758668207831357484933087526684823216667753121602729297413165240253917718412023566830630355727646174576805329781736131092783977131050758844431710089111618519023998737124285685291399369112283100320840889257512307553988802679075920080420832882972199849336950008498360819830362055629789982512318140977348112258195226814064755336634294829229766299880611238037435277650216790020868621245110801977528056867845612763147104808837245774161719138429411459161233067728895353927097758117860811895988207512888628811603037256128386447989239530199074105570769826739902027392089506912949074487421988711396663459971690417054727491604432600630140308066066342226239126418006880262395393518531607174454189129545371526047447499205029544076317986911876072877830174645782447101174946577004720085336805215162272690320570548528210396116169791235409028255828211670595766570798502541047516530699978368753017371571749588075140178676233141031665261633164673982356607235370958339440384551339235623104627747425781071044139981935654619086180214642976658155715668908032049905256023198831432544964054972439092456530561403090205812862699532642654687793133409439793580979458313297878606305321185326058608637910573072436297523536800448935002312180091722019800285398237811308325824849176813744521132592786166938514825903945876579813006277100962233991313944861055796604632549074530879094262914742526860113287919915117034096959499228062033709417752268406604539874879191166094994717905612273746930658446868770009693895843307169623859155046608305813684827938430678742188949098380698681366054688394691659715296766166920766996679459042827923104014028360363370664724631136652966186335246727501278801806774588048267554068435503208848434764261328190276622560560950085556506412798144478193457172610977339963939518499275230701762535380694624043940047000533208809355201279153368058672609951831675409887234742147968833379474311093522020626991345941978727548068243806019927693799408717646210065898381710616551330530764231554646936565330844006317812840925980164554729827285970892748902717519393198084795533226079919744525374792547944151556030225784979220826226636033839518297828334267613344980212467242272068628217462805864435631000461660409081362769002737751091101937839887268557646657196928741736352103671126767260279021359053807531869856031813184487786124914501200590064895709009049177876999990891040349881651224050840334103613175776035060129738433774318696582022418291825683961270492909911662517307511126228960272284038227474360114460245332706694975770719474638515527507461851152299733748558830369640166967351531046080374808102005295670076415934800251537226146013784535957389113694162833610299623890657052279716674433099163217917602384082541750626746073303464369965575606559224174459461379269014644917924010456851953476908479254022369646630663180534497357904934950554240261164412021775451582297916107244145625393989903207196515164328050871260084315603103870192243160851160763952960411485598394631442297648911654863676466177091150074699307813206575708345134611580548773964942064756835467332788858317114295487872742716110423235499883975992020036226599337248951264560284950322848453089596116064998703944854569146135355800357709198430086224701041584237082442029164499751071962749374136289477632380534202045815961155079416481098050574482090445771884287679559767870708127497692178769249680268676356130292436244834442375107806677111609080835729465303927294689169193950072358127752459956240060301619359870686807356611103438859957865744675835602680137453129779247713629667248909406846541168139783226924761707414479077502834212309267316578323818553053597891078684939326297231288136933777446999768815937544494950142908636459600918297411683418027352667982915914140223391076608569621948013363660524305241380803958995671262859034432696645195629514899619111443169124666528973913629624392748808694978685424216992256944255335582746952028969774272879522042870343410806819096149408363973931017341588648305779495313622389153647842409037668598225120653468173723768423437241684088060078243072625103316597246678878350009686496008612786704300692996749215977640708701035941696543140176487138179228043480471540192819082315418061002516175098695065342526294611631829104010892276324657447784126994478907221439457025368244203503279262905031222095646040727325678461356266013867882658176666776569140117063569998790792129193233702385017507569641570628212304052473249168494047001676921654891908962475599085300688098270441055884848689618714287048730048341323487920683710371129757317706335038990789347907200507094444903700123286048253151016450363621750045651635020252413243644915405288743967134794544941622279898154522758854090313059628262506365709036089605015370063541152467124314070077213989780308482865693650175431070524749613120059644907434232614006109317527782513556142421310802146912037448285576383597144346099089225794315613551329980564282003047494393462256068506580509146045030492885817189290146697454194939272213891688555599658145322326332394157708927649703406292096173648807150785869962940214186798623736817443619491678648968100326268389599805823693241118815769143063749417805385049960818098247818741043690507420197421718826173236294447627576474666551162052482273595752433465216961177130502940847102693657391935840091447027122448466975238320315118955992082948599049454443224794666360361013583820433624444918746953996007256785484012275867832421310529198013846727967353186654773639341555987810585442784821738518733538232614581874944294307852406204316641086637453700046435982333079613836466840010018646529269580356304403930075254422060983240182061709138902121328128912221864718517095576786607287460290426879295374187037826089050421435466244940214019541167343137113233088279322729166073298474414201458577548145554734049641096119312398276672838097155300268278705421208237507772230591246156163388883001024437440463339218366932885119202649071898291391091188745059569813182402694363239477306703784354981651354160705857648963105877248833609829486099610677469987154528957175687530155892259517020038456762477760787047009912804145970472080076127124409569579769573632542151645371480168482561749990395383518369633120491472544533198754348308011585340623325670586536145516230553158469064442918263894910364784270102071434822755370742262169248362155075084015479889421977516696126172130431764616766493694715525202475497250917725731318939153322563412706885140273166513649080310160320422613576910315351710273397432424936058215588380340400009124205861461710488490995168679309521251073247058821073664600614366308187872530951811364157093376789274136282385046173879989490045770899052331303330867692162120805806619746644203321078283273272357782377822577024048350571742886900408815224830183608343546866197145675421039243072438092399165203718064289663299558545355683582318142707662204257185244833760474606414128945577718711579257245606226413197378263662567031747440446906116382863560447177465930750334264587345227035438567317090717583325991290394024979143048608641697390450205567743305179861582151224244870896055878584050769030833726328276887507835048325935622166948200818597743437667538426539570022167111507306163494357783152134290146574840434474569235098362492100572182090049130115440792383590620584863373277092165457592793494004432514435739627220046977418476685336337878508922415432892027930920663615310130315021987061985557346314966112986804362998055949613893427064401353502965826025039686523981553911207682346341370709576535796011717626482017560457263689963735994672279259256986154219203417333572557314106871510029669436779609804188905018749873257086885729856053997936188568881529618175829726509740070561420244728641764231701399137820260370521530606768710022865938381882579476346876117542459525830958125706601699742879453034034095719885190052802546575297964334969841451779544760789094657995846283956683319494324211383013409291514028514670885804343483137731797048583862912473078646319457553058819393422150980386035907232746471919877914405893473556255469644134295335331189391498365498351294577913591593027918294273176441835989457557324007128660506245396269801909569500385533206158841944861221837057205151670360312637950741898268187292229778682560221652021223011514269324591130727173549407901371571030616087276162777597253054043985476570316729889392925103045709380915427943154360433299042648102664588887800594242977255137545822757441582826377569280230534663645315472885360290165406027867530721564198639902659338159309563192189729386823327746888434967691415048695529127910775278387987402884827753640956302617935235653651464706232676865168754446800830940509898537655481193301483236701062352210273412814817832392474155404167619337809216507354843870177002767821312890636726013944926770054669312425012273732723753468721170461821072670827211659126949036089443460244624359151318214277044172088982009420625898545029056560930443820409186161829533083978485940599835582641491052171782205250091591815986084179592712106603904925025745346418218923157880124241896238268522327110882800605019010234323937550690303963802108312513875373962648748642327625698467397969997845794282452840262892593241334194220149611983120440063086444135007422249150346431951975103636611276785103751612314990338167893550681255023691450297827824386617958698937396363428931899378924521961479088885468754403192429111844474310895281116442622320415268427423748189291285011568999944619272568429366550965153806634550092789062617674452073354239456946253026699487229707183344075193515572016525200266992095161019278812951292772023135152626893393221446053034007504432928411866056525633880216281014513236743321264152411617389555510198325184325888932850483519664066622109709455937145281721631608593231159506185658697723952706122372626358481686795492528901842481923976407941840055987224633149751591175469236559328232347694204931786619742412876868176544031749142317972899106896551523242639788970650368415966359987674488585175071882759964334410083752676942551465037142173433801229613734369694298731435511848402669814526754345713960244145056604566430104605859154541883315635418463137492481732313589702835847025746108857000369457703669770746298273846023122953766102658278658336884104072335187498509649676682546900881482186752

def tbl2 : Nat := 28069273919238682803671018515694494608727016444110279517591106194325579203534708041648662250449928344617732079390703648935774974149286092796627837277510240186917874429900664640854821496086362481469087022178523612043817676346916005760547394220456843479456976333833168887770764148807776048070926809613354953420341115743175602003312713009010172625012938411873757954837219078890836221108726786198423383079498888832154689378962293108380449241170886570687171220847842972535037940866139797555101323466731706945560600658564731737581011235737427800134741506856019921201130260312155974769025496641902657686835046671576390629841797156675768937320747576961450449936880019886580942307954670559012528930699407532893502907440482516305939163437327918740906568154399399198384357707925654827053814968251120448761710299936999760405103784220138811873901265170902876629584231239133334088945794459385071508336874201163261840288674545655451279392590158696515391103047442345412103968077561801068579032451929993500729095094615954389530830684158290790331522229094407109813899019902608872087940820911899282082801883818370659988099411308517829043269369814692603856966063670460002303100171599775938627668094438556535515651620322537794390559010336148559511197101716232895662152298137189356321294463695669076286322199237617504899835654847750878564690065341239926361813352496666680841958394337165868506763472488774590486644696215819822102101834630374129123430132632970600922747144168478882217571970766296974281102023809740676821902611764289370908612560651192187034855165765785927414263436557649945185960791701322125670968165243777231014013466736562859596473062204767202063903106804492721348556520042314937459747561812644934861198747258617302230914147440025649700521876615387884667475610597642648357310213860690780038642810212057444098100932920605529061109748888693246972403730060760678405996332170352773975777442474574184275536621845794701678219695216623920855453927144858502819870815427694722136377203374937232105809810809258400720355362482915649898711323494025397631508150895303978066148496189458753217136395140362590673051132935933205028608276692521157069456058076125283885214018608741911504868770950615724560103045515536517781505007132607555841185831177167715290005131918862975869480363405812180657215979941315555624576573882579327017953878389399490091400469496188718908122219871256302403724927365501291820515768757496416261894554493698649891755308414406266536305285958526159171963672988931112166853822974083662565766707662324935374899334995130394620083957063155638806838104887423131025076684425103332929561614224060099334356650186622806843151264965017821908491883987255815893430026999454106764365038164085972688805082953291729482034122696647059695142494977718431748244117550682055584587535114735087814906922325779495424159325875842871845767991772363784129207180682078522124030482462572342376893085836062626480652106382813171681072995186316722487591229959656166605686580460307000535578936603537334319589934354253877295988251098301717050329241377666585662595783823432041111689968460581030231098910384026488503490635652475513442218334996882445279588266395387121562142502736322012492411777424161121737949832538418932072682732301613371608270053238977682689290814041563159723998598723489812700572687422186037501713984324628499668788489703915580027375491251002209898524487030371364906436016007815877577644010884167981397804689815258555498466321533964433479936102840622234776230062698958251283100126958060405016626750622211785826377339090437373787419658316552094050500858174610648868443232706255471599780098396513464029650905942396249093797058759154437009765614365469951567962489980698347471441217542079243769173492847116763919327796940432353742678932613851131520940193961763146354359731813745912603804349350886104151449409530332579445582855672398538896319058825483291286507664486501065653623690567286805086249911137607763015609612922938963435997630555165225340265859734929830331482722509052529415012660157592105331848961478830303056818244790111105948417498072233090852962419010043270615164926673528186941791249169361481078642231424290137052752296263753118807716523548576644697440418905289035149298961493248385534946300892406164641133884374572948588815536841693277818461486889671801818489653758750269959199409751916505939412689438851877129999609830236934969302482537065350859198069423510277482016829045950363170841469359215666634162230325864730709407420411150239709915393446546218735901397451967007005543262434835888072094267243583792422719295889661531576937081291932171162590072893300527342869487362127009847432628905017422233974143131458427636039069477806869848006925757507986118722921508559528217573878256718653300859969461557182846181073864233664991174317218371516507680391906452267719194704254521153620995851552432254073110868046690002199370294367578318369700163756908677736342741032362363258134317030286388127709391371116820792915338471024179662397383773293204166073307979741109567853747786722620317595102838787927482993269115921373909986591206822342134239265557238123545294405633364043131043479184546605157765032154412370018199259605691374703221500380899988516966026748558812989682195225323242651994446996579141143684836799864824262022849910689408787119431342821552420819889799288029954037520255867721477817224957713429526815864176187432589980564559331088112832245103165862723647930075475138605119496703009028042270663835805693112632276508972361051144126974693051013244526343710772160398039491644249505451309947737084574368982814719471232293290486650289348807968956021182133671357347178957794897790101116018686259712580678285113915722358539974015315356176427803881474667020788750421485339127211475338879268161751941424490905831850038226559269825241345984299692567701095341491541520222333154474639234821023885701651423768240382092466878452294733197906945480648876052415353988380806148983882560788109888041111101536357133222782929330520726652023367007839743651574247241760858849890441023724257763954964331025241067713207288089406070596313360753025161460182514025633981491795190423196921313214166234212000101706609898607297085282927128510451383248641016567195101442079840755323003727274698894269583503914899189545212117383197829544442440811277050905553490781964978328293262683143875514998489541543953531241428315919544393506266892603459093964281765650180188585674573418894772851921479335753190274584080640518129088207474234805040854758839048230625177453960550111857700553797430912697602094595642547538583699910559460171859744591456467399071665478471373698279057950708088292197946773611810143726636879261258129923965060650412930422026041255013088486109038514732605926715295248656055481151013581499474064875264194544041197558553855643196411477599853110833765614442478894530993032413486488355097276332866357510072253731011482894295471646278466883874867591477099430237889841813025566305316783661601773413507647477219641438829953876294741442301102322268115744409918906435356491230015877252853071911290746926030214304318317310049852141088111558699217446201656850067157412994658480894497848383651055487263430429862901887390670670515032908785285996119938917297205230913000182818393291986269372217583714018313972195404069610017116386358609192724399897229485378643672042320863259092248845996070762514651721404405321975732856312142197911045243039832346468072377023163980767143778268572724608249775422521941884943199698434743068987589252108968765649113461382589571291162220392620224384991325164074509236768673701955299502141442534949342321368709683741701169538454763954229775098989355343204565654896445905203011033906940135102676146467302311423219011809004505789533098533956413523594748129316928559256787059968638205596970727342366829682564148376578345038320720606276513448560987091198406819149302106955654081137147579505583863290739859944057655283838288253019175941567328044080709911745257215158112777758409088210488251501500580543756164463149140298404848214757724143724240630640052396071526715109494840080303058940875932641092942714292456029527558197452958635235344924208743981122077589576098965240525739045217357318752813850183226792873178336363076527554052420270814774470943371360467250111451630337471311212233908742346793460440259922558678345977948591295922998373337912608098652976028196134903259882880767169918906455964596586622352619998539662733338874771783482339172130627003626846778231977065943937922818152929591397567775994809761803079716204428065668891766802658993595632830192890619623543967309996874756386778412840025068058082551461149803076388830480504352803362343873012833323166448549039332984532953105667235858027663378469670956363003128059060992174159890904609392413875571979856555393531380054735788737074817607208557890102110971474770570784226346772186545070383102095409523352060576683523751857186959498057218007556713602068426252213688187812367860718610488762699195118134198536166284141668467573201599301563593596935791987059520397396026343704882886131172600478274331337660436643883896346610781039611396458606409852911649592448238786971418499567624799959608822881593071346730780724144222839379066118524312324019611815592704544750424005367303385121034275863906417776512063197407481406535023289113264858326043605374588121455200119076958441725703599206902447064583637868697181761840860295708624759418559462086135233707702765993398347238651595838703348602170197330680508398650662126035543674594051866914651686721009591050806830855523374347879554670248034127194521351269534668277809036821944941758178260676253066024194005607154605113818010148695537738802525923398187775060947993607747087461022796324671318178771916211000428852950811708100571975268533635890952007152219775844033341872385998080324323243528826281070449554247860869634202532965674680019738965718559607426763939344014665754448344300166277993329635308749747195248517959272030454695548921341381979878178457652177974990811036865485950111206988504348016144742477650293448933247784519162339581347578892515012021245220154955906271334930311775538211533286974078042107780517906938830374782234027840700348259578318742980385521110714779272703072392058602460581452384814925006081029447648970381558244725763611060904715476645468773239224754854333942236930653230822096921424994124681734480073964241200833413094208253859553481278821994720239041772790221293090559990552850626734705334173123635522336322982380190316887772117180562658741564197566273006720366261249240380728456858213011483400045537662826707206107119317629035826936047280918023322172740919370547750058422762437337457011601692115637932136690475672773361127142269559589167250284042025286282813195298463186039512381043948462652617674171730874291602418576355617053974751181806210276388034774028247543000007496661819793001415668006627390955178169938143658294871004910004650640435030290743715245734662511828197258073573244435779501294815260745300949909409480066761557687889265182081442802311436512706547731810800175391694829122935601643049611156914845642759171623256392173711510468169362867605814593458690823113517907755119060101559675285891929970635271516076244466485033848756514625676591209220101720664010804458546973318886733252178766591065148387700508700719665290585268264963667874092153937773616704106878841335136310194742759587261294650833596029880212743121153862610481705133072163701379752713167484419821266911477760255998013911300923893083153032525553635351255193422225809986503489661710533126316448213725966141935121869531916027455090786833696846950232273843429121432958394151277441057952479372037156630641379002306031154093390832217007998500994314018791458485491798534342645217936088040417096960691338911115297017214153400488502100283934216126837888091913244717078297804958137810565643084756801679701985007360105923206574614350690171596625517148235582986051513867070156484328564703226693308754195673650232125392699010819237319135733349146349937053819329326082177209338194942113474143034165405209205387145925450533659686179653699665544915903831118090554789523342654610556190668412726644292829038142352685563710814494590189926551324015592928237526984832270492143922519580481890095390029912316429808055804827343028855755511055659374631640228216908100928837183469255439933837265649839290847415778002404359063744228623842016142241555329912926681350226994318034345535216435392842117101467585720019391219713369972886665299198068000706058108456283527072559865402314908474434320340953062809553458312895906767884399825732595876017575630196974711897016696792712191342230067953293971333537145394238648762924716523368256732592600356387487047654835517274191534710331441414181820278167111772036708559068681342314329082339495703476970887324718441611774680482982272512054661567378863121318838274487050675215570005480145898316313286373266198443495824249797219139481070456669702116867100461178734397802268128796536065379376060671182586226923855344121359873642378672293034581315545741448066545054984393183681191940920718157808677096544377077761419052058488756827698861668397983179721612449464970741426914819486481544621141848758448110837589790072233926922427956952148265268013913358210377796548794269470853111373152162737404871931649846334537976758498784299292527630844978408555824713217960837310314378495977849540247791881367022240072668213981179222535954077017712460621691345359328807127056381925568839731903929197029330172117173920627179686800789639725602488104323230114212833841105846162490263457541197568398192759809163121673901846646808787545935262246962026237755351597019830099707930723821118774908752003557238543235735917502073113014144856693635236306206901855606662161983756529586869567905277033029390131682929970769854455854541213787439324211239521066610648104265310633680813050088264227470699686689499879500511665467627642059778825010361841461015844828131589172895336793084443878571610066085266539877837671790170392230137425029880654396043325551787146028022387252877586314441593818542213118607446583436523500710152988258828791102024346028644434793266055205401736341270738033410229239817656163548771555365401643214641164117037218342066889161587787001537887429093993144955795707737866076711040849108496408902362391515103473200791494987364821899094982398620350099497265426223052110205707381162582685422254744245069718104995709941853068555535470601619983523989592543964719951718414722924229706801205309553408039223786531199823398629797140597867917235564058484349582004402856264982113045171929807897440061336966895884776597876585177152542053579274694249461005062396402586774587030815919895271852031830524813893172258317156234950084913071715720058447487686951896818150706800901429849427178679389775396864613947424254385803029734309872605423767170803673960440613804582699364282207666710953499171557571061111187241089976611380704683444943680335154521142226209797560613768142285402441987115012333897518891528869077966087591869922119147356658000191835438324933444335890042772977186941533189659395726649721823488489765850821007779456728391289085248138656851994687678227264939548851629447089890024235207938289318022105164037869064277701251667270864078941129627181402140295300462160599756038215241312768506858042636456755131670434798098032890491210911857354039712796111528119403497027749077401074727651495868487219519182521595212107166092795099103573422165391495680110285243437688588504976657056472275824857533771068528273217272390755444191117863189937680211425900262458013667566213814865787868534258944644341267300401515883059283245690539212719612925417455009183043256847527199103972584458681248869449716082816937344806875180902257052975470154381692539248152651660468757065073802731641296634873928433876434168154264231501934357849809954328653728610998287409912733479075323836409373356433319310641907249506339641588549662563271985835781346008613229108670426469398748980883245422371730749073742974259099450934301268091068099165581077370647364284498724723561494080050728190656094681037146213472918711289135495468268984355902728600575124327615867507797967984465895951455235913044628190153886606994832181476360626946954738501262152377639806625434836139888519416937161027390925223125593811854210670236640227849538703985431231216114309659935117699812233351964273351659644013392051453278824106748563165813755485665231705640970525700318991066312821793419591934642901016006116561536414684957412829512077339685432007755057638940546285402264350969469099503845988385801049120593864133413587599097863885092542228842203569455537449102215749713710939436089160232565078045824190961581627527194473512282339930713989770586030213485747363709938588258802745817848455414371725133807101591030768814576762296384702598291791932158534952687968952219535875296425538162092167548414224597301645252561377644868698007386180932154986372628917834426688417452368274981973995501604622392392884467750290286295581819681592276325658239848112137810622513400160058999669067535232162718067698096538986307113978424807763654686540275999892236032092315455373849770683987957816092856213427905053626912676373100272953340007269314017327310807713160987681165269049994405864787578820592983243829312638277616250927033299125172674372932326567585902025769377635872830699269557949637868307436546340595687403898320271648230032213646531436013001624922437275707910967589656762640846286464871955181198306996279964723503715066416417547616474967447801985498519215052967406104339680941100216904554379914520709226602557164414224587765165758348650286786751645385517876070062486396167786271914558649745001236586605898480437820645174254750125925273880131928628851153067418300906580218442409236844298767463693348295579776501096694913924815930922804770016180999192456300642787908511733673949964529354344411982986093078980288304369211785166464336903429800122960397959396691222081189101522611196207226356297582731241928196853579810461116420301248239119916548880194059429944840818947757667963274667223309287458032613441352318042004026492634346256906574674486306610094156446001224082505905325857753914361053309103114361111223335395309954523973165117222311320302756783787140613797190741956866113401197241689442721498811148591948296635065527684219829077397522848529081189645878240183759541671514647732320836318101801542159941075336144121221843826281624388752460189836606370741366699534737315475285019803038306079744728883113086358919532590408127742061944919933043596981619870900190437959065998420669799475452488520366532372237547438018964089723275661653872394031726144191665250235536621774153011732194234556594832257197073728815520854522260767850919665596046560123109002100621927721254836847418978136694193531433458935228948385478026531495318099002862641537793014093018514680827145619612335977954699408412174798262102533398139919340567130231033519156989604929523023667265306652651778457961555073637932964400077896788148290410053564044721210984089557270551555180773809332217648229907265437302947825174291210181540493038423097075968712397004737778376611719992889182149027995947158071887620118733363465296755229808102050580100017349396969923663988312766125047791628006129103639151320056879241493446129584035517704034669048649945131018177138896981937027425708432049716855417966687057486903398740582749143361121965149010737916818004631224304549562989489412590072275567793378827556782218892013186397978531866926132155559001330500780573758964028280524694878215112675959425426127635443543443064363872785051240837337470674394630106494807392540763088426989853068233937314060990880219430136305510635391933554595206386689776242688873335031614231059824735725840819621371434536128832884219751959926133423333743152810271134227930523059440576356998554732475867723724977340524459797063083737222222699150621815546333929553978568866532751688271748426825880676371526636740709232209539847444996149001553161492949326879966567266322991863663370889903990688843302341425292065694502792868621359498119716267821363328071604063053161505188916948658171195316558403511236763139624035568365519475898691875221233144473734115059084226802969318079983355592366914017026967032306475833491919695100116707490198720426902614285686316002131226691101490517637271992019674834599015895212325087160405705890888176364163695847512629099203939113175804082503455933596233008894155289401295100715660390211854628192378693885582907428454788002908973246019558601125606215670283870337424402999561707888715932608044179960005393487010391940829166541166668622521322748374432524214055869994733226736573599226805462649843164117766753109864546628890594852823183827366341476352205036796319253458401473840375506962095007763947046913653796389384454705119735195910772146122712343526423469096833363748826546129473183490894340691659573834937868277071025683062855968819174723326935842605108964622438312525902592483274666223103916549976987540167829752749021229111696461617223307224534365108930711910690377671435332149498026875125430601365514497049945015704664165438549474528425524080839289763656438488995098217494741637408168991513943042540351854783573756284297280445093026013235300827159233064843033131811328032145838338996260469363009178700578949360699160302076469854898949452942945722199201719656804997875365420537026318120669340558719574189529748367169752403524809432895898974414989327854834848856920597069580399797982522952254243046122022028443787629762140862187444006728111513802365835526917536577420098115593894168874648837692231298318140848198526449836474587200642024284282318401690367633738708562698676922017047336367837360125699743261722604101758104342492254869404790055528236629751207265705967580370722744169812802366978124164829110338844458647391029759252073221011837196662285242260699624668143396222323284096690572298993463168371981238672956953301247134035752164146432348767167122791358647426732189632104030581569815270262294178528179123125265970514865311091164206690700210831724566822698602208453363109074792729786982752520803882004576421886837598728046944438462242097059127019906444810449844865728717343112650061766579904245148007427578464505325335837342307594473246389422967717695384121702771845270357590412259173762642768885967292416766968905331723406340309689392198141836628968624872849207061993359536634647481271161439308493378270331576352373542907091067395255172637312103913090525851854169461720005448588013990283019656404587825792650070833336902781500962972785713618915175105836102056375356016695121555248130358732241720496420825310319782768265971222775236845535158091015247140677968358710562138403755356166206445782823204330981554686865039444231670611870409834172968140925673972985632703818452009746885544088066673597741396740664201041756249975440768057311279714568698597325845895427234840074382926894832422158203096968091938656797679303390078349731428646792584483400763429550611336820423315765364017292599038836993060822033120107688543604043550230386521159238755552162792039785549434937632452345972562858705190421262673029433843947750256446660243053143425928486791977159345283014903930091378390667298788989094948844948380637000383872718160660579011048305761978288121705383927826379300775609619355073434541740765780418714204874900464975063755926393044704639271696680123926709270654953534691749646594476732197899111880211671034751291474146459003098767114936602327674692532021392977612609994829790106946531976758020242483492812067663143583220433560972405553191308257534911898805464501943628369062214082305706747553525326368732084006609771588154982047298371509548918204473714683881690962318261294468248064760376601213038718329328897804648331250571047420147056953511276370242647737844514554994925524932044474108778886575173981353541520603301791289441922089029867182418101737701092926300453556346520950900062054525716379804739217599192718255615327425547520920308377755536791136092198935171335097413147277522077271126895513207881246226016622580395062694924190127079348712354001685027874919286172218709568805959188164414042235532106330416438887309405453769956132623113775054419614993601665850904039010833048123951144146910818676912857222348116432954542087955541479112905994124854476230987635988376459487460473673247699474743775781676901521371542450375746427503131973258877402122487369031857888761742185793396897924597713695584624496141592411175828058785196370733769350251992378369130326691729209901714884401443790673692299788902791362298089331751203497870266905664689082141748730080023809950007821434744562772454205769911922519329757575669189839424105928398934219878310319991523555072946295796239169701792767983816332967567835711140907880943855438040642050079704974582357886024813149055129767257591305450195848188124865753501434731798622542533107442565636015232173129356498788256087224404880700060365867334047190597137854262063784828555004799709142078143659839642143911506516892741243093865608697930743853299139782340839531272752116896373039174006318824888065910998830927499262630215334664433466967266294248090976640319956169065548965364350909535030186194119969084995700720748296746349082049389604540780838784932692830089999322770171530074108707011035349048921993694136377247988839029089668147048409890656476797998766042612963542451522418250489054967801868439820391031965151007365645580309327697694086958174149711371574145328081071869844247621823973451357980743217249442305724459839319178193334110047117743625742274237595924145768963266860142462932536794988904081624049289965202376723402160170066124907449208774772673956509634568893170810654179617396039095127147554764106897512119407119200152100838435510194774627495527267102923321348437596993562612007997765244788254623558690501851631039981381216124364251446314254880863174482063794043362297176023387585374040497987564406621005009832726295299530780017029250294271544168954316397483017383581256713803942479397985495771035208981689034832702558479681076246751534864077226411739695524789485712991772435570735808190097707156697868294809739261933425807333062347428404160703091403586580876086363289637285063280068396156348589877709681288092691226676305070305960081961491223374371836821115899545317415347411515549813547749191665178648440671167137372112100777640960993263107800104743132730052629837175966780494533292692620160996327579612471463370265143094383710714221309471558074770167158454091520023631171663162289967233011404024163188431803550645342747637891871481016149197196949346910171330776538395380449780668578211991072680312416687197148752625090566428047001045978559883792274031084709347931390401491673657997405642963429303472117772030951824152536036435995320260517517599584017446906033393417319760723586668590925602796966052740585126491433633287693041573669811515352293690735501305464711403381363700742192866092691597907721771406474051711002547263719188988155233153031827469529195973543412152423020596514136042574292068025153061105715241570429466636650057455682079567302405454315867759356525167685391711038855395760120539248607512519307472579504102977593422942577712677213329894131629040438578970571308425821562240915812325797306617919587404789664768936633687353367755640109348383622436310579446575557268725386431153698658842955656260641855146059143491549922920984099237887457363718865205906006996085749887197996465588971141635733456824426955073730107931165201567015527446843801686401674690627022006138655576816422134038670229158392522768606072808498543111251222547541988223085288110512642013431186699842122289691118982818256395771370430597379797905452805446225418021199624967254145487564570923244393027403638171950901371733781955339799690474556223594039982047474345847552700534694293109903207338852100180459672283690971611443562528589930613484601079907144531419859712624026170406876254870171587546294040532667505322622462108368295836667908953717660668103927247112785552104190164994645405528983029505867394704809260027288085534309406984904626099547422917955407322787627970242296674858826620123989319235657379984479580028771430660291340624853879740403733034372799325583671087865189545949149064256676642047507736073144959491716353472630473550294758754773885408625162260984582963915446745097101490993424142456547960841656457414098700133316801441524278409366159003895069291881851713451468460749816252645863664405080137874148864772239537808464327309486998351009941905446470273227185447101616059278974504521142916389666950747216519482639591921815585032428596966595699303736924633890922082883505227227334099790865295505326385402598815129147383826152775556847002500098538501864319067539744820246850909169296825669094101213224312501547271532339756885163164931637641422147485174115133744471788169287337572000054966719409701728405516845074505047313179836675183545467583903306844139777900176087666777047137559616513976345986211521189688993047616086612710105493322107928093291047712858545789974331091698808166632398307716785988625605934622737685835208294636025449564042342877060428141516029947638626832835820378949799234970738347483352199290723673499635761362575307768278211859554473386715819801856890455188318256581841427989259279756063077516463270809472842611079168970046280344053482531875329016607727817936983598669010944043100976941015337312134234502360821359792376252116679868856594790595853114967584739766210228016749708244826493859151748129919213915633283865390934011791105725357451461131205045500550818271560444519476153909347273927762513244305228237885236330866228833199758807484724803584921040382007230089080080153523801557039055457949765558229432126101447675069416605918523811581913895784530441840522761094796293264531122278249881878120051061712144437636093840191770234291086755290332767633916293035937459190477677907041444194641971558008659980760471882891977338070427604262798333646045038357797013373839746766489241136334073994627616761631624559759137521917159289815687587572428610178555591312904914073321215073240905568378145617984574184588140142710633587983512598643411444389901131578994707574934862193083269544277520526104601698982831039035720039268229833053853489428355465865915195847856593025893072525997248060044775845693028517115444475799170018621404578749435990254735622302762387237506176554228566971802201204779435263132059961116241060246742609242240306249755576252970619324836672578147852258641156656829954725663690819042752723154413435129212590541993936558427269621524607414557232368093065033214656336136029372311555130294219334279779663106900801709737724034958420059367686173267959261830739442166513467950085974245030391358892134307070345956479433037043474460502324227083661363370108448677231128611844984018088580818035650991711873754231157189427429485421291978246330880304034151388098083315668461604474429547211707764036110396034349291474609440109432405961932049168411293826355456321346667295378050252707508218983197212506923612136469045096348320810428707836606032410393151631468547089791100578561030497074347373649827507704026804750753039172647274930702660127036628115751983781908541680698256398951875012429209964360478531390801705789824840470039396203080162454098724825604316147585125246492810406363125088105875407086846416092707169439451596830921863544564900149163742493272381745539465253764589995791221972451479162272841388254928499908840108486371297122532059728366303959824561340292367449473239121827538339226959951479810868961560711739167532826293932484140225519412751979021456970754134825518766759173929269798506951212142706649676665026318295239356547812553944581588888419859707116830416374714109018390817276303503712259037582530426605300007017546466779459951771845672891750417585625330850526124984230183384083945079839554211701604834349752902114962787586043119642731256888551368594432472130974689846905339997041591127754490258923559920078054026087874816656749949019535704004591613272730973253674780187688550624999314518907848614977880213712900416582101213005536499595502369849445370660294940972542981317514919184941964544224388839414357328575445596952065365275520962341423074915530722439707390102163881904547412186430356957799078263935882336466235692821035584981265890556554463032467296454237951780757924686824000522572564148634795021993559695917664948023797979619190448397007145054395424257253186775513703868971299399546260723121713820074366935787469606694304968018899403645444901401275257754682455959968705078886905901319203422015311552048399526317794344707684163908908495410436047221066349808778525927339689742359621692195778397449890321200679330932812033507461985425227716247358404285643835154264895205903603786267582917909339125428747070364821323478328791614774244141518902930951448770524120537017458426059423192003119623168132050117412410564043761503310263771920600040555650246173130078293568355317238379472704702300356734500702036265961395704346116542631259775483895686554883724941464117811325992937462224891320162852803987815277642207229322787051656842988939915518470338487206247418327071393346349449588568847978280859922008241047531546755712194331609461346085583293269410290344737981451684652392375345621034934085499982694704706973335096159745334674855585258908389123199367641151508931643894032296217638585345838776024419750634423621909635350038611911206376915526289229498931520298530628108751507785814187906083165532786122663841483397862510456827892843482226840957845283032439305039335852628629241577884466594069560587764021036060692241095878440010595745919135118635897952956346054835301451097823012605801358349235677762999795909839102837014669595949850685143243335521566934125042043026102177636714060509566199608846370088734077360462351205234108306633912647905429505641273698143587928875866309001413065726682701569927504687432036695615634587283264097649448097166219442483341357890259991139952339811023218867287054288142855115683551099417108637522180166001193403249540592516537805666936260523371123258029067632165879386664468394656958030002737492745479718330193356433818160525794571235195214013962043868887682681498879177776096286943880133023151990597998413283225013014195009206980997164183534016994501551310638029845887767996318243636043682042362216728013236027708659400891798806618596012288828070465819862991587780350872015439925467686220994971747326675353226916607165565556591840703405594377853489820680605060755651467783631815975554092031009388673916046877392774806474733063456742668544687243778235611727681269969321079524932050260670369213751277802195943946388080587122761814759772369172318612946645188594976736196683859651971341756032138405170488583958629488600003649639761175884239224469506574401257133255063709747664608384762117679057580811168302234241170300230899575090797836018718702824989114861186428103924397197899638004255343673898255914543852585545974952541573978945854120309697516434052553345296206380513349532909057911679646372006974594583553869389569324617933112679196189713000626907109271847041955922794132036628294571509872788088042711834231243845001650853738766700162330498659352561437460429563326470119389598242309262937177843980299911903115979079111324157413494670717519560528555981795904709940405964908088767121775906081651560050872380753044685586610830437709327872365706349375501083189997924445839765912260616241203970391175299871559678239286781723930634091191910188702749149049441130431765733292829887006109089145574721552816511708032173022819699219685700963170705562774152647652577094961706916677362904581153915626442920646577102765996060885167242802573197625433397530663990270547790074631920243599685947785296989024307304922069822932774334699243685711174004763026100212281688985806167482650054815493868228734317299110643173830750510237313071389793239578329826891389096411584244202296361431256203207854174093858665290714790581724203328315904282981030644893668041720296298988763021607212002880020980762458676444202400426297979322690592000876620857567007484931472011313012252225455510909666186817901737665511119284739576227571305274659198136594266947835655477712130704630358714354103525812351122013776895939362628314658838516502737576711569958201867580960502834910853202753172976655225804992932725143122024694184450939152486137949298907333110832684045516224001384812582694512999852951579561321774047665100280952968814797129875014897956716064858982214181770730209389908208129333639089327008514332190630781955044141120941094278679534033307698866415848990084910347282464553369900090753551674003702133322957640026320017075657097131860833554156594590904742395222395644663465587320524070313779927266844452867271336826868680985652113673104551177276412361336897874894203691267295014715446635202859961767173995032271471166102749654107975949711093579351652642051843879126036717541335564108737020443463086020799376817986794344823375787141844451117590381185132453347540642417676771785001927298733397957533952517952970821035015994668927585292872454807404343527383251368921991862301872338940429843355009319575465624523979992983219413784526374214707457945314506518992290458084407450301639421746833840817252142109663917446069664246232266779226730758603632034682197343763654004048926995156311358423095541430055425702639969084440477615057929538555104232071742616054849946213380117883997305023652719969734509790653341383334942748175144871277065264527959287010597234791762445489276558377961891602119740835649274714528802648079893978064297700173112591774477195922710950135926605681127932432368511927581479516897795797814394799713079469129361274581310810661011948613128658429668198136196620583872453975604947917171100526829152027380836907248592153255344234241772060733826262723799656201100483425985100714186394288924751329249908601098782534877166115300523681889033748650535646065430720623617372349884361525283240800314018424721960930369046668741288251788491146478545672825571224785930398342566436274701590524578044903600917863016848801991116062376304743376678283647898230137700440738909837151243994218760655908232074629909631415497805905272647776150406299702268859056432048188856833343772735669037689317816408643650422307358481788705093112930935172703047915438348044424576352695352386894914916369591437628468155423222179156596072950112213147613590970708401315945305474452898486589633795407849245510173731619751347711378455662896629434108385472170267671664229926343486393137109340076403114819663246719474165041067404181996135231707787778925387674671740944206173009925763831282579780838845713615621124882110305025456266352791582375980604397428682798848533229117863237022605225072031362946977108148460356600791341819153106851064296484578891408394868671267130880393242295205892148704485280358492234677971237322325681860811073852078803556984644158688812867369781791779428737111652948227297034861610595411541935494768148151948860705797305115749049742339184170256499068320071682777826606216318825008682391726501315495455555816796336384294578210157076057299103471147923236679594142715879616979625659597302732575051522088340726826228613445766388890088381609465874946508083858270950411970573916548037764039380293077130819530372001731729681431309527800527566070495378250986918042845825570543299261145533945584361953794729362549044165919858256692994523867132734612383491187548917455302854344390141924045644044446978341865638660295154196693434232355126061882391592450439338584194232767340681587655224733460402165069806605160626979904587562220035071717575716997746129422145907720071398130291441499351621913493231175058308436597081176467835413833667823419950154934101288803609239635684912034255455953527678454675973785854334024203514837594892278564473646779761084859545358390037012849312707205333101123428954696175056606568529664571796310663715803251652128494269272485221083318719099082105898770959603996468131988599468429287976594587647745771074917185480614675507713094024512961330185370997684056240311276074524346553322612487360498173598410196108133714471563482399345646803511259349537059367657419953975285546534503420918859060906829733083709641746361669302877807389280698436685275766350640574968646294871451685371263908644513264110619257391779618799559382414044007279265339655126097404670829929654209632709667844744199709667321913568644607099316227407432934274655636253518907540283434961304503964735655833167484138301051231472767404062303834216437187365718052289689985753351472940620623664519259871706483493590528291957695538358010996322651201394796072009928255826268923027244729721883887908742136803304247849755487363359573235219725860555061212836614327681740452041869973451230025894464489667847350873457945759232904957650980734366002046128458200952844462759684060362468340353849603818611998214623608465118243183760899965710959393742129267716841390142275505893643566072407472794617883621287175411854826115285946986670231913900308294283803726267533859901613532955130195493075124025778492458393036899305607124486378436847037755412087405032022606763199325030174803778303786226222515963873532514302501059830092684594992488746086278740729804964549711937638849769976569326617873654385610555896296940753852170858069634641766187155078098170025653554542237908846304190845613185268878548358560928211851397517499885018460608294170905939687320082214141559815047962059507154704993367606881322051913759350022565469734071025995119610373108556956651827080590806522937603853202562371744835455318689806642054964774278241027803348712457703831693585272471779774982408465268970382541793272395210016592051960525230176379703621134626378614923805107564491795218878082529857289130276397745138676386863776789225083155521450431225667370997052386815673270785819634272568720204556712476025339890299474367199819890243708713695989977154455625443127766662605314352100143828447770864357716810313702721525965559783214135789078359041130759846499105402207803378293668402318144726157550216085975354501399231499686915373913610217759389046339202624498958306289253133965887867361945362105730294799234821446757323257971077521255728485558120346848993776763757686560787441315914240210900199279380612318133113222605696016186697872726907238109600123968608162654307770010985293726239455241608292863077777395172628620913483415936311906052458676234213436136937448522299356830640523455656947313731041866064351671182791856962585834355053469121549814772369843453164777707266443480519422220077021398737645230339717841026951738284968198808223699262248657093816293735409533022145599022885696152468975214458023274234452285501455339420820211052674350242740873900124691078031488798930404817526232143217239922740041668761895387557718654854429870331561838269345508746190086263452134580346382614545560458183435799645548366965937840216514751369675054666164992696977192373780121691558880973641210664406297246533192467180331965965500837649950624440462593180341766261193683479361955009524349588240333678327195931114435465672176164448553280453531963066508730686117687667535971882018031327195245153388858099076569692657572439057103027837874203395240884940316549637254190804871451163428496011231961963069133350943909901498070266196809510916474270146037244669644738221329863927468596415031604549535224805535465688568122885679644560668473097630067540062745612784089741480187299616944239903932171511579893054507516980384232332357598944638486418336968317002591538149753128142556046495221216218344277089241766893330309621204738074232258959359124787894412329036823522087267364694943118251082863012276201956240697284267217972182836963227343683332851969912441726554896484249919964198973137407625683272054590683610491739029613793915192269987505518663205246824481053675080032441944277229693406578901240513501640223171385825287976352152114799066584212491853141776866546423192783870972572476534725259025877542487234547672184593134904661848664076557871474581805152449170981863894480051959253645853542790508158641305278457825332510779791935590087450562564032512497059111431916663010758340861328585843001515069652498490337261391617915580780456782326046541710093709798041238304451343937475336038899102150016373382642252612828433867148893632539553097608624063115895430679276074430312461550120284418146310012445158726751186623997534423774772237010021804899064805259321739643179168966167785928622762677205661515668372120447049391034217601847920237650969866373764116605121696238026766428574987308397874144383770026710674514911558033168298690891215850842096598187536140171175983952765413406877889973944772191049647482110856043166647117050609641163774252754739784662663776536095444320425733926053045261328772414465967395901019015666296389462782318056393344404487324641050050378641757701263557136622944654010817771570380941800871343096746760741909969732712336875556687371209286115240235864896567685320331153274617558453437042816141121767551437441954233376074248097404842008658663005996639994335707032716408804937441767522777956352

def tbl3 : Nat := 164976364618742206184556956168520910440386483945497376372409688760857025424368801300577120846769880710072489678268916106147053615939578319957503127704751830552076722168471577344373735060445139076123644078673521260274765867296314154031038107010978491802895607846381808956832362131398060971456767173704703487233279524949317768281778739370571522317259458819409400036050734358024934027603310095586876088455235843853479787463940395506671681610876277105729826546630683298003790721291712784279750233982260216223748378231781737419336765364856461082987686168718942239046375549698043328187559067276773313884623254414966662299522769882894458826351218810794830068475206010514685723160281834659598122844083195654373689122643304180082598699520949219426663480470052911474329018423485154730482489807578404219169896724377232973572150357027381513350433758230985789282323370322663523276155809318469514626664484977124916117245071287522110491269322143999879586848384866490769238212480621298751950471074988065942720355352783640117066895165156564309925884403739677113859794472175298237731690197728056246966037861896382163003662769203832341601591036745876781496250064187824250318576686564583327020557706164440113410291281502203189741323940105854776242111486539563277501631042920612482746283715214626393442110652101517188737627998573219031446537543727987581612629595434957037287517612983821315118069580799149574379388685921813503603442154297354330687918930345219887830786849933479205006984517426875241897825262175543084880523198426709388917406793879373428571691828012913389664875553323273537960284309017541670496122693686323677547955127448078590472478011339427769971244624025428868949018826343228831578909788393705989965217388065871167071774075003428320081699678826164334549960337143014230775062729656926087968596494711672524865934390095589381063559321080631641820286598907061801425888217682710702057256128912469666673417987998657217957391356892038905872184568889069767627079909571396322616963821914253385769833484416928364918132349648733341422034057237132950061789248994953840981863638134424808304344437829351783663579224362855116012808685953237191240460320731520621299466074871560655442105411966945169898366012563726451986428217776671134077849847612509290975360556533605614096921619970607579510472500046409107893796885643615720930718997771439455269855399145870468132492957659524153295080902396052788364743082681811889528808015625838764156804957448864136513322308089858080791262242342043851386255576534973835136295847042634067159947480839586760741659963379450600709965193381015129963356523511088981227770637003097434989776661260205223273016629740007672465166771528775432279041504232511319572074696486767781528246738716652645211564955487175155709560201318884493749612127624037121043458243986440767608880346043868037512447036980200899085790068863706884751025922028964060889960970205068195591902989883959036453573969948332929798233836270589720925572184860992535891497670102919792944315957879097058253894312561458459554785818874013193923467555128174236985529584967346286988468311361488158212670988946989960674850840360529609697253322326330199186196461221936900811090671141936691346253227611825920021161477154762032577682976576262366686882723445103179138031322848026383672791558858512650186091733272324372564697225763106520860540945190393563735573946139290761110413330066540468412674887193397884607264565526291884720042955323710854502610558727608664386748283888646743545390363211818036161940697459263958645183211693527541385829247377424310177296178150870228832798079480017562137420075068433807185761038105050273059917662347034346151784535232329761473919884280309033322350873163750419580934661798734426958068817468229466572105293572028430521605434341857538221282427656860656548088915057587869083292210403536616180490581096141681654674265167722660263228195513355195302118197480917257397617508174522392136045364382986271830313713765110454672723344019010779178707846529922132920291883878793354217106719285711729774470373258108011110053275919579378546514214432125551645980327840259431498755581853589149580662942175044876351981973379018878197322298199338219034092963238336950271526811993383564440913571937877916244420693123000125053702055715107181968137300301559892568045712188890263206031562076216338510498525472343366700445291303955326276709303196893897236634339927527556598624285558655893198302581908689354974425420724870244124671716230704164117002641454434843558920109817478300550131711269174478658176459235935034732981273246233142438277867863314879113202241304885552726849679125228223699970335048790317450875082630877719181607928287867597115737871461430847141312275707877551734898801070621877564847587839698550549132180770460433337754717548353122706837951268805701228326776246968216876390690323945308770859010889324137839592905549216373573891931199753804724602904620598715630657955365071449758379783171899064258109518465939539968487668965995027418317047376868239290887028367029471352362728564480685394978944876099860757570478806261632670323293558740717770429865020324766193555838685249493435867845583888512371023010091973394961556691455496010840604084057331487096399300966921481520266108563320269595855622109401479821768898603269142049469716998305552940831449735564179241625138371262936265536845429895072504679685449146565001410296578144987890580759502555766819001119660279069433819565009693110366343155890157834892280770759139110779259123497263281600273358924527949862964570447479905627476985534564704754982588889013174508736004249669265633152076542432237851888740161543629346222081299618791485863948406243682453724144455061320353879200587998397838089932647909370714393341889765709512958628577962874556788235652328671495891022732669461753574202486211426608861097071784687048907388061400179406677570208264395993629689624052746698077267136788725767474712839868125107346585265143881945102514723788523537866906663159329058142427959630061494087605001536741965610547346976465555898835386755551882256103818466477478338242978427137146058416010198655390635364132375592484641367395486810313088598548768300274744736214583006305331437164010212017132396214080701256598133152417015490928982998379054970425126175672830601404191821555011929887210225140617661348088419872911278047970328142925675922784268844988686215951295963020642540011423659243599751412723668712881977734183570047744051043113602838195311578529234917643395153506966754141633327023854949555342377430785153817273884072379215658651792210946661499186848968334218651343925749309695051588563548540786919931486045977909710133513331341990122564750073964778721534448902044940893017814079171046032377079165204710970472227595051689619924042159121520812023594777512881274139317248852414085405147180381648878556384058118428257578755068406054075999489614976236105283096077015599672985382020497243697145829429539246733619761848649224187220736805670319694463747760788496238873099395742763934904526027063048515285848281399750893023304102629570067049991877902432758151305860283263795917696020410044757824852937862028067840805751572066054944832780309056794450157778802509521108564519264646128834181920857530505365543169581412613706254555896515335943682316078877145010452249103798379770777960643918519165150426934988770943292114990411099051779617167067754970705999601263196879288933996257850338033218231905435972127305278610139088057751365678838513453945693079261920238123125953667492462206915636428141085014654161040948375888171472196741456333564072106791149567692409436971012063144907979407604548843014132087349812815835690974410729188874161413507754247687940819634256768886460373121705367845970544045740292852015062016013660528070864414423792786740806378830974005874076654844099882408117092783418962286421973855065865097606300833897225790485975237735780093234861903368284435594450501873538419672334335668914627610330580265342798407252179915113851578388690238947038426941696395537202569331019279357808983616276757153889515797733258740185054803901497017270063202873360002966591283401141878039162606144820343564151691687252077455992368773105561610268786046634225628602403472626396444630898470932864117854420073806105149864531350210294263932728505724325805797183314650101479882125588053604735919816129932055248487797038566440592434655271396522107742486150266423787315854930189066878881591784161405280202497727119840471691660331306455577477990509238808158379372166130565817935062037163108128052026853344859550262034932152781289895177804794803856506558087499715322676814035398242128374912207545142934836355633667931809730345897715720594940699184956648398103069721816664016171518455893045461352399087544997378026409813149885520218627907606293491782191500656358612186775176290793860457901275318631012379858042367652241768249042555572023240515864531590588795384647343189777601056967555967165293974456130044903884998198273354987656957527292515049601975271285413253294414319218056908353716260188856800714007812812025996039283106843508737223664347193706445533205289148472937041691113540722909293885089282729942491423984326599445743583766901906106203001663380515378471129308722109487421604002174973837396917987818330723832386809128292666367575523346891599774671239169288624976271783072747678937039705507490621537037684734035292551193725241524231125241517053099341568783004825722164813545193224058922590945635789155350365029862291769104193131339270740802898929327789468587783563190539961835810207022713164908513370052737336370793973440343618764400300715876849561908028472223072284705672304204258218553363022765820418882747354484995417980170990811526697184291447546831654895119099712261812242332912311603722224443495296080943196719727988637323212305032146952163012628544218578895477257682182995387947100435467736019177478170704425234029890456139870104994799525610532866077409678739163793514256083151811897126519671239696085871114826036628088007149578922040137079312994771826288391412836142434970555134072556236886528334997774260259898817780242856097108523596995140522397813495493985432207778704835536182043232486680362170719936357992838930504823163377308121882255324878315308673500806838912000419121333004359479848622523488785574991263747998127140378232612274058951069447654973850820260789721643106050969140716294134801218170346202557962593524876724526591893469149477863384398907075659398601498315548715372692399585468699986853277116135147976726122690755153787180047067961662573841564684394794299168603097477614444576267211216252951909808654917207422628445262328815646456144029052423985332618965111130170683319146831550628797295775758404668005419288140422547334778353459005638300210628169990492485290094509044966727155778224465645744383169998028037470462646098659980103668494395371597506461236873452626879056146330737337946616068571315394017627416458294038397633890535607513928325542821865264787613905113999595470887672480664753292320280775736253623041421365969963763298047639742698227934548011397651930211783855968386986018826186398977616220598677115594379652594111927611447885520391703554753346772354332020904355238164721935742273078229284256384177041560860393947196170545432131589232101521538502437797138902017274266706081864961761416305296742361657749352880809760977443562564310254826370270615502573673436305520457268332029421896427226190213662428514831087802513686524839774189203856778264823438345722442199856778471812371457789851601506539776143929932754146848089560488140317863839372221461559641628100723233609069726519338395638597666779982551713412173849356348694487733353222629558616439411242846531431065669411670112175654367278347693518400858491526160201885433500236551422885569441390353279091116216827377594113841929200007472223889121977351987141511109520959189449728854681384335156739750625741776652486124888686525835266683564293102726379650355178038083950304921300888840395924680356428672297726790321399558728774355714093533038822785365187741781221889652942567755297610225653614723845051564059549326938485964408413122808130734565371271555507293901437321939475050127371529867349195130464315564744883461359607269043403925375182534157474859086206642461639897762601277312934766136751979220152471599206931111078385055813957360325790429859502065809747699098639374622943160021205412263998926514702877592585299107489088201594221720532946070510985702438093401160454200116737538260897857857565993715555544635328087717568330422195318504502835562296759109069614021355566846492675307886899642401102909996445663475096667786619415288197786925793806128832039529547458372796691596760985800776412758525059143890988172668984662044697642261904661353022603390954947244928551109109256273929111720445859617005627131082926308662338679152025048435329467874164596300167453968967708022169969524158875919431974131456517204398703064254761299990950585466174600513881895810464892503480888511072579001210995483028113896951887688847782052566688441796217547305628063018459480505683966591380757589677365570155287397941827603935862910078533849914166468454406022926110593215814367452455658668540128849840305387637827750409826961536324065601202928972614295809436712398741624722130306842118128836211210233948212439930156942397459945765828866405668767336115370463080613385439171336412090310897384920316531895707780152898843289113373892686789667698704866844884644445557357255703073021342035117983427391638616368587067779755755723747314943148929016125697263780035894908319330636821805869445129521627684576213449301762024343916248272516544165294385384008404873013992553711650148964275554787293009172785794902519796268887054366637863946096210811050012574715479520408498820628125014297286285451847054202000387781762011231030910097766888910643123977473119644090167498181964793455712098833452048870090883212418807068575893939779927817461411350232669747317169320563589906377584791629114050658759762262697861947176826707369876047333274859671865170717321011641642818821313459651329084663763592581585805532543711743934593304447413775819396002541041476770622649401333819448137285049023668235738994563397258733457069484353445440948271225665274379103271547991899240148150031033572840404612269218427713533936947097790195346457667503812981506719529311258964041978840992480650721741488617448674584896127625663805375908552578861989668747635607567944286277054055132912744097829794531796933554708352452536986537162814762262624165212929318843433929873183597407991053790782454266811554404901193229535679192767629965218112529693779378134891499994532645390701201747445977781190959830676706770502527298012054127519041947287290961897971986860339364731957860598999310199135675653447631641995880205578886067156434692512468684565939158636753049127247170574992750616631018276113609181812695939419816961761666545979389278474507333123245017671269149558924515829629331792121160695810959958302950779264285426346490974902894682072411534091396677309963991259750757333379781623833223469046003918009686944118424482753833016749357642384779157893300322634537498165049362419826982896121970416085153185754194280419124798098771289848711624029747239395248169268855712993614547032485036869492243678022216008631147710986706746728281579824555224615425900531618815751073071542269741334853765690715705698556016209723016477201903545322932254805211527438090740213020361442087421224594796306857872817738457266253841224984591665831980510180071138710911807485184476113343256771128678532383177922867266227835867229150680851686566053060269421698490803644922755929092253619103852360387775932078422025930709208604782657518494431337195056800811937116497214900476858921094615682404523164001224349969126245140242658085162883900522262623525613156534488722063924049591894250817495488445877210677058162864203275123416191559457866810529829785973331973986341890502155919648544586805094339693773994490588068027563281409654139225359984820207472924629023086179147462539706679669476261995405525306057322005256500926309405917107929006122818213785013462771099301667304545714608836300937266267928126388485410990385562184798544283708588818681720490575489348798739798299117649273469864601831705005998059605782405532299778617393759560360230600967074287083713944579407192873921295464268865369585933501226128346919742245209771834976694435847295944245421519259193725983810616775607917010845406277418148892764503920072620319765004846902083549201261754167587696553052206865078173077354760408210103562392564573643992467754803368405710193189558595230355597655681991348135437596220445707022973320614801093293238191772606641146181666372897577127637213503891843662600409301543282879286826152040116503470247109985098263458019707634584333985473824718778401844419367676616620347850678488240177852699957209135706365422058753383711441025823010519624214731728048111105918076563860421483235471828587829513048222895834212963680329116315734243946771603496871713170549996372524196042217383359241381593222923785462297089115855263032475225963464428459714787334408816224134437672171528251253302588491766838515790434401134635198318190258872971449732109365284497949010260737855112723137205912349330968016001809207856900527522893747201706106692343530622659242506974689530701997336784290351783607876887609567844081193584618057221102717126235548308159546001803215682854819642332103334815889626776098506017310542072317859900354553648988512230442105667505118460119467873720103744884516874663075321862328204900739865849188147945017640389445352445128243198984652087680592630739595453716825499191625865077398733557638640709174607997814147652244997088622481418432402755892790580156674294873028545916679469459358675228983632703454965054113002930595919339211462933583933543069497320907335766066235667027830591693156615578416870251233006704686260139993597553187290859280688400868397325253158716061959739827703367462962466114537476263341733361582035549663437792166612853813247391666480957786453703284831067167664762411569978277464327812362708447741875461230131469020281673057623557137176299812902360973016782514854421816394412089590689553289147704705271190914171165964572367512273575891273624649316073000072872663337435433144796855696086652620554367127978797744216188477520993438862096980255785950179249534917423549648195496997163929146013283599606960702448507235819409843131037352676097897811698817749737346454125311076433313289709044112681915731991811124088526173532698844538545895543625644464640840294334132582991622866866775274757974533359072342072974504271995007312285393718212280001605469356635255467460434625146303622711176902335827346355251297016002597717008842433924997791367231221450431629545503450079509415870045375690912756426052502225112804042563693433833968110254071122727068922611092193873326327831474182034461050491660101866977296411598411932369369053220688009445886832083643851711294264824374832826424628507028639168200369512786942142162545008661934285068024520492268239986769155258399271813659019106368336019878305805094504682678457053490849119240909023020072650468732656082630825562757995701706637297427463618248546157991225220006135962406482076848199384565254679172137662149348532455329981753536618296958361524376774741864484522895741690065029557394061192422412195478934422624786757326336213171025625695887460957575742547095365801807040669641001257990660435743792134365019572920831632767123607846522549482500032084919241821393952093570184618351106163864950093259676150668353396468868163879400527928855557202246846162907251662791770135451024074709533569730399113547653146051754372630658833939826747973285955035017064159513031265167182736894395884915159770378841446714369949299295283742019115827720161223486049773519336615798837898487624841976090775395351325179401700712351072014207586647126568022254831246361939429205758064352379391202584823979707391008836259482078761688130856011149521358368967319172686659999546045283262224030986573356303921933642452667747513502670247700561508300581472279869254039017712095208642936007404823554963821531984568788811301693565642874280528351723007064941392760777266154914387372398034895688684900536506703655431171536130258608179139994271582883476259034815754547342373487578938084440580812451221969834830551278935435459238898310099467369760668659560288733561334184398549384523911572728044961723020147026378778251997867097804243616425214610837007005174043461189509911867156296326395231162718038895601887755989362546945243083476289897137198192199043613835771912435901495651241893308086215844281526036717659901022973576415488867909166947126263657891005775919990242909775806391991808880925687032699132571593745980048221609026500130495032073766269261838645383017737047097594657878262725890351491544054230157391715505007853377177383914555986462487489135317557269600580456726811716674729376287152037816079763514214540369592334189960740518136476160693954000334597044524113716176621231049105662014803004569431999453944427029073241861333876695530069206642190031766995713204610313098075136779024560238984038422937736704732875673660118287408273710725884977297772346245720599671853511661208467270326986564667274963492614649198763786285278337721483231143260259914683936920706563099130013571478804308051033333648338412315541455267512715749443438125789347688553431972341875368315586094365739894052519823765613187170273962110146817113949800734421189731478605215124184468815944281196565108396122942605269859906452536565033999994519202585555344761137400656838393847120334416420130427604772296268128658698788020471024534474273696406295368376089440650301926262109427457044892790964599102143003633308309940201821636074687003131336918757990042522045039653709740711565861944888418118101295646277514818147607348569037596131753622229023161356965908164221326049022514848290873276483283615902166392790420594893590682241683154927727461814500147299586692198251855023675247119661052196124347648360553185188452672015134861653101350267157839510285809560773133039997624461018338448847177354075094031019438582731375139693734843057731245897678060951181400504312371859855929783543476254173899266265770993271422316702087281911229754247020285650426743862699594916068188085802309442677517358300421701366557219723621206954224686468624519391201544732106096509080641560753731522691689732416884168120077075702282940130874375055587332854629458141273533059501217368365453462641966989627435470284130211773647998170705066304758310064924439975327933545585568210378328165193193309537788808657318876770023873826021009153192140994420757521972140106687526263539107055670265700939312299789495060138836235424503150846983414523897220886956004374819938711960578343525293827458021742767473074954557909205389168443295211624185814557022069633429553855795334088227483108508151602253895392621147851282378330575910936093808466844331292636151607717870297210753424983923349764675425101384979833018955650667265067254525651195587521240907845774904576318173537928000963787335015813932491848696447215617648847420452691141891453195409398757215795266338859084216864760980795905397315126692417659792124463757980451903712272517923080743713148698735034368012841701521136037654548417235704072100608535599555709254757404281860104653667055274454162724606843807567917629346714744056300927531187143496955449540610725355812809834914318421782654157158040136698905040421496595192780519072256453738680756900875605367353674968519792910903584117917008733603634716177195658535523070121958166235103951686686129917049303533214830430227931477936079096499287672951069621868809325800524558269592189474411541799704886674088627836719928065171629050780630993834211879452214279883237886163410865376817048261997991269402956885074434864171713257504994420963547107542945053603323098682470825899482669148156184876290937853652819163778561145733591563706072421974994074330805552599022385214524236642759507695686247490177156389772900718710589131798374676557593317478609261019739377973184854499456100549087509399652268528835976541535666468649943516204049178071642855570925338640160874393623702882683395710258827395697744046906854737562297010099284741347310204498187599023323166174376394710681490724710339462917517152366453338327410363944715814920462110274133644497794684330927137866490177335816231606424401237388990901691834391888292718392619845017001786155069166020789226121476836131859506954676357703768121781280603215219417643019632773282911894485603245712843748743003597960967508211530744905402839774824703800142260437534433093382719590701252321020458353261098974673371699900864740445782524161248151037069414472493163421133289200467203060374580609683705356503099404215133857808225857513827850202544504554433049638245845323835887282345783180315510340087061030807498456948286283420472914674938500222967663993479512091770843879288209603806332804660376517472885292528108953439351730435538992090003982706479860950774115786382033291098901013662150402701256072824849418270942407216702452640977919740357207305400149838626558364608047400056033203348435415192174689505411380534392411613698780738082928789013807555140637700526124928796540307520990977419925670747604389529495066357580640445829797367487900055594075571604263582054703070237294818073875627117624408454600238324977090155107070694288930852473349795313669605204853811471303581054967686956505574280712548737068642498177502423028255423202155855498540959190487581174047894855359745198182517320609430638722324065393077236299820334004782094877283038964837813242846604796390865629719766536904369202473603665234583459550288037194149056518205040643425084864664065865897161753966754156986030210796425570718337279614916091581050405595840423782317131722386214577618058183018178808848277007291200051758618304498151955941041437419275996546351462203077041529218440190096283141768624288445671000270254231028211292596994047814846668805055378917717803627022386987574246746547687291522379629688923325685135764709224247868694505795626014228129693803189112172179301002106910357224940514704631361490732047189497013943294985554486634395019532209031606758546468371538245337963656598728362543140543545075020085339046670543474376800032779705410311812830474457952823419094838793115294421856339038854424897971036449705328927819770032251758981551779582396137369811240992481099934707256505455183524868538501847638647446648559334887581906936003696502336492993911597418527083409849146685405892946014506980281629717967451582811788993783815259856724307239460931177076734404337602173194448516016619727706612383288981203502436388573450134307391629533756363718979560912095627336610102203859736820986088117378976977392750051978644091499434303487516920497544205351736455261588996973439207457936760898542545812396325012091232400387037146303732051467834517185759485513798853613658260290548097694859264039429481591851119003013446929103404234914508145752298898429939898819639536891233812831308355480185486043254718460953749577929458431296782556549000744151537173431456072471528038644513996548934404744878848049321979145074870976982226764319990687738028633452358809762566534087416818800990075395044391422904497559401862281094574559451728923191882365831581782908399175066109692006749838201102223926730596038358536347439707737154622347377491717868419197238872838355765189493827262594988697474454612428591243725183766787811075710951476355795411445742464812604375921432331373461337508546513497813618951016004060632775102645439418071572737874867299957186907280256468164445924428332774817950967728813990360050681267314982279111215842993966246008692947652396777974371192616955837047040912080204938358311273161946977409710248720666021111547450325377807780323278326740889330791206717570945141001568546441513180922454510976727340631268331878140625260122320778348087433067687131701829615761914236625359325569931272282797922585019816010003410224777543748085110404155926064244333185760739717876842017917867251329322094499374560241317006416705979904903559468737194327538958304609310249677667252470308887542950724688605727776836741237426208139259215556509723129738910090967553106818475398663383596869975029596862196202356089666945309367132561249109053867686957712046239033021894761006422422253003318106118707976563650028761574435778413360655294852091972168474118603529670146323266087496984162927387851446529005293025330452680783656527484491544742039705243749189266019954663552486579721258438720438561611420051694737529660886961993278808665705562406346867133243556477450501783108487010857039274267712939866513044150497079255637505467893765087787064815758882399337858426560396291401499314292705136533547748073800313489272396179792249631273611868376757484163381506233575118556941982760412634033966695092424378931801564124686609660022531769191344810043337591561308854935973358230558665594808757083491128104354296475622999348627427666579281616841077307342341004446300077597812616061143180042531649510136767335000005811832361433992425661779196225883256665922338342678706237443667882764998601926892894047474839695581009880563691180437325741709707206856724705468754062261158197085788986749266566167537288635847622418711933366079882815770978875125104929240086832265952352781063974269792106660869279005733544228348041788756352053402661561723604833917189379827641602767859623039920547620587544211456973780137838462968649764585883634057496503876921093674862029111488002593703045129823293415699677214756500006711741901295544459581077952497775625327218821740310299434913212465384608839519461056029815653388147996964438439080267338471075867163083970256750882353093443147766131014826334030814687873620592810671791171841957177827100846975774491006184150116751540166433642505954397463857308472587194757945316056053735831694389120357660350956271709013563109803090818496472873377854079432621052685115958845484429010989629379991979854535284543364774958823179821521899798462561139953289434786363456186192694104762707419451848941879644945353468574147871185502555820772412502262577773740408167185101773886415994194414870028479278788068016523166337557993802340897567691444275601719701372558229090903573330043265962254086480689224561432231828118082270693889981780838427894885330231510023353339485621144483369697414442634655063014818725820774154701957931329023619207182597898720841384196261390112259538047790665299906353136932351424003551693238868825696926975999180743712493504648228608215031514752004517154831177128694186696317439294182007202044380251414701153107539895659646228947076325375830133538238809936836135130283680143162911546449077634153552542582906314771755640562243531257294521401059803569836139297788741691097459960313520989011519681938717610861789700454154243921369518019644477268421680940158341598415775442089648773916110955341903529429253219161097039494980912027036227561186603879921388127897462952315610106308619878825108621436709565022293432047856062191790861182822828228081716708772755686996314584100220448189275367757112997711737128814372858287997276521093025799895609156560687246643126296968818069853512219140518702043655228885860272495205303527745122363736652056566493102844511902390118491464753164277569539999853826230921422611976849436021494121100966536036475730005577420699937862970681267582788437252464858022810756614897977946788440115183798805004999088916472614485962523986182645555173023656695014008599246328867253818398207129540238951236354718110825973818048647992280458244041341837352912021518536744855263737524927962424342331723671909185308308464470795612881718049882465602508717503515842042318348662578088675412836282249857296784947307270366405729151609356589334976806819175176890757412845932790196354329452842335740435427857406237040707563418915770304652778588842334823705079460758425496287578862521850714593813438991298486707735200866951172069084022416801073559942192450277469354107346345522991718564459515332622774441835976610787618996266370749198257544056930898619986700377164323958018957399675405121767725297766760015901749255854512464344502074974323769749228369086707003203527150434348274308235784864971103944930493404079632260211640021367522991630504078970903779249533799770966456164589734798804092792108517158210331132367164647712526469011399976226187132075136245073102632101373847598225212904144397204269431150573589134014174250518467581633804354256503999800690920108425942248623431466859606269353076662076918796274607673665233745920745173005593821271401045485583462472180557828634049444966505815096461429988936711160478995931798276838946398398771153850098388593842084828504657302418138361681937509144696820971408455754685049682008909668360556012180695395778239638884409729738044162289410640808617741515454590965641828077224870824801097458375164161369248111571639775928326584240662561542739402778023781480599988186997844732861671034280205909239321815643409210292247945056955520577405060958131052108611700362819793177959333219080585463053402027324715126195900960009242343867529602168359775151154707874940798577322713254652965851831190603278463297847464772029604566258696321073282490592161981704467295832916280115844991311534581098749456022408779098534986304800312613901347137270535554713788087444167745008152944481500308087289888437550777887217735068897392484466058250954738771196161600653421856229026970266660731680795421826442917441908924722923795588690523319638417480841820841180232968386592916705114558019464495512334238799484222387899437812313828918615439305977558927803023713202894046380654165222742313245689121082314291322431112128955692553800969305816217586175489197501206136874457633722653708059823758531474916908653806159855859618408400814233016805638457303226034437031563708106900654341238043662362190370940264909521325094361261964973603446602184360935458035459777920137229539916037935416863217755177011370542425243067581590170457598152391489918557220868594291854136097636279507422380240035434826956111292361015135046363183797956203893091356010663499039745938194688112077903966791994362743783683412938832749330219685467717576321785878709506779132683863956467177292369519904884835441956400338314610021962138520401409193203837271301345299887431041891040526893976616988049292677447899217332997234109495090813340967591844101495716282007881553341776240296007826858894255980111712073470126869635061774628311958993191283556949071783429742774181478871762842782243852977611385595011065400888169097674155705796476052511921787058962189462206849529534801337273258014137800777338272984955604934076658206018457724344814155749449882585951484349372525961293774882511767108498077563950109626651023726894117726870969365072725961763562568663330242815270789575161220061307133376126872627027894940823107951733076926803069226211555912389908369509607789304173884052631137842741474286343450426914101686370684071523141950290498108112198219068542294141559658913104049406696946218837592553463738722983967829119178713405571950881939912167222116966822450139157931264563954154685911130527213150269074848700865227493959183534406615798447537820419008799992272247100966512328411381040106666449037239928532812605167954189877685370280826088330997277643902656776080820725909925177708496759990889712458218693671476399170209969534013949007887396572456428773177426646893960334989198168881799618818265731133629778442439654742079287253421690633642323268249436653439371056488923336118706295241677679558460136792849712874619537419207970017038113672789961423527242815601115508929924999166581370383068104593926798710900697171890914542403725107307403900025977427443052962728887734663076737537041907248940684072565133525948604872576128785834500989218296299584522028244637700066648458320614908126244759655193241471596419652363528351044080429611986243030684651048089521087239006429567710145588415344484547541038185763836408424406620427444952853774957689905183870561045700406707714217409254306964452880126648083577510395046243911179515456058377478598134707099952269140095495587222459639971762996492965695656769746880463334737897683744229870170730706791293238824386791238214727509967753485456663769829325055431928139201866807453733511144633129441629643491316117986578597071389192629416196680502802974853317438911305773981798313418839212479434862593004322890562487229304401820817845482508138331958543352549497106759515264637198359414444884727404441049861224417555356010775299631541170494496323584022100986047699897348183709595847054437988406393875977434368461599332035367760639795014164633538864440981235746622448770071530773695136692863895902524103861685927992476295816059453681352249367481524568165386836782559495972105441361042445987093223438801641427480727435144255864878097523743800931977559326178575940566310112511834924603011043295433998470216060851242866557458217084662452713602566656874189249422954973622979439616134243353677462175040100006181685859349472157544752744547473344235450002180531845458649900899569972418072425547358215631035735718349643552109900115271333054780263529347245620421653715326820202826634229490932253609725145713317721288322853702848389805940427546231162668915575951998166871540164019304645202567236653878881600238440070789782115593471076422245150212369123684253169240003212657824400367133300764502434018667464371083629980084081713744553569545074506565254228540398541712786780602870494942301719509318968731498392071048498010706090156565341338503570933098666088618806132893255634950281897979843818606735297286908293178943550923872411386799118672847314399006035751328589719023274327815374164589516142203884642807187376874654389061146025511035466311013547427412010582662997105767775821596550525415157459800903618607139509182846312593522667530351253984625675699064689469236412033154840685151351423598362460316693160823077352484108740257408075792930745616500316203037931115189864158189962454730955078196242623244985828175571101902204177566597126177569647014287188946939105152134769391716733411680055024617519183031432921108985456868838057375910765205460267006313412645208485631406153244642769145580399791613371280010871691663453982287651505650971078877697730293776801017684653718833838224256051227124079508069917044955747684408455118610493816276287417352699360983875637470365013450616148517935723529244576826155092103657813931857787955545650196774616441083683720918361068330821452015658008769320980956529224637661690954573240057977304629231110880833051666374347567968227623182366069464104821134910221218181765794622389358530323403367037236099960071656465117588335274013655283677885110502895201654442136263451845308376902067264469747465938317097395649797071711433156144232934291992792007820808543874671583099410009517876278861110518171870930688719974831284437010031577956215083419858490675746109141191053811594778567255202774337831525061955386931608280849520518836267255272847760082591991566136454259666159935986336282003467168472749747346746118506289559091868490278620125030079145751610174268869042983042575845851134912904223073839169561855572072068230709150421367457584607168439810573577822069415343998368145606239633603142976535043685888992531632259266215915617569948640279835486349459969738627129864766053286540003048457367686839311723856049907908045961758460767986138447780417759016091538198713474942238391419331674293985019262062135271248357960467590668496629279999461088028881420711605922750908271980565054133970401078780530239750817927207111787969386289193518562966787481751535289033074243917874574001954414971796414262649293962992098775296102416136087916139732332734911770209641891162475608668295363593721046348901273601507975702068560600601877398694023193500213271475667134783587199394730422601584596557655918288774697397133671657026333042166259432332384668224230935039176135940212162024296258191143985819236652807828646554677601979454835032299358675231596410866312564871183769765545848464036740718436530808054261324509680062462274233605318167695319311071011797447636044891603147477308147508077257055698312459814067460355954227066514708291751647334319883792548432176149388807135298384164451263880571727805507679344918037471083838302294172212908649020364658977306855327170606377992995822823491841417017216405377323131845770016192625168017541572113774618111736561153247583302655708041033004676282528474081018997613088752493368713040838244311266443224457816772382563048147323780539786516192557694031939556585081234741514357375448097628742825224213192941805772237461599787821866459136255485848975673835820811260504473978875967279601247692155566818504253145695634692310997559245304885829366402928007802307187041660864927006291175196261829531750255543041398327162642735346823971915499465833393102724416505989718647948516875407508472484803205821393570733578706481573251010719971277939258932093562884517917387603019049233547709713736820842857904901111766694077279784609064437461003999035656778958428918093414279280472037532110764366782735745534587696931987600674045474539012646399587340114213655621048934231393646867179569130549714811838684293937165682638507794292962195485333250286509502537628701951575454965635977681885453437051212728452121236716675075972212649324232846114951046491549376500665283196545070870137488706705587116323156190376398775151021409476303556501992866852673899729213187528310248763111683349697572815168583887466666368178345500922819789143213911228178486714299737270775396584009691505263799231307375729681532348461539160208848753876146758840216080628795142766740530164302429736724584150439281690924592281899873653412437809714889115789834673554808954116418793615092830664853581040624595599605755714274237849126969599675827183054450676077971470727303414672772633909184550709257859010025381844996473162894327455150414216283044911158313347955988890972350478553906792729932964889144176710394131139732386104275152398225937282439074476672188599033078566293056698135402690932352655435600308773085086078578204958525361792365098846350709260859349710160843957347124977013587994152455998521408434824843006055572216592255314570318548272186848106394572223656994502125969543023948478791522925507559609258260836631091237339532972224468696308363696581196973117581686905279569246123990102376177077959515094033413953278378592188480583334486978675815633334078465844534624623802262811626000953699676768454868463400915690201408591917741774656676896289829245008928739616990201112798474227239543689979496681356303957535610059832885316497337754795824598188660177115016494645313723523595393001420893902992646967636057631134271531680978575960756410127289875185278027181463523334271865508139020917601102424563814171757737114487697896174360187543183105493107739459477952236255692946325424529793150997461914791836024106180149179403986633212971916562982065347360806206707847472795117736608597520297099464950404720904957861669794522619728214639788062173672141507145578557549699495066350144019201438452177573392771500276332020279271804210370204913213762580745101211557162225603303044044841643191510277604161844579290481444071537457959661903270273574162871209162688802015818563877622382231611704654344098985479633845604393437400988429366404176232752216119722441592937254069472921126966787006153614815410793307023789455752600142302611962967657639385519867080327852901567818180662047056202852685667763774796300197436711519243522733893353253412521969236791226488729252038378804806470186519055072058570145333283818534477955315346063226126393633154385099033659637677790774614994505424387304499634028450017720137302380116316496087869273885839686565048958160230651042408780378628631607091145809136275075560733576441467974950585753916154826710393102101049457915236087173492174351200316799254064685874287152164566004987854164907794698359398842472872948386106623172274550223132970021090276856767110285611125147797805787031580448794534809438971838435651118214670010868531826881775681646261758276711927215550672528935940198636460756410646783751528522813647308726689028788046096732754530611632486815195409617505744601495044344461927979593000597788722797008677634876555013617584861322941960236069960430981805161646193809996529656022144807635400850329837359714488302706910527577683041556382070048678049214243647925605798880516904710465770584250452993883931820197250442074466072053630484314445695562192595684104850269946854106531832842602394757456746613197144690558764721680250305455872507740779151399039488723188724437321569301366861874871864180872972953948180261735850416693713972580881715005221990624917334684632445409523017214519198736785239682034296548673828979392561188363537793765621271130043430418534920437584596399314333172710072933433090704929028531079049422029061372751825092382051789427795586047573054645925849403444740844669674020551503067308849544694416601865595834229374269079371149843912169160702353027121623477172774268127586287616

def tbl4 : Nat := 6411436616043797110453874758015600708760745736900165938678358845823433755730345743969445002834782629582052839251008802775175127996682803248869547265280039909108992362880340813197894732538566016112422517167138178826120903708137981643533113704109783055550918638524452952919848290843012282217391594277486143639167881950763817387817092251722952595505501232612366683255393653526400508366267665618846617763587442605348066591286588353033057525497191588010218059716383116686567942170556408428750470641243074696745364045130223000531300959125164883113133724206100664461469128693413841514082570596556716873544400503326362937409903331723581454548321426647532866993175642089461711342924724942258917025506476191673457874619672432084710275569501574452295408927687630777620414489390216370117273240796774251239407830542865934679301842051055899576346171742423123107430870254284197430055838897374284941680716878576986780845319122436664859298448957927806775724065565014542195421005382572417575020294430837609441292212264072635517176783465508798560172076694475520849172468776980758324226379215546546981219652036799728631062127270542257262172986144925333443832904922211971572077045188071585548916098303607095402432534451694806886380887990810268355436919729699194071739508089145972016296294922899260396737461438259835021808038594711708146440495815742327295380942771996368720319921910072089307139703905388620047030756581613348405744850726714308493693873108722399752685540876527576696466984285104325622383729010025384378008811142317932411125459416246673576370086848404814553830483294391679591247764987721015892481330661851982536133217653235159416005658458812942021228850923208547147937478268517844741392059146045279948899436804615465889043238223082643287417407826878965090263228071508324803308850596784342721329132413032367402385979668375100391151464451902367520677910204009477366385558841312775002113497747827044223771174826494030064990639323001039579759159066085369880336019645812748651300642904131433471969301572682331709218187188569216913687029706989441537960619482877326806798930425887640985248951906913187822555774636468479854461305865862496838126636157034381826018342406620921243559608138054583607779664860501014978329149716337385665249081641169349527333687761440087179327996324794422503584613342495454414682811291406855339561390901910960473940920176951025426384120113709872438182731973910387859803054904112943111720502388934532259104309482186818741460978391442138180116850588786272585546061477675497909909232248784447960676944651857754166846866726704499664825764962207244621081295515932728508716453268470890511319529988722511856585374087080892186008933620533118245913038478799952820916711195986093688635306582041409132842404076794431909457679635712816565460783008617897414395657908408523514124133065358482345482698269221525533796348842010021767290393443259290563980602936358900135925381571704569314097067570918761007622118904622722613209542679656528445138560180628305743194470347629448345006979737757408947893723435450394691929076982268747172387851030441188930744577385087928653867495207700206447089772588352135457272424652993347026076287530258293971861748579179886974412823409578662705597496123060120820374187443980559209943947405884690686629182153813229247922674563939961117241915710503532754475292997298596041067554187789219906241406226886420991053848822570210565339591360419967413816296152942919850935809229589080415877198013712346016701949120888812782606906566806530944002308239708380951237186360530820509972952221045096993436706663465995515110414480777558961603797529347287308263201516558206800794641068512433865175797561652657836386292039623473646637833443838453495166437687241812878241550565992431553243580465227809699705866995774459307076353836736253400510466967285894589641584585758813283068652697013408414338390119286402915684012757631498837429439116013371987443327818836949346271406173525923597658994636922764017768360018593518737335107864174994204557448350355554098883292735835030559995025907821094215391544395152533234110518274132058479994948003904757854131960975404296815847944517595625926882959010562324113717222484392143633256614059016768894862967497295949567942534786664526800699032348191872957628740001699731258136872690109678902157404846047743043359140189315811617034430501152035787830997237962107332209505054705604810545544994225507188464079783246014017968582408538277012259390898751595422514741159148494679917018861037031872648917909876620071369477836269153949400903846840543124432587418423585889014666999739526756101585070606962217522562056301057728200085872101948643672026030075230780868441335648159650543997521339772049739351749928218642351747639095041018462200037424904187033228969023685734307339660492391940429437767363889791765975468355203655695269220939923525573982229732526498084960372468529179299226320687408814091175668476401555047062739314350036882133337228600590678358544185593302099305444108897343406747667896349497602633204495280562908745023476513110613973155392647786844759047030252678599527535553063515021046281679280710296330994359943574999043501062379361034858224149064479402939121921632588603634574390406143739554305350496188524979596649956664159995298569853735084136371642673316107595026871087800075619415286869553924584249976180754624088245298738891450314885577846112549300262824075817578821799291771560175628330301062341485795980800578948135484803814239395909690379387634238800483207916349304796249804131152935592085642313624986423818851713623647571812964589679087387709861510385423781567905576701476893714640321417233640949524278969024406805356408741408063107085910828090920224076498715004468880484820165402796370278477898593886035826858809144607242053317725489463773728338124125221228075126939066923563102912631754642205117067730251137626743447465196855687095890108918145900234237166801488922688153853528176052807119178061956687267812819843953125281270724082095750192472917642781822573649406073648066004677662581690162063223225349014717367413416148659370838678676152500415333650790383078842366905942790925212456879253637618753454074327151341802853729218886722213116014104717313681420561472011105202395183503538423071435300367288273031303859859021757215245341438490178382354245619661923849504544653297580063641601003816024818607585587335386458433114781820045731824100737504147092020516421961114698566141887232373358978726570235447708572890282021169685829696786122190386473347278179335475951602386764075424402977425587006249426605992215466584068365883164729360192411770031610825108674007244233036396827827166073008117805016986781498844031637851089030753306969784262822368488129329051442561779350561251612966845774113962346309087107197179951852090729357712375645616158853454167836761914289580157768647584972646087830435648510011607060767117925083645012970704934123327531756902344839093849505128133383367898101821390084134913212085614127879178631864718192083888751195015814657250830390885607107693895475089028621372033183084344668839808692864523541229161029194121790065860676752985442055956850466597596413609146685865952891415119241367098752230263754402192946793231818014745168575318688442324715382011749681113708206793734592017615224682037450888384534144880770960943911282378282868510484773280973793438888273270918104087566210298181831989426282440379888753164131296648293667505467004901233953065694238274907593736111087453012502452433049919019215765668179265454336275614231484543645876432607274480491207720991530876005020116492794109329407725856154634555527860602647997867336594967376872343348343627117079080766278839987222731429575723469647120147547383757363405239270172565454143155967991742675678669063625025713811672524018105473321989588761667586258015274841704757755529635266501281581984551970632838243327302109027124617718617024473136687132380531374849095628571609515810022170725200031518702497483074126974310294506901163601718275690234744820273591937060761247214261354776036144421793597404255436527657996115207635273970546411939433663445558401504870777283539439675362166578445874046418826690945296143493590361561307782825036062240715228940634336139932928746477420516937811986350307933114112967364756313941208963984825338700239176736403712437653888373422735309505910501786804278035076540063200488658918751302537108200728963947838896979787733051062820011254763935351515340371303652119555387263985819247426586244853602864999108083671201339493903592392811105670725437466110137864510186760272285898639417585656730240021296943306674330562307181106202020593139356595243992952758727538264305773656032419213851930100702408530526773709111767971201278346304804815737952175327146836266230579180610514724139405745764674941256276991756367379354651612212291400360466325713625742941369960909370353606740009981912961177776726425954739584810657826155041448592031543915607021819261298476298870142650114781847659524142043223552056984100064076237910939769374283576729684538925138065293559519789583511684575597185714538923812036544894475526137616913577585769383268884599583749256158893317951716213050486104413023159847104949767021566874453952120721225411221199010446593429971500307732018346531698554253604283647423586161361981754079432129353615984088835163972862624715140900762799773699378654650779199555284984145006821127543168870862572742812087960901204760704538608994156984220969492696276584681877318364427237554132871031341316225068722395791874044072312452089637061597146035319992627650664569970947533250176218389560597366609371547417179505258155131542747007130634607626072172806421863430789114879375334452917941926270514350617226144534839273726924918102551100649824422893885219147555844035415111977543378546167846471893938759338856896576346707310512455410212144695943075678021907307970457821171920244692845805430090620781799653315507691567755327240936115963976264232989868653130370605838446001502337135402538796979604106658779826622144267390053680835552321481863166530369403295129387730959790536330632037713240053394230951358757947530597837116787358779986330226392370054262111696880864630099494690508641330908956895701831037076810592843239464365785466224259666164978441171768155417676761288363582361367561554809942251269261035934258844592982712576531831465859079132011670897069931520215330145128281200431419484050663091339543748587366156216559842670993012736790217945225833498754634716478008228002014617389320939317084601135336432922024947555623525775808048831855158634486809153496852662263167810630388887221470959258325915533993480210923786673317621548377915613096645022807692602708952511184177321398632935076980607591335268269499379228793494227436048484237437446132997787997325894004744581955828742941886051990760117123322861382926681565943314427459038752883834281002136904246544802826044633298663678199379220259021747854834872940274000358927089702191652052651924233669308831990634400678066562033600124692128855635659973653412879078364392376141824754251756935775694223816607443800161275016857712744983128833297397269253779376283692238874390371752496750823531334750664686079047450332784182468123511774342361778404986268140153041367793289829215436612819050054754317179829770495378906839906104286301457144389880085038482333810966161988320013624653434054913943913128879724284064145505788854067178167758581866134154930175105303248429037935510069055496641389801702571825627468815904815070056913225248317533344061326463704287882227319153804122518476655324179571500957684127895405863419640241979760658057405047731010633125021172965163139202584679196717633677589241827233722479643924335962614571321920985612790015810373845824581851636974760713248145109140182041041939605994268129561863581857758432828041188759706563627510069255513811147403882081146951136162068803869935983545129007759338666014984033102560591063438873838467019493303881115218230042109085321782528160393675656291026056433200026976200680649086560876102245625816503488188902309079221587079231030003997589275091735252790200795380201762283057659054185346641861402917434002478760474278499997845783455066794594693880875339307634238064619244509349636473358646095672598327517858393116243760118958182176217837520314095271130048460295125065708150706215879167809521160850707895045189786770491146812282130512308292468582182858476619929936912641968124682212960698027795505767009744338628478754089248085046512327992675133007927155623467583294403956681670941858114058268317250618451175750965969237562581971503275681294804015941326755685258044402740926403242285904432823889857381856362291530647989051027801357407803165751948319161733887157689973142292113455711595802771717067843050203655374570289993345962966113310936042248504498245730584770555134307028047056307046190477028328536967845618496832818967818390232749132196913342191398519869625102992582858157848284655912086432802515422373022465436010973571864176125845689510610731889742860199136107332516485868091015841415280602915142851268122004662294029432147337704205024838804525259576810230256803623332761468179638352941089816641541684509538300378057281814866388792462555837668333161113114844283832607027188342395437602711923587123921561042045606331776485648218506282575620903174877821906718687675044897771267283648598716913072643520335891757428261768544965568997741851408482541905690806013747299515224107919251438959604105630513765620055791062454248939051464307146683898662327398650494624537652471123926460420741152552192220712199323957722336852643012517625249855086179080671171608028121570835369172704448614093207373348427198259375014042825708128282735560708232388919497657427979851016444016004998795374801150340175901587210616267186762270166233100222516438512910150881773147489755789728239919670194391923064331971299476723987429387282725317436556012876614468954722529870055363904636885983026175027207915912912777297126251627034412187128148827975664658057921108788905007850938920499239853824425059164240646908640073558167889288554350644059587876809069423851443959094103580247767809551507411892346953785199086870998590009419157656314934528387928200698130542489498551416580492696103534740946641006702918960950925257799580829616754968509801067013155221593338966095552657693125401955839174971978662464847698074594772892290026077309843906316600990984659749873477287899140842723753231391764894610337467719396775372466681005312140817257098314804085370408363631917320763493586367179790283208562351090490431474502055694931955341641327231708821953874549075364824685446941757471575449575330227717590683728312894213754971583903521204917830480665326664141610403980809528351449868565747750921276517196023438166397109154817556527852485292575377252315825301927435677998259391957956732823177573055226650286680345251705788673933227708562765172807234170415536674703521189878489357451407032559740946822029633766613806325863869142209621220736870019740206251868965956807568217416970671629657600188239073077389353159206483919249989542996184304893346586927638324268390523070116406371936771351412015086744201496885192453346920635799221010945082199033326984309873263612266823301495191658006169260448700942320599479583024711014424511823473499024744854353653034061235720171676159276403939136251062820518912859584181749329618371704646955445158293566221925280722765720957985771726528771451897310678755001562776437802398433672804351460400732254668987539873273665187212732510537856667277051160929072662868185497927766242505116112669248760586971714132844736749025440532343683737712120919651647674912794552030768930590513779132399780786616092800629025055512190696839372287455729852698453701604466463368590742251084742420272945573640152677818019632283691426948853876458402132342773531968490153496842823677637967546303503700277376222577856152717765049313937129160066023567613033155185772498582190834105196544892088334477029014651955449938012195845423781367031082014121382793055871915905902529034719804214675653664024349787540859061208913908925941272765135893955728201692765067862524627967339728450908029651133690287818507883528970784158935808027191535453808472699928831575600114252185353070298514465923381419099307307961202625530646953193511025663969594341391942271497509406550809180989044730746688538075584409925028649287641851219083276554094586944298871602192596619640475438937476831530903800900388783962377415602382681474135944224515648490872214591399938464893749433058435098971908000889991377687380853787556171396972799463858454342870882767032572369135459416499897034649532476054934735214891768797279900389612208495152431141285647109549723266585085462137282242795288935120545043293526251818584210583371868087619406259519669572251220025797086252988518450560259806714921702724530922744655001426970845955376069015110297454125709487217979000493269218861205941899469145328995908112025567512188245048925588270093316780985178772225668388197905745083865401485386395681032777566290060063069271040188199818061898846112871967180781465787452146042320797578784529102954380252866080508869647817333356052686589134661839672978766643510353473130580536195064860773538367188698385794990524880769690706619856756098546271390846522892842949091950842317908762866967693587977881083198882927007770302490637592630869716835798555604687275281040236120221720649175758687209473602544880598644515959700204190007128780174197032511318836498958244712355277814230480708395732054213595500269327524973445496939726420472141237962167346743323273503639196847634878619506152468713583933809545687765553500700541674158947685158070614969528039059488704395658666436512908545126459673784076966371734427895824212595247852682204096637148138874493841334516492692217094275394044438413361751673435255543781227360106690560904230900897463525764843083715898101653472651099007949059418184100804155103848567232631402777504422642544380062705010350743907008334798969113364995716614945384013288216994704620011919018989651159008699887197233798610754266028918716681108633610587652398380338192695248754225214897997572240650781341723922173903443693213281676505055746702998799430128509015538056627268486757736303390490399994833429416438703214362718921615855959550936746036849981524370209545099451037367081900294795380866898987409273911468670765448105808174804892695655407355456900738483678310229415244191913386429432460789152254886488300244840541571275737258380970706264371583166063624190327711223324674677340507816430459080524224696017597307911323779595903503271295772312553055991520896418115399937163354563249399415388835203705673662290538759898749485209490314621986751678752802907757785859959008379003815038977058688868529519889639534773273605178635058844308669439826331807451352500955796116343610542942440702663729016713583388372623584396772319065910992143742436542512491554251127866250163202828975460667688272758035315233298866317308656803446006062636415622051828903093729865204151288237644677298574838242454822623240620192836558134825953780687933754089734418352819201211598608435004873299196664132640855439846625872934400390791162147166232487813897991792878096462663993076141368259858672484888630458010836115604290375425491542742054098737328510494569072222484896183749657125148427477582610894126957923450003989164186657419411111375424314812153672308482242526802027653583231082000920957394979906393333939014935407990879069028086472893278784015655454284525732010294778953802683989778827711464000261150043726601792236165121162162190975750501182867689108869708783817363893727273815125550253618810232853512094844925247123166626274010240816550788798429816712188138735333444634600271199841426208280012276238946108594576005230386419258451520552668781958272729275529343130941990004801675583167598158845332642985735428746881202025066353361926929801502654031332239102921265320670054791594674537006332793284809252825196409114072188024935413257435023371613194487377936637651995823894265754336924856044966842600311284219269818204415204528272730985936216273599512171802223115423174553992607797422232461349725150449006632350005645083680775201919286692041625115757408121360712383302028018541006573047079585223593917750647373160112268283858363836380642015092469304954978546582728763359310555286671706587588211179541311530522202200287369082322969187510508045029658540272135229636332758495848280652557902390567101899443851720984447645203156840259450211422868409798647075993621128273433007159884913953224435729558109297438024964864934060216175024039371941669020224632322582370377550192084265898248195835383550307754490939611059621570021762667400680637023172337733108640125655073866192840927224781890666405628645207757054035699739148461308921124794743997982203507177300217645519295121671802774041069934104009308102837082347578781434516589758774380271419920297547615980257197564646565188490292631937072781928721820446204967828239895995376913176842395135972959564659700184546820871399843886260412683414881291324396703881391390272195943766118227005911002415824776510126692533512427242662207498285529934389689845770274371745259564842458461821295645032563684150710179834825846439716955248145404212624080126809466542161264463794087731385271562657509771900155325399671258768416033876004512205677019341170777318219114643803082189846861103002137776312821052419798191243288012549782252033957004106785341743034502587596938806362457811747418364971504926063554821870152828760901044482272585217143847345225038307430106004831148083326316514345934639649106195279096558540980596504734016860750341169146427956472007444914479121755925746399528514417882113798783184273639392537719931118577922763592878905613717833613344096028959227940766357121613373538217726610980138322985324631848163672462995121971240259691558330707413328200271461661109651807986347885805857787503083504888641534061237950205391414287873387108492814508833865457845328723982837597096574504963125605215518670315098319735281011223038873094443879818219814608717734899434326872186491046986191343699464536286622126995241448940314899051827004274258320879034507358825976537759892203167444567674983687512717131595427325685884755772196859336009016781478264106430428367868417347874147308409227869774476511312999692153687617280836777640921426638168563340747778223705071107292004646267606722272128931825080635630209118889016984559360426318345552225601557803503295647408929206505393298928984697249401665025859254244388212195415210352105228163679638786473687072948145221399148189312191606776740472925847134703593479752176766821429326474805970872261508399104743195894275132692214381805357601305224290072502058569844656768402404633914697094490385085496180460248719525323497865428143222848481315007126642725684950321405293054876409329433970427370915324045637943140647514169506277817853626418543583019158696733814786014721515250492613233490174116264728952267556917117979506133931140445729264880684397813742155370673680782479494780318530303278874702115741492907300984095524204992090797159159592562358042926916788979384505092205322528117281916768861335669884993467323677669178380509495134038747874396042162140995404466430845954462131977416004041742516211975209759547060738246773970577275639717778415386170726856833056518105252556474263691387522762747642212783136891234333027926064507301481916420954064996960319522216283251309864487348581202850760406544627720359186882456457266380390560329466867669985272973006883953118256468599518562745235572402407668850884008585453540965250701065550528233180880745660907347417152733610217113857437662840884413853029138699956236860187450970046495206732645251989966499937521556678444379261819092548031182338070394451085442886530944710448184496796250955840694850823301273849282089516546545496214924310187163468336225498798517404876425351119772128303763449761157301826687517517152568963590595416367884700380525898316000108036862020616717192573710638378503316790863986374056369379493494432389936838197845234065968394023663955335605407164434794848707895188870559746266265585248424631936498821323032051832438165164285808131039918431272598436492982238900058331846325489821156080453284357323567904481342861057918774024191358059314901723468340898283728960302406564185758016388744939001765120293596805621496721376683293926479089574833020801054891944717739227142410728782613849976804931750674272349939078937358216428513137560600997572040049460911005474043478533896147171889557258036151074705336801052721312970860263655349492913567338658762309308263043400168819536526961724343187894199069830384756722759021148885429639761834024597267785420994460375029627293374052439440881920693273376014582413989785366091952307042814298474286132798401849345479254489889817497194378312323625987675482030671363014709872486455256103159451744277127949021603495217176550883811280066786382586502704900565752020169107426500863085751695997282556747860076011422235164603358443011321513027027749161169526954756782739447608315754270348998964070395492949295714228840465550737568634825451784268773056722366889811124067511893922684605293303213318356513838361150768988745069504969226960515405754104620672093150380587364189893918817404295563181153234687722900916543987528646235191514191332902856633205950565388162439365721886787636030333890113150091054807189724770276550318508993735202263460894255165995759993463214930638192942918729780782048471877730191060765693178703317860452363545724073868733469573085368993018282505706407856269292895505140221179534622825014241426837228276516081737680641363929271039244986305120933829498637572294638586042682386549084621594249189520733678070068985823957888542584881388430891418245805862110916711536435314603939460373079728044348901949376369145461078391181388868143821825035204985456296420945620876014127176988313542527038441760666487484357926540663887550819217048655180585852292695098968402390019041615257244635074234000077557507238446578890720002705606579662944838953795458531124764576200212652030321976671024049485183551653444188004360929463797568740311318394849794033127823626721156020731411842605831847983960572934482032588021812356618351193876763069102736929935885115071601775631236397832594017779972493017086824926354462245581344564719274481194344537602219433744995732456849125402833640765858388424550646248826655236784752099936017889794263673878369668700291393084695241943709502200397787884931328625486543558956404573193491414328145695401903789232210118852614009040180577298643705108283011590586028536979360608313345420971895958904675518592783484109610790460396006965060876832193418300743356514481010358012820160171430227480370398135077984642566970805199510468928882915333106243320515736568055746592542390643967428550913462951727151085826142511190426669763767691503547120117390956198724045383046493835513062510226194947519142046331612560569641954514141130300047380291421472608796920559874678892254817425564481147222480053251867105914847770954099408951282215995598799626189511347645921633843740508040293687248980485864731839263829463461009973530878528785962318109201426281000100694871075561427526900674218400284384721407975770097594268547021518276061130525942759479613289023296738449689951545911116114761920582483054691638719354719315166163580279337512396197192825245175722819064917089930264203822532328070899374612689841326848391553215513492581858217029333954323218090049182901321733450403790394426311144703267444245739134224627965606684048992122110922749977264321159819151215087719383757423840191866643963623227067630572051756368458300384996896357879120929786837807744201143514141621803402415655123441017112810729359477581255100931689161283248895421798825974040423991346746818185670079812311310092582456433228345848284585618070486045848457072352690710338660603542907830131014559064292577564609865685436654987374940181533568239394752533264819888277780560993499276769490917436463950133801100427127463496696786857673284409130360514144210832740693820227202751863122937122260791349230954886040176180256934328284367219217491830904625248058275430608084314012556081337153369339820867068485020951538028972557454242516491453986383405375480003949307683996026484412701935408788712302663683902290756580066050882658764671061485973286234522528367968193232366902360847377957044373790015427723628503683429305402132156677866151186891020121663571458299996906864247072358837502566855609546176451180343171774956536221789935712911971362231237578627007939001877922359595193192842106381730414102921078596074462363103930616119698151639284035545849423982215603837458502738365081544130764417996123180211491617000076984677807318980416117830426244359109568697695658254921633640663322352993148608205768583605552131135257744299044233849235539253155721828217369723701835239551083862926628361773088301806424833997101063262748125408740155691311840532261910416683837916109279377365478095566854285009476797684442695401696038906151548632644029933626834360800529053800158814175360300801034294947388094301692607830298606089761260659697225836093751402909453154034181130693353159026808549543580683074528522125186378392965399915012425320463383463675116877272139990686160242316256853580945508802397128952855435341884770706849692240927438834089134219834896704546905013758731366956030246851562559134684251264351100686274773347656126172342778075400524895284158269727876742025989607430932721907233249908497681312635297238837273778979807684277033763447668329101621498136195341163605134718329141274198991810622516726533087825041122820405192616673778171015193474717642572135755999039734757180746322332506594006161321912490517301132101411553769716698837001922981751058646945747326054189627565066435917812173626647068057098295216147119378083476358894284439035677177269802142294818168863584407652280892809998438151065748078650838772768085351139038254912462737067077985961966525671249396864893469245765940146277762057359854869856319055510832257047635895579134907942312041900869028686150351857506980342804094131155809110193067877650106949183985456796832878861504735123561675903273812229227115863189145685801297108198491087134011218183948096585230965666214203586609450691447295772761501503974185025944018242146468603989646791744107770474371701636580824399718545568914729442051262841378069631210658990671783816754120699388695286083494628918430437269816334578305035179808876826443699111637260313217296478475755043739266029631089754276002653539090650470259580081023134712024014470328070489395579680702848429248820592735769931624732886201147282706869465835064425395701394929451294638947201490118260808968412274134934057373245067704940605484994365846784756035821886296347941982547182136191320435855029568138713891321386315743983727952659531125769327063876138838570544041869280772051125283356104974535688876818213300552068901067359985791369236365318006648747620709433722329777868648611389954215115324863478531812751652318919104804362219683330347096479258992437245296921572987221528581836915694961307653816081758658371207545873763089685226828179193043657613318616991460358840299774409490606924954813323942049529512970378609257070671553391712688653861150149239945284233971747700945609953618060441853579195665787514715947159726518845275337367428583218384970681717929154018296490996271402643073433873449155773198216072005414672129645970072619276195227924144957951436507229746949383442345398623148131315180932177847510553681754051236017563383660273307614984019700291797053148690250799557085451641458030782377771101051646279331752290807229869856417918332533581240025881123297785533979178962190291781552222354654984612726803627766343172520580614685009973313905531895557840147361916000990834077130080951923870294090391850611538997603253167322340797074048883163497815967083266191811850122167259395636330050026924212876207992578100718324491732961561982236108118434427913177307769049059292549013269078180993092877440965995709142449255261614298514417438106006024015032330484909924072402790317027142375806877072067383400083037108899585601706355155556207171290627450571311731526164526348399867695090874753600227747772951294058905996382742484749795108425976437611693204256069155371964975049891876007196081387281517854233741784383594685673140159608557002950383988349995735042641841642553374952275911025576685863302619280783281472247010050169356179766909989020481355207648305236726638546810781507479801269766322415539346164868846463419149657698219742819803100300410202859056531389135992946483313081192090766734826673499265812110366293822586774841421879364274810203166352663550612940525237788727030251466598354106910655853982160747346139557387464183336786023045610623387714207055192728589514959470045088393683535380481282277325976682552243451247091543002544299219703294870187057099062607520196482819543203208827681624801458609627365075024586701330705321300689315243116424618518100383973709887364257240338295832463602403593558426721446355852273386786396216727316070147127760984057663662668952738847267433382479883987225107056149689716290740117651074893719381242904345489296891761750484082628255335138651217634068414044783349711860205585452071620823429690668689891422447097006193646296865645819329962269462119873210963263007892171505197940388528139657963651360312693466149093624270475890845088135991922766138545348116136468582596448670410839235271450222862665217366821383268128575045630085403435930928505700561418168863874145395386007831722303112582049132800626699223835106121034607023625092871702457227457742109616631976900960038829502889267307040756525399319317725932827269307875904788200491790538867865346915419550832882706366378659970001088862999081735608084345031091932503644374502505806764421421303690030336794692847424030107382579379160727968624454267497498944262067638717944022777724523166433230214569722990081023648481615408958894343214386402384678312014462847065574902990766313347669101275526467868273513844914869220575082782313183675204979082020477466735747775092009068813706232736118208002512679467240203008858654613044388294070375243551091494149155096190599707832913490447652069268064590371914469635988141041951512881565412777595528434206775112360390297758192607794460294007843642307176449323165043539551219153851256479748382831588161317924309207652226183134763149217072353111783193493023965707209530689722190729597217652343081850141485412821530270579179933706661052453233607026610605724589940197807359416902653777705665264409077829792689938326218727517049637891520204798211178550210760278573628164127841148142963689247359708201794703871283943447232510227105196130967525370851216586444446636031627844096596512471097437283914546441529587536554974646505621119920016367189033647297870417014064012192269623826597164835017642492478327612064129109851659555952127158223385565966904324257550107596425004352708082810546582434882461777324174690158471256312014493415505859172095815561302584817449277161935410069834320802887356492642272962356238564742697393589423450175283782912507875212575285177978929429720467228309084422668516992900143303136979867046128815652868299639322173832680205817756584404712178606813607801784530126701142926185353720390357002334014672458034215285249606632075758172734542832803526626340793843612579214962981213302339975910573067206537001742150675496645653656380987553877123242580708766146734982387236338330867341737642499036571062757134494590691697438404242418403441875547995322599704203016578832552254803779649619728423494166229176285116661441854236722018290635670390033573508163694607000489130911995627969408790605323328049238557635524872285003574044010076655305591227780894092276609967053957717292089827213462070804427271974583770771794096187363108462271568961957003218495259981816780981925731627665080983656092348762389794470249191379821710347185075235889916329155074181049655504829458485745291443967137650551209144579767198633739265079714972437112784585264407696866670652132001982438603972170488580848080054887806092922759152397913034121528476483471611158539040867511944791343006521717548704781286080170259437081626346800592501149945033253836514390055551516725952642064038976765300249175117620737939504236883322783293362791518569481556216548682223425896869853980659981670637233262868784346503908866655589330581742975498882792035655248398393259114422542314128281997109622663102358689408658702266005049889068194165858545347866380722073787960728917645904234511052003252970624201463409581236271222286601744989582630767335303724931068716967661927655211766666574644506345874722066557562879611615736266614586491913682896583717190868406831158021260502182878208986922421885634904619751917355330912041754197733175389720894753904733019230583098773294994566261342880029533583896723088423971350811444139553609411838053337821195113768981517152296401573130352647292660683842605132147907696200085165929424715344923212309368297328711294321251330885509426780127067816175119197796809824974112911429685770466942935481219383336850979090473113535337078006050985585182839430966843430477568457980593010915818743830748285941050418085553747094939760693073461817919846374130998016529919306466626408752178930613516104148807557241389099954854297689179657788254474793811382995266419094339991487171671966547617005810302241122663484323467390623107857596092376053026668892725714441147577421521065735978050071832187298839185953487340607877332235105876748213968811690248670191820196236807010218068886740040126112735698011582072570307275280447988453420999565611069859450493367384159445650495516874492233082809831634677114339192713306654879890247133940227054720603468738131694540033563468033992212522060196787939507287583235169114232634096667105042660678460729661884777830033102909304063129374655918387538827500839566552639167294006820342016428875230289990517324965447796143963969406406453432307314659206712658375025748028539523333948220717114492130791540120352076004617939081491033028986171109003661668593837801565226320213344241206871217771411832630030910864391673181719935571403315045861514708176826514541651354336836760128212145909552580887137584460476253613425509335737085490529820736861766670059927682626328426404360217128826316114492742290772696438301324000218340145934039447168090446294723382662324590295607378132323301197732762996188250152316981331127154190220056748974145956294819175882705541209226794649272217655128961128731796038226698271458935505928715750839113626967024978575179490141613591762549279665709922660502884069802096430101120336773775497753687959685497690455319117866841000575465125790109989103344712889746364333306998930450055582604692141247705348381804793354489440203947521918543914423260888329106565707022800767843886568376739834734126429449429962473060836601876265683543322046507942790473049779222571682051200158961138359922562584841243425151489391097586154631058364556654647848821503574495464408981121744107999983091756887461222885924127082952154686288784651428980287165832632244897183265642983203920021612244855087817342451869329539755312607827069104910379954452083766869091516397768317726913923539488449701283071232347267120467128441306955236575304601682483070903736751796697820643109815492259093815247075593026348884684194554758791072642599149864486060264403550037722931814596051104149527671664593570553293584269558561565942303749612038542158069128762648688514655669304392021777215371816028342596682935404333288750479377252797629823956673883235482222863212229325845063938725291591533176152724505190903472013444823294762609692786298008887510604834883038152403928040834318508176477391521153632987365075800138382746512512472866739739474169117582363215158218840579904920015500274064745892905741383968395177564487740813213706656921275471270118502315489362204113538773302078028997570542441617940851451318575223621065398097027612471783632913234533973233356256361275859404634004680311502260835867012709584420754978143510631961321882878049195514055599662349747623138593034776181763202316032722163949949896676451406665895779495050559980959956335127728808178762164872333628313355166958601451268086672795540822936570482416376630752785374880411904680714064117416280767783081253368814299560052250825351811186922062875615042277578458987896539382877615288003934526817033938691993683874818760071283746347052507145106586975247652723471916583702447374112719035131781854935284015162423733453169133420592493263232974892600298319601855364946085363034214935720570880965486121674131611425024685540232639247441425826980326960612860833386844532690704307317411186851382743547722265940097458230044729043981604304540001589467202909162918822234539644219547132244216062796120119839778892095498734688517069620421160141349527039286504477491217215580306863695204625967698621738808647866033215133544941500604895952098498918617830079462637500843454276298104169336130086598487613368731285866725429895810515770262793319014293756389379189351301010446262796354269161532684759770510766042261931902214796713278875505711256593822430250421039946652059269337995950248375738126634754767128259528777500142719418980474185148007939365535144964924556488602786404151139939521590666297967728558615958728579410556355228913842756910513196540513621857111883827341239577312698314961972485340507233418076423250990223211362787144998720286234650741443243122631581619174229875460477941184146331279265472178165644334870659121064962939543216823462016493184128698390355061739658868471216449971918415767251816773935939813520116076382483866451339371979702481685679961119814907908156487502919696911728049259563624601384492343595963422365357239519927565449560213491365226000471218028821597872382484914059295669850384402857394403150531969058128962600954651192689938964792468754629607680607449943826451300457953695471875301162143149079869305707039436886086861073208519934345082139477905193408893326333322097080403809252683888546737036096719161747942428377313561431402473686135150227925820635422346088845755965630110020263114684307588782808232218227875011506409785755288059527780209657175878154926259156811497216286772038607548970313432408147860796920024768415078256205863659831930771335133195538261839660015601017400113072580505050161398736718384916245633131251666959153717196753210835442995598732844789318805902018121011428605352912505228585181099647418323798698545170504688661174914977685423985322568498046069459139247618688679893995490985550219385142125033806762438657060905511935863501102084935502734714122111776837071713213159374476014981104849793667876620073469030225526308942265664591244095390284826799609084217039827820323698807588696605687832273935431771897293390906160481735989310846655811253392739584959886952913258549135854634507097257702988058123690755058268351391017793366235702813992894038056835116348332717940326920655295918286152449426809687936045762661787252685570489524377251207442336650323748696296792232394279444188287131786348321534567750237567224998912967044057169557517272821460011895748873618906854140971190283841601796600865789120996849347288898487375172428105985400172146105470676783595153555818651519738711998976408169777107194636797173297525674066860976609030940246183074969363967117654551567875500406983067125906582796140860202682850108435924597996190384591854070770597199197378091226207166183724744659055656279619096944891625151481828618864407296083061010288971855525991653937026215652938666558750655060148555614841231671960799927179862382218329253896670831581135730716469931263264755356846461915910995604289752131136396094396870153208232899918695543451319060343256498965761951645588663641265097462662491652599959996062939688058672297171970078213252958370694160036401518039640474614086202366738359174709660130411529710895686970979766707999665854723129190468381394811249824686600059442053037656561718859262103568542480580851088477601854189727705031932272023387212391704837806139246123846892680055368187932457039425862032893381205877481989259380683391917112010618470116955502564912093916865565063128478254626707322751714003292537377318451944440458393311037962942399918785105888325184148804379761412375962999263686806100348017399203490685483302628714737261529357895037728024466061841562949586120966380541107048300034793581757976832534679904224746559610146002563483482734103605707183792532218660632948096393386458118300367410722435826697491299119918032449396346290803423770874750327580770955323776581053141472393441842271051410352370922855568783670471506257588722244485052829546337158189903141920437970148699078079424353930172689709287193591787170325074929432315882126094561829370685036637750978825807479670396515888139497098186623235306508206052413493463737445252381940581315202090734084327889359135410932063460750766520841957456437111464777682925140117385166541186662400

def tbl5 : Nat := 2072142750554407826252222020031254049604668660404114253006683866279927178301801634437186125064760823649212035820280381915975483228439191005141071179819350486248485955142281356446011918810723906610840115083838807899137905551661618717118393133507042245996526466855136141576013441422929815226321650426970472320553272225111740078820211408235199188734852972620606524671030805606505429812015694815903250556060756787693131557775835025194581200024961522592068875004237200691092768799878053071956466346173315627333516232900546664856363266601676181813630478025894591256575709779387875158471746825470148224907210748053307867071252725722961155697892608312979412877690254858688557872442632163166586503205925389003347503224408787250869799545672676180018832638876133692158159557507798431442049247981818990112832833660773802206686412550751200717520308962591786166319683502985082727754379663401513661104094713205610121843688981279668846422820984808600743806187991907212665121482729403525300060977211513177218487286348465017286124140344268595652230700326105185320032472644975846751564531542820328294038161590018232659494330106749529378742974398610791335862347947646395446705788739994629425134466229190218806795139617079283451273884012223339451142660925348955316245272259922608262139680833886072725762427223102817826092890015267672135637070506801051170889193139224082880017715109250773544679608662360565359310182520087408853604830958946471199744347027011147413726641629488237376349131077428020127932133840608902594655904174826384613387769747458224477013265138260629439745304421186802640991814665904618097688000212132794353429979279221305371523653495386315236586391761825845692703613596142452000874007920236585079273037867011608363661896894407931672528256330121141023088796894681171359270298332036550376226582444219857379602689040966990917779150548432997121304019289665226767930248925376543656759559311905439998837832109264692925088464921664582054803042720125648152879091361700771717498645889764356309560430831977121306707946217528679085771557370567736071922182498780371242714458772189796363016900353454350948168794045575617502652246984359651964108341402535979768637265739855114323614362830982797399595127366632072981879944686248356324293349403643552155556958627499913262071744398875645380954355852822908881486433003365798416102775771886023708773054994986333957055112394752543361355749744292656284034391631148271316773168150056513058488396373876487950075407956473519479263926469127888272262057749826540515581929262479411188235629825171109276649087771850387616118856976513107788637989780965950928772712891262816321066489060227121824917608404771862387399855630702054303608926285357322559290508684226086739096549028871621779571086884354589722583481984594804089661175954037498978703933247006175831180508620285139448712578700035408706518250709835751332958275258238319113303137216541652206075592524573619358672957229153773723245355339391176716310030043925361023812190280865079731272768318722007208927335202622071089110255116538575292443718001783098201241648970320414599097467144117751654414362160677693464075142296514403000379430980641496407194583812054822695698239135236518480703190711306918687943096400086798036287221275041157611303829578693111716152113333627202637432145216142857184249961023653969375325291089010915494760483714407648307596613743654513202603885943879825474120553269286771104671498800482246797569056996572649144447360684669930994671180631039126631879601048807236370916219354099146116404082307541820018465719786410754689356775872184614299018913199619002976481381739631894436503121859086847223318340852606443163561048655160339287405704646125323435818497246842132654403424252160902774480584507000980159130522944775866655092180416327634175038788233818437871814815196646961100876242926772789076388933464870568950919747875249517833286798236080977958837177962127896864025993516996812709729522261240638544071264461443849820108943141714086317176438874173799968567170268617270048673347204767632390892455419245220997308882887143779683871052125516586501160310057321096479900548445520662766073048237696854012810296209109827078277742988886764570213480923323088314109464999653950333401016457671555634860591815505220075343380813955983808020324782028199257764807709659531573565390645903705104095810811890861438532259441843927892183512482997037613227695075497051056736537552291980449242842162876108544020154460226032781388242895834486691341842695828351782462915450328996520038055578323331807680714250649010476760319935746984321909864472706693018614027392991993899113142037302180777393682743430285565417612559192129318491596830202575302738496804750611856109862137543992666738680516034743917282079044885810584010060451409673829608849907306592619610050580897840046014459083872289585875431258603361165978129901860478710039697512643139924211406813912509028039599738860766273275983932291920289959467226901497275775928798181852415342370980225402338901751688351655169706170604323927618454047351568279791557790684079449455916186265543967065032782013260099686137123674014339118483456009339940805569260316824966950101842669479427683524008808846185170009084207364992493670455660307369147950137876997420714933113942802378391186110406562363364615274746396949194630196239742840042551503968487928911361405622611487557775214120589775648634711098816859197466693083389195087258760113780315166008075594339134209282156317080164932139512211290140390691363425431773860614915749746804761331494068466074361351292445812041689921702214459080907906678357957214373873860079983817970775988804000823770810590317705914113189573575535352418026739753110506579995938393929703526920330961869173353149899361140964990407239781295001931461657660331135457783870759751154888574863331128079180661380764974687921527685527271908537751840089552699832392160214579398642160475670510703728195305926901556205479433606263593459373899120788985988070275224899822039775823159184421893222466638781314661471407413920758655068376506706329050250942530594654467580637230068720766906463041658266609256064766424030255540335301820356051345297186851519030146995921629128955823755538200985164434026091928239487553731266501719927103861271016495708748111782220014073935557432974622750456759888519052873725184123606343488577670420681678623677598790419473161554998193069866383037739661449312166513597549087612020030620753458088850461721292482035017074691972666023674716408536460865150513476880509325129355223378774229071184822857933434242038841496507343397849356479471507834755798204237244120656276405937659218052964073981766891681722562122859151789280282908477940153038002674311906135633315268629142219989660415227877646587403266999844818751255625413683196160759438500796700636940895935761390289920221595230523740407579610471780798307883339851636533204413126312080020947592256839651753930507891457638114860787218348714390805558588864022370789322078016540079783784078414298743531475106411950620630495056828326257217871969073699790403316570261025046429407711829337947425587856639534680007196403174087846891947677665962225522788785001977766337344664862712860196349257668596093932741395391529377130639850181076285157717484234773543801914854298465755397539291067030218231015645297803575879656160034958452387012805893799136993956706791069049479356233377331418389584122615632923494310820442995940317382947904728797310611157546249969965862292037998225886568558631563161409539377055681777729294598956336752826627219276491982298017627191419019783077982547995680742027178174058710585663548998938189888070629544269841726535145438133554460912308468028364490553237464778445774750125419633743414173730150883014742241323768646589599141673951912260610856752291937643895109610914421069583069620602998338175755097342708456024908416738306166164148472955737350989255529920848043359531992559085276642439985170400567513553419431218971062720046836447653345789805624336027253575734454653452702666279739689106439223929926925811940120338825434730335202917538756701770848033588610577252326614603812722283180305459740273938254170255264934081589530103227030271883869314781243844118802936179787387936082956896842192894480916255925613407657645160610651213899600090004743621008870491555165267804437287791714537794158892506827381465107170623441197696877040199998834106620538818731607483794147369100824826177259970108554389960470208176681128917008965126266056980703722256625718182221961196843304951428176189059568319310384011754303976383837967632607103818589912262198498364816638616443611041142327046875209925915953269714133371136987439190159355725295894325002561529660898510569723687942773607040321355130403754861248705664693689445462206698229611934099286263327458338865800454234891763876084658580383395578632327039466011472054945701365608749252178186427522777059505281126683579878115531759883265894521124923958331963603670455990897693557296467109921748538137841268895638532330874040232690627225152743291516176471156052459844162382568187962505353519722669650991997446503244435925609390919155461632576781680509547862154285556884067668528842292827315182966280437176899884436808849658150267468930534588408607983046226148869331504955179716702631856676333106185483217937396621946257930953467019344400423266827356568489300809194374042868865413719310727429807793956989800315850312946741346804914165515228621689799832660744608033957296028273781615742974870956263799673702024687199937125821358441140660553005747407425942102128897519092404565278307416361418592865784745762000473632301767693214601865638020793630582055781345322748824828069719699223161477697330184063363922306981015515664304055918258777164860810614581339548558338382830085150133198416230996480176556052942005224359166436880233922853325279645685232929349532187309106610705935385656846783771341189169144551905847523893702435488779740980092168970603154920820941670078016865573817009024825532838189763819192862253606760940305924505697332021028178904285907479674276062331201855329536701329965901933604591604773833133034103983555914453535792079685346477150874993403990574323993870511254772707677266767605115749531824968934058147141555897307070334596507782284597882346716866316182907322044495761220474751543844066510454854709556681631189830512155216340218961643031639765106578569457838769510225374839975485995943042309668573596897106551139248958025635415417478769076761118960522040137672231375228172955677462998558825160774024309198586998475968392691892900184250043236868801351347270725922589924721630905551793125446315551510895423039923237199210601505718430565470453193575477081980231626192356691809912583494046869226092462385172096301025561650074367537788935488656407131039971536151509749045438011583214241017638733671802646793054059447230139544279127558290006370165373540213099013749350286100454312469888729766768808265181979777709711592602702827189242553052945739005330338017360815701783687136162224194258556471474847082897122303731203990608420453504734643939275765668657472459004764248794609460330370655967793256178790688368095131036974447266514979230885236303238010087293666892694734035605728892378621277278028632909014080908934513725208663106136478074248671234555176653219669348105119412319286017838305799554756300838895282059654637404174508505272614400937118120829696448741636871415369095219754257719186433913541341274189055691697220098673044776221355164552757544862805652808072500721505625672624893528925314799695645324949219084875372246598004204108537307999806384818722103913290934678250023356254070534133853984734074848859848697025093154862791846780491907036027065498142623432965940226055533962029791060163614112231682473947812133596660056817376162731259489256006218552136925030072371915157321875949767116375845075694559384551665256596679961076119716531204595162606742318767789352343511313830204482326830776774546521653019030700444841921842594920223875409557882464142988916573035937553505093112722537572000532858815940607251868692496184977761201976925552899927528184183145371082664349332485904355425044811060340962750288732476759778038184321111768968221147283641616404405094153936479015169568298418536718193173308008665217336543182205435377049852525012611665343789721022180418382854483985041685446372705568644095097745799080382763700093183804688769839604936479030883582026150654374186656320050982670295035161332977423516660473315560741004045031487795390914512428586343212354902681822928077757589590400566790443492112493253396268631046062352528214577341601767852447520975751901097122163568575953073424214746548550073618543221632829826212869945578591523033903502116949260122000795792177651867236130451386578385383213369290876250009984812978474170345227460009692325277876550596036902737831010877464573595160884748674415313308447739739879778234356031841330995523401382560872697708834049243451318552272233526103795694319417752392748536609126438541926878587020978971884673451770731220349026701060881169555320811136754604813312172961697289892721032344575683994767799325307166099621266434392788467551449087328944458943859645891675306455050717053850571847882752418005687026986761302664225338081668968254811951443499207374718031123639256847880487579248263980109094346673336316962688293936544962987162325304267987852529151407889656282459045286168691944480583860237842671612796224164145330367263019276543745119140977339589737409171733156653912996658890473455578208175381944291287380093616236143581255522819593307987029096470027533107669208887844421546992220061510783824913120117107020330868569338583666311611298309222830869366609849350282095039089707650992790769098720899899071784863414932118013797353321391163438535933519768722224865507436486298128339574677682075118913259619163156386630600686062688384702886039124028063397060361491543519601588536642551674846948472866710171027523449090361583822121363961217106821709015054400642696171339702711456970680733881914151024806612057241152314290710799418481351635731031240004882279293843145601689709421304414601209189115977639744818285229132474549501763364548360809372077180568473945881522471727377320204215422192448288083150841731551052457659253989222334345320490323282645025667804489227703328781951367750301242916731679899420533123834914905123670121357588303275968532017763034018233325342333085671220781969448755593021360375349925726298216153856767320532563556769994209691296434231007793233589712679234470206927103011957570770683159206107303735834506155803485698169563410836910959596453315668851386483334487599458113767687635217345011724906245225814773316485763299891068427621161537538908593470119816874163481225832838248335740041602890662443544992662235900506500629601891565593966507958369211712507372668842024036366474431460439687396275122475985532079012253694721215912435986181777160678303215936291078424281584696317862743354157284940124694221167205340383112228800298464721550001234743648741608797873405697459822576835686777444491441682463766604139610036639257535371464489355272447975520430551229233564475481567131308034509099618186665805311151411503944027239424025213941354443685410579206830602824838901975847639788148613041491733478883984421412267090634389739925932577495487965393061693269175205324298700340990619146908038515383395619639480235867534714221123884750676738426355124104570997902144274293966322740626835279047185518256505018200992394190419900729755189924540661131414821625417786176282378056490325466471423090665549235016439407187435768894428168132936557065519029539250668541205315557822295339063667529845160863058301415274945332076461445620058228187534127664967227702717130790823591003902786340455751205046110454259746325222361408230491639638308249724740388274226627155598539724842156163547964695939647310445565939704849422058294422821291400988265143890617352734924318232165084097958891593458296532204276927408521895218053023649191577477288898410597692323517980931980368752100391102724835418801514522397218223083248219165261093186087242205699169935966672505909686250787237941223597336280967021104593663463610104510594412998295190061658669308914190681829181177870184589389312057966202985917331447993389684920932231794839134461744677825188548293545109293889817954091703404068051392671304349200634455301896206123585292312803091650792473614139809632440489675190532451398158284654595445945055509445105090969290912830575253769170644088114533372719575325769238938006213667420020541936772698362041601080536948189613739705229208641242137012317727742413216207649034051578803310593994362632693249321134450689045716599013782385092941527200113606664068477431764551128669709001557218093902668076949939269854233976775994803366757424013700673329108400535274567977439802244782012472394367757004333464212516504587026604852198184898441045331977069614284776763250003729525849234343288912018952773185264500055117171459477160334026580484159375336265715756227588016708392041859982771469620233511852338571991787368953468641114661464808780248496679077238091511850640413320555871076369541697302981658020119123328207236986115892306449808856079396123138650566402960633558541945603631658826035605986798498461433247819262533789844681642706401056178865258637538217548385811145978134325795402395678282855823677730379104367626547011180282007988869611445059104574300299198815919510705176748903373113286077474381621666988781403969352172987794663547748694317860719005819965314667222106218087154132183218558529196672719141441992731200870463778500706373218525243424471252158353879425244720144793441477469782248281316446640237788078270358689386555687242616766978683878799183204292444984912645552557011708939035539470332122049002787249032237874230597551321966705293282825973144801922856292669636807416719583327751006580294247521920300990570763931990952115131196410968474093184756266672200202798836070561295037631370633110353912986177033142585316721246325772921674783212382098032938135662832812536364668242401135606591301186842143859692163551908396246381384252924215782584139628728866487819201698249394351398367381172260451231093576999622039169200879665193841955246704495670591769167764344625020170035538911838030481258161829932284599944512923097697229905850549443619938279600609416518868100747575670403361119115426359030975154182329014812300647715501040719536810248117944125008204195110965719013046112526391211392288749910645578823915952774776267518850833439933671403926370778006423388567739865244926738526236138361365945544218354733745327009933735526223769032318118726573483155812854945744886096594528230609661451600060471055483647373088010986283693267597125339835865668126795649510641162896238572113491161334835991445368097924058514038787571856858465808080711296494566629597770340829171703137572159432057118268152487953983873098887843764075084389667888069010696698054189418638995715625461675902156419458100628088150255245540831270492939936118826919754530824224735140787179130055278250966206845682503881387864879340412338504670628965096497450809772737357494800456594374688468056145285335429148939924679615314895817188196796228984328762058720101919193500487239281142928146986286395532192972339280961929078875951319363973234001897196636601484914405075615195601977953494583258369614649481920616544733734452568790359012838039463620456910602148097527735931308321293473255443986801259632321033523954927566308665645281939975319554018049199589256054854369233695410795721398134643518014008291064323050179602687816206577488013103810213635079502762725463583333679527774290657149508097992357590677649782371161232879177381278227364756340387616809057922828667014724297902650780009391170499517503341836615738631109270225205923030361260560914551413107879816108844357698904464096775860682042632655750373517089386824094018129002992314597907601057456090215517896129913789475147243205238480733665332577074771941774790068564600362289180573977985783688797978728218057840422710358613515148905744922331007920178580470907743474174077946483164051358020973262014127295779104533887524143427523428201092414747398935455809065069074690360853502480172621490321299653002065478789326365629773680753621260713826939981242221743604446237481468567551027165291046226029305700421642740526065481331509517993818530386216528341949456045331210035794905181060086166349898770205458732236922262202165557357610161743398297346123285031774164417252587416707151299721734658743276481953234494430622592862813766784800522995864054352192146078620994546815725985764153183631897582846089420655730596101219645223246429207244102300553711381881451520970678798601575807682120019827242464377452299881065526489108710821757177958155354116436917939193168116965709304799781394230369141204657379255103988306258187372183933973642669752631915995489470065872246455320426889589878298563761422278146911444952598450414415301250065247958728328963519837646893173859665681223283863976399124089238043433675228382564887997719835727560237993943434949410156447438114714809202272099881920063791418198724502713371678975237242790982145498430433440233975837933215206817040400547659185650162442613925584125059463044428802798752960718069649969364999925017872669795907884426138142867915904278205800355551082528971336741483761507388848331475483197912294427732296527865584854176382228828712862175574838784004758426839367163350243783074084968914019188226967135353906897974540308233389165055207225363451547928355797104585796164693443998989992358569142252140399170262548249296595462789413398570348572145060421759817289438683052833449317019873009963753269844347339504818077257642536249057231013388630254269979562323274348235613871423894424645452194483137968567967447452980076258404235300591479342816997239433125849316692157662118934166034808118714128552028624540476833703336471394829683086533020831810804931311445042976931923049244159587378146369562567378684962111161219461605044925254570647649726156231536472860526682663628247515357741621624325137843723438291870097800759301286916254548744829190721529402620003075920397150864968537342467205263386931134771722153538965711441694617593937770250353699842754895877066886303154477336281436968486006427236164117099348427555626539537065362012272152018116506770190721631662466543372588566212603594818007299828636811956580808310994056074509881525667025181621154428644831106923971934659865593133764994912035170126074323365308697247492486818738381539637364554558508718246932841130589618841797246757938144774870153225930931989873234399388895265719160095579507499691988325737288400082631723504809593549235454763168122916144699348886345222416344339185340893527842177220252758566208754104962347182794160204244862557204657978029059086186839052381130698001937228385532561592186325151547290222211824116834946735824211708370680264043060734885899927734543899065265324229841136802188353588485412101812326850720865124516988835578161017971946457266500040601837500343953373800893091495688755975919289081571096301800136765849310048356083761130764458244715204488884390920952079450633662883562414018932366047028838234878900635310501142482107043082843272095489851072665390094406103757633280000112266578134023183656203441666856402064650204822323003393787112856675799429902299929352703110728449087036317795105005911289538359210946899656376899847982543032077746406512075748081339403133511369941729425347296858176801029700433134535849863697784145924753268459123419540091414403166006543516935467209461880506204722268602440414331990772875784674809652779758489351889750832295266447796871553462614530332349241775467993183447240093732104664639758058166096948957410145443919350123316405482090632904790071985167471098149833270375649732152401556051979593142240635554172806602607654251446945434512640309011670139242424138599124576849713403263674002444588416892982156687827377937678929683542872403358270942337377534020040646148626789650252259968156832381775216912667145328482187025460923254001988684006011200396620456907047565805621929439034577191349867787784820229300593931903899726997619116639290633922417978795037163131782903852198664219335390531877445321407735390682362539355134233245127199107330142731610420424255435231191419341750017839190464902245242648812263617070844040325915411301671833781652129396266389464537348906691213376850735483174618973486658845370958872361954256383761317017882459938351514054045065572212751544171509266344963559911846863609017829602001786510522384915091217836226033658272432982110031631207346622237644734077481252706949759543784922025891713299949647439562167241835310579686574224892035778316907766595070827838859899735335288524243823201388781491047266110566965706325662223445621842332946975869765483797663767278870375274138770389408611996730567776838593151608241370164672965330100987241154682613521746715673829764198101780690969902473079769178643991554988443691857951369266679087731067767243260824360245646375030844409253525158969069241874041616385968806710085690433747341434861850818690964377503124512140358344874627395967316179320017794130146993623569630059084711095002906048974033044331638148144449359131232607776641752261915335261945113428272057281234091947584073082599149311324857456676631875407138034042464498904261511831944724546821315693907677312000792385907830609793940382143937441450932897674740421847965125513910498154077135887402198751374425494942724853332618728520706024899296573848704993030945922345866373297524420250469207147501306277389949028433755091304436679926408038607770354087596715428202093949410866578641489417295530984280668512916384354075571479711239652584652292494672581355773890514869565836548596836322529778362193489236681991895899196240818163382958325517949873670778303291122803671061486343127201400500346962568809355189023076697212410475195775062226652274082049477194321549569688734105222844112413986241839351419027320495823282869859693131324523384742600863378630967581437085169111707782951152137510572013985206260150664543862594556834121877782143232528727182290390236931940972696418218542837474192895035299652336511928565595258664376822143882057330746074113924194475114658326868470076758203916086803759112305408409535853326258339943044233753174918124212704553658657233583393685041818434601524519868257338217588152188085217666070375733192565300212009111699688060123948952144955488696770624350063096592506314243651839345676243030807249936328702534932710842304174696533065622914803545553477781706693364656341247772895718837197090660923550353412423387592838638527929979523511644722217787456857951685081728169998963604794682019363871820388525114065160529879261991911349725948010528880013287853918499945526599691628833894044388438116276234194309430628202077256212059784459895449725262163427496284842921491197451718651356311633462940324273329122808242976531230158964175574855133121635839216781125599357283126186534386105794819343042816844810892870914932690825790300711363894969885432100069310448235737923672677689655423162358954404104697202560436984086865065279695611253949514071548304241272391887364835876602922635588060790362477358654638845913361745852957749150742454331897668609548269865601241614283679380452726223047873667218471213315071791088707455714160324551934550390524868308112254111359886051516341156793895627896405728921980865627897461329331966522319100317518975750731321665760954921420644468966531398667155972868000131174900273101515334653751778438698479063399148287698475767598697564215807926761745526731888690118896020972805159934140797442077427957393959576093078048488061597480646336547969517546914134008984387102589357498246708592078985001225602090881074225133515162647606330921996602176878911088734699436808316450446902133230513275946124025105292564335090512703184622786532045901711087982676296488840342455570390830659556138945222623405851050899829239529150734470853520204050971984032145094797360387942603139116056645046041214540698128880963115856143763374842278465130453724476294514460699668344995229298801735309217745598443657773230600003797384636825932710356618878174191710205199440443497223665551983100133749978745743670189567232776490730234437035684711628541953983567016017013683613775574779145025526829863646925956075950747182876248382973036541050377157719655771848787088082622430545738943844595776962103227636649625499939446265612424175178753205153910246960389123937689640306142527489971926268741956058729013905378533461674278277340701627825170848175722621672670608682971938132905257427147206434309424262485232194462753551665715387413899204695341895683149683766065911123349931989385615734326000599479180634901482036501959861319100914259240783425357647279040957922242011373523271789477900260908726752994176525286096806280352598579209142861961936002827894105464973499818376358988581107308678832863118383727446409039101143716444917443491005413128479515716372543937299775046505104657414133551044942952061373538483486309454000215770142320187807022624353854660948878435689605304513481519428663186099961865018907428993840087351697006816961539191951160970950165216541864302159654156212196261354890288371666250627976519516979022779793037973561243410906523618030723266334676720750830157774545094127177548446057571746970062298527543952827456320986809244613352399169753749162714943936706541250770197025902474474948491130129735605578429314306083107855271583885924581260799980539978788561883645381424912422700100580967059105545720238781815477749971435466393033295339379591772988042037965874732791238376257338630117330195912719353489120261236581796597909212746441797832530959958546422391385542042149004737489376582370995260502544883837122602010148326355297363069338402739578013148453774078015689907100309098433505483181017998365528414054656454298381073458793256607111786861772511422169844921056458246740450690563870829982122242007120211954129971460704483687693720294524273942610379852870409514092713977070719910110759653570771308552753032317878330783140365578917160640993365503122703789008871916940602747495713993994246293489003426678724370012895743598198212611815546357880685268937942140384791338910230666525218975285926340412953190748126904267277153080574974155506195809963367948665386134527936162208254098081952875102580645827246650361206575029254289118805243866237979956089198177589439469939480109975319714120690246592354535721452995113877120910227261297249570095400251282355309838466738338799443987949617443778015423786907036711394137720351632022704860067833790574314898077067240139939597073009418018895138249074295595490902346678425311242584780740492537758676990092127426662484807057712116771660426502525070088480701707493222938304736929372167529495345182476992848881375043853960224313732924461943937561853106230568004443619582856211969557225151140394868743438501057089781400523712257141143705894025774781730973542795459276420700817850932792373665292518723027928879655108888253340847110672846909988962476158840432210320132247344434122069317038219817595650099448302132212379012112614391848539230758831317345617710152727991855078149239636868565737871038684708425276052204508736753516616795328742290398853964552498355382289917113057773552301900888786604015051564517830157627555764155740587992363066618972692587824604160382097473357485959739703173992268346995492927399686941718317584550746795640379090833236208948829031621447555640555384831665586330586714399212107253409752434530971807579951435713774503902757465233069863333455072603675164440500388982133618258856566922793314894600048239078069843765952398292278501596895905414150859762477401791192525341435128604954273481567775711566643905068954408244370188268384700515696381028031338474671292390277149789834213599573304575247255656896141679375965509359170041995024584903912792620199200289929547903472650650707033706270014821637171427350239540456078820371391384800122934744462353750671269207306089905468772542991807178164997207220247081191812069527444395876037043775878512061478161070725569250316284533179559044611059715391146974889301856143075718677919504115325838399064189726428753117129274968766734578672883215891668231768316837426701570220817797400435987653296638606348145860897686912593118888206764492968398889610836742421014875658358892836855431225650328440237067592523966668535672356942741643460606641467674183356975552144251677932082743125071245716661301656555479353612621930820450519192409528685568035345649383219686028091437841218737624749613672450056896206591666818278135933089142597437820647032904991821472275804705032821604409726760612448404252057307489476405137100717979594283496388932806443230160472042843218618879466781143081418457332446634063685442012623379641212678154148084492441349958225473324478128814443747808837726421562703277169367629958565780938278461246042080580191554536238594024168827550012187908382462746550780117621849474357180555029008105298882605312543729842153326697520915562916298866830623359950254707697642008573702463726074582305245173578688030171207569016862293533414678660129123529731152132408343598191615328445059368555732131256423677524326841635933015421853039246605334915665183741617268040547004019940481569306408557632416288825598088501233094029836428377448645443792309281774479548142743600122399123213716423082883377766741679416429937847982558161761727969855023292784528462574809081233086035331261425771693611804340957758840513974501074026667534471364943123801606782381627615822629489043736925683589164437072066082008383531969800704049164580519344894554763835241669992933368201996214361533001401851350902537234132015114174880606478607778975496064059464577895745805418689506165753581993769987621029445025195484429947743523358252352927259148266716080430242675909184875776047986985465766296991367766241629624386624239547183904959862192932854919641414566501369951244302972786301418128536242390979713416275709431701933397985987039762036038450079560744599193274939851649547272829271626951642427029482152710172234561858124167684983210360768361155641448781056885687510039733789459761687174687315676190020662795683941209186361610395231394241346487307525072051506553689959565767319255179700067614654313842352814444119864887868615369911229837583530665070303892129321592540258901107718654501405217150753645836867235904236436430191847746307442632472169833628590638915904161581113668653830880929457057923682204091037652426243007827384970143310556974164058575717365999227416478404391629413474902127072659977194655148417088837096260597189265753958279637311652189520226815744313469703276033955054092353353448507069275918690931203336557001479947644499325132237262153855328916237119225595963536382262128053994295301576767935345005559760509553222374415728963795264548241076788988255180610616150280054538963534400276965651674664990693538731150680548197057849568415903406997122632603699014894813538039463266465331028468412744218271830642798672332724218990113755444356677679606850481272495262143932789992055626762051475876290475441965668559916945900313156606437185155736300724180785652271850472765151725572921508197480774657786170085550616434406486657572019157933578282811540448940863502786920724739476068554710153419862269030489270358906900585033591756889687627941008158576400691158046881996884866327157890075641699144322703183722790875337268320895741004515665116450927505621150227383144924937007885665942617799286945852220321729630597280982414598367288569696315150403908921358448202916666688175822041776538339677923394759942359487391361249263183992217491855376897268896556459900715168122791645684952940693729203075787177758531024424846810525498563668544153199131198782015860785680852198453036013187457288955955079419228823141526919167545710060021103790120679311524994651225223207687561556505452437741932849947111775336911972373318424162888014837548385404283551351336789805791944363765356812155775375180101025411328530507825874537668231176858597129466736435207498192367845871686151370643618212022600432514051285962860071220365891122206037688585516432709217977424450916486794129518755152163461519399532451735746851861346885140419418802788172200574540202906843449568803398548985883862211491145587606849802513506636970348336505542407156133024713124505767493142249451067310955975275759021320073959504322876073789247435616298027974076870122235065268944173903729490144687572899159928770152858108640527308494937684837329091949775625387257343858967284526271777719058057025945199801568377925604874988826729096919091020000712814251876388282878477329657719921827491197303613100343090877853335530314667098534631099853820784389113538076031091615932765957152290411564561766115497976837463889524573944188386329690040602688482452869836111729531733220075609451280733326756797595374528547064918681225965843009597689330530091593873871823275087329929450922399099432271812358259713316262563689873587039759633282700293997149658850046775097312325416979877927421193342506774051128812070044337837998177452581360610584482637751523830000989632504364062833696471229306791650778921761920392819608108064252751339961893967510516016974926233585784084547818310074582548061099281489259542855771136704783677356259913491366424604585493523970692503136530752124612946482271101355431548199040057910830029855956658622775282054286825421835601530656565333668172721368849561092610943459724600665381402033248952344545728002748566139834750779786831271146950701166678586504535950851176756408963509644088942939905129001135705504317294340875344520389446152992690889169115300739091246793713894752960712632775486956471188682265157363427877449664584553695565147615920429955426093224558948707786962842966924673055546592058021689858851388181290205440255653580250042119946263277659914002988684080120605144806862563636762909267723410112881036655395300400690378447509579514759501435738485611521135157647270409745560089510823751280460176901679679827514815160330144290072059078771476409696032082374546298019533125869553980034321669830159763444956537378475952078957262378847682382136787991394686429309041218704068503639745420880088722076951160625660661993226372653850953180555447488040680437571351083207414570603706692603037732702634963993399542930791729329892103796793791338061372665749424766812547439920033764019037545308352987001336362848566662178235311004499575684947895247571173465309751716756752682032298083060788363943625172165127968378234372391124348009573198320680476460316696338491893121486917402552743796671279052845495517881508725922045451698213142486732735647752922293005033285461037957033342517417803639077918666374715633436676381837534604188000542871288422276098734861471625921716669084856358870546549632350635792549763582298904276577456368828519122539795192231993934419828636137001522105008420536373568384009841067195846047306031627322433137006109889273819234168249096204601540530589656702260670384255867046153260531069276133465964821207356154279050472925388929044812348161338741777880141351881616105410875214838764372654404378699417894792961674367461133343153566459857054378923532010107841569239147914836604827065512715744295336110533212551023107754715063707646805216577824249757223472908293209787251105409467826880772046984107803381281905980321644899606436625920606262688585982855836185283376869096707177874566708840388280531323289142169324016057558525269847041913604746013397372550296138195165823869221436576558651510425280911261619545637953655844336055981788900249085446099814696287926078295321658316683607166366624046652406553776731302304404123254689912417654536305289086049224618335445002958438128730661658164824198458043021983986975991328458093904351955272522675255275893723050218482622988498626819811776689415332593868456491772860938145227911717761272878690686894782938078425735696529887249036982340326871848829071517332531314110904056290357225975748890486530281244548121119375287371406850257379575034024783152394411039460603127779427779592070123670001369797840150972857244930754815328699550591219692267108257658435948579429259213643074077250203000204153300252839442869219816511225787167429191853268984643471056906090887490100561421598308801479876856325098417599956558382852450059121641667667073538676620729396771636780302270253586987252512950482916655237291658449986658816742860164090382502889866433014843096774120230631770863574404840921656598279643032646748898481653231867526456519074944528883690965678762395316356293714095438781399473953539298000244981892991623938702972025350003904473019349262261818506647275887440973725695809478075269789231665649109262245270691715765493345192484082666751100991624408276533592232873417522057910721267002665711534906218883120670551031190204807091759243514338315475269995102779329691359098427869040511508873857547454198357233762942641341431619688592227244602648778066716568264117684703624149781984081514388002989798827461045935462940867248819395302381952783078928422868325159169651276796986738296032673313483294626825735377229059696765330200644699762392822244989171148687650942277595540813056118123051121473009647629426445304139259942435553445441798024507981693626907539148986298649126636248501522019160108853763079464965057409596207781403377438904445585596002988148084103579837748705610981219419592774196271451099374302840289671159364135908966052957938264521149949226854570817514277820398851439648404629196043974397801409770035658201258389217533705604355458991430744650220804622853720234525760649769050524810086676807752953277459064764358485838531570819180522945326956932074866745838803683709733604224166515952227969891391164271425528860626288777190706079004119827026565744243057711246571655850189782724985035106775469570479452382265621780420406505171049201636669931624069681925078984423727231263052696790127440499431604435796007141279540219829818584837583358342811552491590303665141745801173823049979841889296365188976727590919247244240668730537940002758894519038495561806082546753980376343239049311495112836783646509198863091195580145706148220412288088563163433384292104066195577475903167272692719854348530469080543450964055361156998593755473886708998709902884634757580938576081254233854729139291629781602168449298975184339093261604533237274931282210866073007307571681164382018751309348260247973888350324953616071837832324831069728746499818291711237347606262669194344033424406747008147429659435888193730357089402736522158213616853936669168484607590707781181619643531655491220924140318390262101263412603370952017581880464872794702471537710380544261169245556427028252391475968178178609579766921765263810717151677919938444130133102632208229391533543420510322793579246519158415603763618427633167844917254084225940803288956524634694279856010455659440963204391878488276963633941469584196793950528479096602246248982974619485134585998520118021151708699107844928543079027381412215971250224851550414880661217283143093638165015175132670035303982488091892017121871154247307623368019009674991309686207556832484179162513556361107258274308924193025061411529059323172843674154384257011240216739678941278686822757237227153774733914417847166967889438029191623241545056212234317152925969094848481531515968048355472801693420565619738537861445804859509763173425717456152603293676378051995226242250992631777568538950886482713194531429864370838955910287151377663123820429909023546763371721494681754580082982067626831836999470157496615147330310521669016140896016457574190315126937075732978266227377945403713798536107003190168093592876260907059337307171796649407336910585301628553664680878033672316228828819618876663591797035292774650082950806524837008155649336661395379444408574597110486794640374040832192397915853620926247116655166768301896152681000565228217943604832978225146325643920152681666391053813977412314358776670624958289148306278719849958728367036649903545199103521823072163791257028060520601526477582892335849160589968211672763735158546835822497132012928936853892957735102485263231722226871111321867251715764497906046198991537100725273027596777951977594152154372454162025984156772572663366075934168250679266100083880964933054317834916901035090026184783826946017890752635304329267519926210621549587990507086853561924385436883325570235493266085793585936693688892843154558617289526629186593388648828083519669287748052593056869861627319910113637056036855902487509623838774593962061056736891739024115019655880612446061471954413957321633699596435328859385753046405760592357150173528283400400567677454739354497164636731932022727135921731442682549007754971497791893304584910466013907903308046236502508540703581541057966970867602918053107381013202105594966695773690437190618507051080325559195009024

def tbl6 : Nat := 51426711267408009372028685379287140432838646023631230901216119440624540081115283533830724214227823421989819990086976794703105826291851055594064177377307593155722099715315175624657947185807306889087142123580181113368431168991421344657880730626413777356657510432012358410401422350910304280959489758638910737977642389112595946593587902088598983511909614058698905489650239657844949378334517416275209501080527693465150306076754979972244657080058455457218283116917272743295020741425746014651620591426252382327185339153559272302786543766876317570406751030760454926956470106189132418668622642994741728364340641720177452993572319868915831987233479182427187134176652698927824294268733057860829434245424772881044008389408704261131270220696205147968096561104141192591425535130081017576911538180719120935837309330909881213902931466029007147238256304097985632363704657024333544833391764463235483344819792723070933824202322108979973041709253192789677286541907383230726617100771880167506132546202963777287142345496351071011428356325303727276382845905248628217427549223899380892049049477461995064637784911283275069670815438717566963337611297404415773615942899822215313794123536613008476128463762023837461971894022919152411200129374157838794269751383359490613902252695552531767193500858218261057655660443187366869245302186464244921770004772092380463570736390825136011230903221217205907790955984714716918982521571041056224715944224651775371166463835933104219989984967972001401589999746258299248271706880268913174479970515411888564990526839790558045406183506833587893188794099749453467485153071402170005576251977633341093814323528759124120573545514852941349367330227945917623551601660763919423681560214104388088267534815453682472842856003529864923645836917082871554553938046341261127761071611541173129036760479019745348465322980213483239773207030120213696804526355949069373200047546492616061879865657051959325391875195922173406899151195963892796565881307018699484109491638551543959158403995810930056448165645954277316109616462637322660303991602892550032675760273717912109090327258877581157994992388317522090575136537024017197925013897939861519663276743041714742635895324142675024390154004714132286165239951396738340121415540461291334452563438586680922610856052179418187522370040549274750794205828180631624921572918065443233210074085692780503174538129381162395460238617040248471275143537631541916361026506601079531120023767705076351889300196731499509956734196249953800813674641664218083862610941543700942311758869610400001271226024819456441494681903062396710760580333353722518442198913460880931116046541048150677928764995390226557316624535972511018984274301116401912970466509798859602401069282873150236474781702923460740901641353907761196134855458502586514748463160864196016496375645490932851061034485235034276389934643705044092421394083980775768716733534516987487507619745920133030745874748933237928127408873252115234134491448266417522776235767891665038822666434272120553970385086180913317054400885845592444081138899073837529180220101774996915983117615166206143738377890951206708550327612150099465283828915244271611133856009587999802748387571625288197435674468432383222493460327930670141202284909518636527581818155598495458186490553760164834890021507537340016809335234524558999316860739677601457335914959268876198808695851578925464125860950224900378906133050635854553153156780325793664664047456558493899425944267481305143794661311073499265051948444110338510801202119124964648640156067935847030099561426347616055223082287985932580120732590524565137257221472276383862453987108591527684426309205919299634790453466711427568398751163122332042912902295069048282882087376298860402977521314855012471495964783900436598954555773375283082400612194048917026162958675410429129618057395329549586466382953928911375610472306678840382604991381849585516588025952703766727927892594305882006637541894312352081240886208919716980509091909239768041749840654584048504874880546662499445734587033404779043487504372782880727943236354229598916397367555381234412409568464507776734372554252242978846656694945335616297595136804557139555418211385801239429949021705510719325215451224366676190083334522943309999616783188795617675896956867873543209704358424116622667660168895631076834795703551435165927273607084806546421100961416176717100290920704741543738285979886678093810884689520124441615626954863028243814366490745336641527224099811896589723301996703272241638163768703775301335920381161452416071146288061504355970841737048710808688227890134087883161883275915847848650720216027982604235838544415324034650749115387536359334185172511078159585410120330413565417100514823077836901747300552001344310959708460417105803189945536033960088038194560357597128246211508584392624017349259243900741492425668123456396788459385400606474174781405833702383103906531377658088862723946805568378058694601720644644427359360144040142460423161850082434050769873210577205705874367667979560690143596863116989741962006517668249939582007134041918105099528728414201681282584007762283158765699805807871605883042678703320319467583987124786553396542742865592491221223873936026802852148928036831071883181760085813053522365082041134370846546935548340055334176278976480839125244935161123110247538973274182067149440667585597969152903715738614014480768633908226923917932671118190695307029127104299128942329555503999166661287754462200039406237490838815479629987085874298980825115794893723781016239867395986833276712923189699825538229101271134847393773314694887013765380002083401055515729720871075475874213677098692233207002285296832269973914748717892572626186039302495717016646088193614071713450067202576200962807790489217700133865700861238438968882285648549720404863476241456942060957701932694356683065479296962775483047010950373106390629140381198690793937350421787415160369220554416019038560571623449839466914347070899373611320307032783500542943626735022309152349523752474912842047050984135944051691577263988620783790244512603884624813045358367019854732290410247640214371991757026967251262125131265652928555676763891216795010443053292009295965217581626573365106903360788543049315894877982704365489787350950626836853527622899145434821479642379391837117760514285532479010355089029281650986718005535908173605509756014880900679276824096445099256692308427397590613813079066279583780370676020752684735889568339202394440974510385421699809938547891234871955468842363907975674934164013205249853533977771519432971433023382861971792239946902875414371112605288266297073656879932975943782477193199961794190550093281544000357484427144334061499299892071285084511516443183990028038073455862622336925003364815767174643332949509558850823912574017689403420751689626184476504849407982568962637407753000965022626961042955798503240728384247678919312579896819820165075573789874203373956663911840742387450315810964794272629353345844503657147332504407881604980309215313944708771374271050140435258338817622880840510863852623311019604529440488985057068668203839569720341527280810490868731690264421281150051613878050338241726038393708564802828347237328392917856604835960568162217634497936461162827248319946879352885304451092990143610446481995617760664278387229245965129059979173836835199667199464487663316993081730784763535822252097462809346471338122092541691931784827264461699464176868465665953544232202783756332561720922839176761847742200735336635605307001671813294610072290086825769614906523278250610461058823209869892384010457706116524616988448053800663905255197253617426056494400329741592281557560109388761589915113464729005213297090599830451936373897104660917072824128271265501306990753824024693690416002536852423252407830824066664500066989024854419542207128173207343855638393716318191125488152419831997008733531174238328684824424661053625693171300760383086859857305649065669725637542747900401238348479648131791965976358411825504418882523795768626779225877659583631467623984367642774960389750090239882754169658305924822203638190714142516383626473038659370267498587260163755231284923044422501964803182917597511880204289403264498167972343907811876679090307229558100243492522155942763890788638072656176511210319332329111601409010602338475655815868166807475995424859264371815832890877663504820113709922662516257853522889367761588931044634474919634462510514089445551637201041365864802032204415757520659647545400229560541028659272388812228427981355067195195954351819105053109939453248913911622067614996461679689399370350526941138244254614746905688931567733900878382369792230981762261997334030204798087187685454787702878969662144313705187661557111609062787707754377933910293580667350619224151943856780226003418340763658997366082015961938123785963509134022831739182439861291931424166605649114145707230235165827358409256439341659600045344684687217471595954669230942689172017520535636670046873820436194778448857251824913612328490329227577632890607399431090258786765198002936753792132514350872405437356074061627952592764468610816746554984377194836965758036505002724672387640053579050972787442698921016332357908355702392697498042414109851167182139082231079263145869296030011241173767791294103039416057101308453558023311216352730353346685522963896713013949457696598515525180659119645110891287226552980669283480312800412032526375671476053261814204384064304344436771386632798338244559636217296970496707829307999894565540970275678771168851032143435328913285129555097065024991232446825840250772245984240743556587844179939707340911321991142729131379058018660303372063068457318884122314941834277430243620110129873112676107102702042682159886141549644314756914070283488608649618398670386785857555645065988005655459854694630350205526669772635520249884523759901034977918202365807712755928994733915203388429697330729071229457991006031873846330411006827391992524293743169705076489033354874787277570659044711942763988912039339625383189061175306717061558591533903923535320059027321685858418469365239757587361564633666416151397204828910507741087999773295359357984607060000933198521496851694801308549809117289810001178291335328510058417298802258466623042530794015197041024320425098202599546347528574987922994280870442504958459340647838810005442535662253879415772693815361468787491682383881831610216335212339734186675441088003259915168128337710830839963097232981957466183194379195899377216090912706708683352154304765531388129867823221211419197340692858800206324152515573686514869397126276972679729171276184953201651809788523664001942365884535131932718511038360541679271644420165961209189383994012790316989453357315719791216279429649729637594037465598178800722651677533571965931048928775430378359941525109639381937664719675727601042853575869597187030380722380475338122257293231434693985743446014018167953714803060403526372430711084916957501564015668986806149718323429428188665923445550219493982582978440666349794779458949659877166733915219116500318988517381006226552830919635587305888704891995921840254618842504408034953094174408963228141728304618799917960629434173832144679288884000304446412364082096367180036079278729239041897686298874416843174596944995666729948884002462221248660762939864775567792202756783410838141012104727802117950398190751601899573104076442175266423032205555594422336326487363498764403183180904848345338156387028722826684635484280568129293232524968220595507806818492310312882742771129096089422972328020316936263845242959155032429334893305901629908538545578135860140869509818164011954607675033052217354636444601162108269022195845860702794835930517262882957458731122740690300607958662979288932849666228103467503942453260612832344966500328363752213891639253559868716689677731190713816219661903946797951390873797446388129532157119847962521065949310013211734845272263238418003639968957324862629928678291641796242534246529950529191669730778767438082913936272286287821784392622230844911518408191593769133074671046529048401864505489023926153390817468997953177781268965022733883935053400043454472974954355304124446811899609268734401771750240959332871007006826155485397507330103171006935610327047015326451092287981582540517685563281895273764089842423088553931522345577537485709294086286004597159681399038591149773709226469491178661522884561606305555585171829325879803144821692908823811242810178843672014160272012053515040582570162870922421650776033416103392343663783415650202589370648172116943621897317584155047407337350301904664791305881033079336908631611897207414815116022301841379443876144542456688666587144777425320034048687686026611885180296496771622932411139745732703215093151041946944777903745573187609792485245202086024632485797308124417827373990571726235960858056202316506309082448067177440021062954209051884071756964174151662777563761955508393805991243806820420860964415745892901625221054898993444138363153413755215244199141720038766973020395850184033250490733470016455615800061390531396366391591320185917561474524171434427074161058200729310146367626410617439829922747834507531162023280486360981421341935865291413590301574968974003494581323845630877895475554914764175448291093185516051435432539734961688438110149714661660618363675552914941716222773961025772451213544942603806791077652783217686852750069753637436187655283354301223994020785261186122301753156810318419622266392761400456840916038557401660080313407320591544266600205598591189040554287520183077258335673674118344584040249001084789032282766244571168543351183714502058264688426063607601838866817970101032236383143091626370953700233827957520761484153300436836843463573286385912089539607627992240221910547481381681554753632505717735613180391280497457466854239652005438034266167371870817094548808797838779067524298186281449203918255020770637557207791564386932857577025186263206478725991074782558950478556448596112157288841012677578768507244278949226779354756535637086017246735349389084748215025751792588576177535748430215031328019190938160393514078845397856324900738443184171691752716997405086995702122262881722326009550317029455890137611532700145675892058539444737981785488402026673632537954532313114017608215931488394571626145721465458672527968993357160606116903919675225897405410361324585738612640228301595897130428348747826335542404165674077680131703114936664274943511436125550207692543629225498902371766472458138199704033038975073661060107783861232673286512968073491999780451980237383574183508984051883403693582419445005895113798623275057696146728892505070722404318752115407212571100933668018344613213999970736369472514918331851296625319369421151112970433101663316425745970350560578294395207512674077111871792555415821136894252388698973838361986408633789431489065730234321508812232801349440375576767089546641813639786039667763081232784540564334081719756137848178536284698708742366341297949942389869388013354271002918613326674467559133215699891844734297429238641990102515546807358589759119032788556071580289024283088730844482258173428757773259681531496216103450191126366620772164939449532282903174662465548093008360145887299105101426248081410963216304926661931654025029988793936470149873775306310213005881923542328626194453507023302510505204414469919369263075494192667042788931140089172732269451724357807364894571501835116226455616010956750325784058104527396648761459426001758961042563984473196189150598787232810798852326716613612927480337374617143361481852563615393062122033638043499679064293852920556987549534581384196151271047586800899242877582869263716130089137928439683210035629671082997178443086758377420374905426448377378767263254931508797312830267444798290645524792525329901536861704692132832221850889168589536194862011272513304429043403908323855316507133767742135654640248151944859919904852869337491207119037549154920063676257123683140722592207396434522225974524089733435306592900496477266082189706122112910892856428832492230563409437828795803477839456435186987154125394068801392265354369166160774831574588343005868316221933394008043821641573839123170802671242859995222326917361657190665215435248745628877411554382980763027878003604416550053570769039189127345147400646980205522867815578105780986673901890030647774858237410142266157779929590776890199808755488326992974288399491772095611821803809581080290354551143912686359699218844687175125971901402043149980675960456134018954367218129844657938623613256680334875553379468357513620561719909312619017635781144543072329894231773270608679542247290449560895471686141951186145845402275083551136521953912013411877831507744515260103385718447362637861681625441953033860383443540294995972673543831328606917470370165899497710936031628335664544107825952440352443220767451451642497874588987068641852222474486346810597557858462608632442840724273999801255495359227584488558799835524676978418534039534490956223416224108046428801240423194361209870257743538489520956378978245839580221059123788630006777608810303340494562258547756492250104400902512866670715784091820688562775629251330131953065339218616551650221911863769651254463120171718262188715955319312909726114030676905965532685087985101918887644486600312773583539390403290358647631903765921928117935605972197604254029098615348336638788171025826081169756240953572492402438362396661625096153629861937753627185798928199733891977730485829199268151481173918503814106409980704813640682956505107408156065819179145685240240677862034387485727873190901844317090631300256832790387381909289716476348118059026249127477870095712921460990128370384225032834417898079021857993093747014584922480432277810373638524090278055381229240354701165038332904208175622839934516645616101922128279852153860902940534798410240926615888491500840797658551588612407774264316003736069333556876153830156948264271630939587813530456083503677897978444681731514426014506698477884159183086423534340986789064283417474073202180938694552710813929365426148470443992044754020614658260996796698058372039549444133508402756504408180927427095991327543761911270290364754171539652459668969490144190723143612805357940532558855072348852659849525260373745618736512480485612501005565840228502759161243449686262741110469450861609118124871796645482391575729902704126037904845156157814681242533012052900835224869509804868524427479005490383215675329457713824073782205360634485383652493297581838729304201284011600163927789501389338799343842345868815540879290072775568791619866362774810731989147497069213196475104726063123777438251906267846777285420056309467997566007055944057343641069033296683972818029761591302351991593857016615662197422929857138418231399731254730504745625218624374464710224135682119352853434007209457333108693806566890924637501215002864598578359395866464779047622424133897492531919230180194547678543374511482000584584033746356072428031669233309137289115029869240332895167384703090201937115876111711504722328109378120062000480643219487916992052223447101223121529301310983571417023571950129300402716359119603087831544965493127680870714358544767666802720246744224012984686014255858049923799228570479617929747651563423225910460957558077168418797511764480015603257908523559227058928009277145622767499359706404283218027986536235402918432436608849015454227060835454630623544341931377857304205473104069749971376143764179599318641118401625261620530458724508366902184589922681714897346433313853306666872867002201775113034919349046936910159181087352664113285526461819712707131824048823053640279954361056219797817158062480569450662706721453652034726530849454301835764496453466211921040169056180530536245559935699143054836191346982058807167551306466576238301811776129983488828054402767825808807055198163660922909882556455488626882001455319830700963295487755177034605772218414062056485853801329968607812157509782094129072390962770810718208165833328155786072787588420520602341925298577916978688261495296017412928397898292221996331858562751385158467260385590428335362081684513643415781759570626160324268876325747585911449528257889554616499712504564898497634184109670281784066011295503458394143505939805053715356901708822088346425183571360635595080843250882789099024265972809855635836597418499791578674341231723181096672065059344923159882445663857772810047157135209755833009500596252174988357987824856331997310684941966062101792734660034871393709891300600762949447048622290341065257957814239918014429732570148952351737965293697798566010061854233590858471705166358003670282304284028701931897057653792671169774618222862124140319750359663338249789174491894236281743024096715525703617651848443801730253163063797600151999276333049616108731651456913658627934699666363301997243757108644827720004034176917874667850944038471311873042477883890765484523590331881417413000506965132097099615897377451421280404521970242455519038216913955397371786542169055010579608260168471056895864472847058167036251809735220620776302349242994446712567541650798555125082293571265519790063879472338082019342186943214436783502963918987112580137427092442516650801670982270940348505404632535646870819031315584399391789799353828606422554642390813730482675066218493794069440146599899979113992191678405762535620038598207852908458696455451531458319536702644946266241929037241514109494450854663100361537135089983559553897556075105844541491638193447333717496484297759695644826532237765878603508069280960129112366641219310952269841299480047937194724067943513089132257226335925996276716848052880364252669383166626205817319551149709308093733281965557534653263401216948784016655695097058258349861569727976370947252197538738822620192445813048189911771537388359216588806793319958757530811725483791877339903938286338453991019789029914695205283388949750065273830586590660436778557725086771462660246279820569464277810433789477132437842875514440155874373781957012118065753142642365821505945982860374373302813068198715946938009775413798977964903903422449120469890870894719029804759455344796053445153818015445102073165088143939912446227700022541544331138871219523448194308214980417866395868356694891713123091076681476996953025580071629585179006087667804798381744124973901841724648636247961695105960587570688881774115772924781856359390524828893033971786162600948757701556461513337887432815091287951933468296694790812209381056765911341308672042286834734166098081190210351088013620778953464113922409298348346377851326025481405539935474716246818108408374435939304900286179717070448263869888992056786485919308913539676303793010157737716444976624797155056085607609386759075173384785806174076150953352276722784714953934458867388570091107385368445324109744433931212357617619053586211764074410567223699002300858809453828974132747421605017595643764327731565499388048632285356620176554144000743085615412165724818727205337697401855009202861573903644834858395009990070388958288898108922714724317592037990264413864905370370581420217566359065928860785953805082840186685528375076966800086308268887662219088648660347204762566936400126584332192171942545544749662803647143759043049589568626462365751738666989289797031872130285995335450862755769445439795590691075814170071175832599269527143232539957429040096464703522629628790094197403395034095555663297783779255135297602275422412652275893211496233589548557494707398272896009666718968343379337623363516465202401081215475039875810328465493151613926426826404492733866657239480155349106618893347746491563857585565957972068475153078892347899057496542271103971470714723221860148403465684532746752860821228385531802410285804686607896982965320918105231553935043613222932784161214613862858249246801510504495021318816154267831103003297697506873559115954397631703377674905216705744505626476449865767577663281488773991974869959194570762319033194878375679881542492440812334517952588547515360668516548184404142174338081656792807489940399415257944393881036537580479959102598427461060821562326779797292058527581475222634795089503462720101374113817703166730796806339748374018685265147817536855878837817560353914472919399802737096005486326358796996852891078099636698443025918527464047604829416842943657290488371514664400401545079537585044945854715369148929855813578084082325919214986117440119498261840236791165033536535515133916849951330429374201361685173393508332342491004147568187196762924250463609325429074552772293357361918362399729758277252633007624560622710956449584301688395796658717750419668073303535694813264703529170092355580370331300140882295921471003817737402523183376410764909341150842596443080179665339867874524799276726717092236048169445367771638360047642366978477803246356141999560972274573065437259453084145780123055396811548088500593869573810364883788546099740352418872270974973087251393926179854838588102746068539362673356529816557452914963765206360556120582311702162130722605155008770168388690803219639563304995796740103652280397249454911412953210191105248224436206061927947190147492101621806406487255158875540687047685865498900358487927853819600019301203512431216623945297101932081758406260896094859005668142642686385551462642448027404425180263410950100489369037816043705576203454776813301846684393269197763961970495764002773933608736478719825670779936372044766408305486199272107479799882148654133736776180796236675760169053023200066422794157936953610008908171326979621758591886848032873953707661868788163218790118354238987332995008818031195940669306144688062921284511514541565556353871992308281308057239328173922318352936328120859917248874190654522496430295428307506391200603311343657640975594405211730988710241584418009001325824938018878707652757933045155396559045851535246734809705371014632501555797007914001139830117298233787217272795395863366407984088751052906382111652549176952199191366810998333558453798991439549777869242558525787762290272558746973021560543087703977104942494467532595465372757045290273445952918985940870375489968758811230389430822811326115747155321224542416574163381855890880792490614537950319365943192642515636426918931941024231381320384537717430478920284842797011991013224262513385224362735030909109991113834033808118603377620882358037740228700058051204578684144973457732430483214663574233605766446240575861144579084033487114329937998057432891029060515017011723575404825115125480876066050183765391785799330129760630961692350141366293049977324973138413574905980014249664125194545498770395130340713373197717766596007903408046235530370892510153098954254379728133621713517833234489187095829476472999653884015836953134427090031501148644238384936187503718023440428805967837061736362262318222426360114545719813646435850827237848076866289679320017357784362934424161321652256735977983587981311858448216679259799987991095106452151720420725475234333876447131543597239124675800265594444957364664946963750669858735076842242393734003927258424928535659108657607071546539839473382809264476116790126021150567937244816366303689636890276513986986679665314662337612925324450740921613661396329275714914224070778428358904223528643924671441673260942773726695060936836489332742198369310770372061575826802431811237170043419492300808664993658158982809266441723216990617009023285930711474596097119935518564761873293667183324750673281219674679212993422427980284476881772792878012870841010940518118900651670858757719498179589597733203785227425412794474023409234303744377649316629252164287169455928838792349567570780163927962405010722652396602530088221179681418680423460862071879448508726930772653673068350256336636594917724802607353899413191106817224580038882904185008909941506475572807852432694472646167971383049675757594135984811169052973230938467516278976925806816616869024491367103931289173822788517446368666185717430885899294415071990330486468792723155456064717478686154012915111256256423233473334636673724720406999132947822335155545085560887510998630971114462052697181753583871216451285681808065648461993217075299684657390940204963684122496049410221023100233229913740869776104892263620913517778475696454544123545714148797263945000199262095385413790593415234493793843563741546100988695774521555336421584785175579155706889176637087088072450952082959554019016399511230351559625206919492263695627452644847590928366949553526794858529407143774042689830598395547314276587310592867033794317888591631109014437372648501738201632280286083882960127374931009760516657834342638246949425372453881217475503451637979282423316154972254410522538373555065304013077441872327143076988692922917741766589229121466224797191971464160939879952763843900186025183225854569606029063482522320373428232577513695885936732437234994492472197402118591014456540595998657207561020428768172483602409306193216557168654523788062175654957493370888876071312709262246178871975112432595851295873249547002168552958859548469838876864135017260939605706721059716348122055947425522482914885476298616093004945920192574422330732532410458775102971863764224083766620769256794628510793739506292555141023553668170066767114711490526640318932787689065342893839800850650672698242710404285623634824897347371687679282061341557888830124172412757293480940013586263759334465781635524308522028238646511641123788514421966866712927522521324637086501322453055400258203588448995547653263376006133449552506134889360512216211601400283314652692708761060060135514823536520844572360689309065318536422994615991649801576778575692099332792568941552513912342672031430489760919372163981241628802587594593816878059865452741596703952278277637018970705573121197052378732439511577810333612182337841494847744547798258917304642191293689184509559021421294854201437116933297706506212812887321370250283022174083210773312387245055625486588576493876479876376565595523570416799879826990369204641388374359477022240743904300159188401083686479922496652269812485137283424703371582562313823943910310263931263235595917444682514498485940700679318438739212142844935568984125756156405348839347196567499119303102692139306065359659959653492978870130221348827784717576921451067624222346641460032285592099681288701142047430888095377056946500059021603685829694125288221618061719282425254903425565132394754357710710994270197405226655555844479318367951050285797835555329538404883451744224708610047151690781876379747219607589529549288920667008854111714416657400345462490373421084816650099891125142630123201953003778020532239324318852155332323767249627999596767263005882369744670596849443465038650690729742096248421078165787764740727517114010349813467029021897692462998570658733730380112345037893297799611591662421142320606372973673364020193267185672910278942899106129552002021493433636774639388554251343365191605043150077130524728388627404314779936393882483640656241453464790415251094982699319391829528425695683838384632175731436091939142880032482235293052046927612275146548631807739025024212483742034329515933132645630150883027204089565134088638052979903512259949332018350627237285647930061508739793343494133575689159249126200061967162948989908041251432132778601650288555031516003727620836520109941192626378636827185995948963808719611748512629424000361647444808704332000725728174754993985587711940061123100603195419078645150172535446837407978548210218420380542382296253988100369527888888322644041641398051583559107761847735636107345392396468893074948191760355127290091022865799206549472788181071839091481164548763152783737574016324893386552411229945247551048982683889673485862657728021152036222295155715809723042336402206464529160765234915742287743797804768069883799344288249345572335340786976077471517870868691029522573106301767460958145404481059063319466242241303565436846236774237476783416532942528600849103431929793384912320091388931879283768453122563479568019650734124960085389823071602143319827990910197338152893990091210921925034858633749104014217461040278030839065818018572324242601322846476390604065499533585783010978675585735636339934825313593265283304469343838973434978613682375387202717583285893083108347932659060834927447848092410740530583484687494448189607875644353326412466787199371987996526217138535417119458462034730590443650679663088574846677695617986640492564582732477592965709448399186613426077874923905521083206641310880494509902824683485350211381419207273266242744130547430200696952914017792279358982568318411390130747091413199021615887061896703725627855306174566103017276371136542662641927278980740156617946134943346514205485523498874177667945928779107769048565615088846707472926310800322505988871868771253795852087806358813272004252815144055387307639115204634606722135644190243412344984256239188738752623335172589335617062147874911080649950458504366331207579687533538218149318980735080705560080757190757172782953872866096560304746508056709644666228457957469029236679804655688497425147164656802001565104625674921425724643872910207645648617034335296971049796617520768715593179455564401952420091821361844268189431834164772871290839541943458957120910265491567313616100565755142506184243653134851278843434739992440396827024782455662438765765885580470699172026031503159033052343028574964328702369227022268661724822252897959321757786188652412950564952167770067593106929085949087220037932803260752184259565411475780606383765430644575379666133733961700820100224783637536125951360298513819001325093211493392491710552299245319083768836345682109018030637326579332474983243952407905298792914841483401613793366065861584237730583994014255121608988746451346205385134266260092006184966367360262215052320068074964737379758483920410281941133137433435877366995048579681066259341491449409690193359865274100885333341414424197786797612803440164172529188543671389845982835336252292832934451718139173348413054928594143727202144088087919748706804011277710607908414771138857469776419503521862495994763118108086211047035708015315416406438451307947001518900937643824737448669035534062419287327324950092482471357792944363779935949442075744729093666558537302436158504940065557508056490159570852877738789047821243785739517038819622550475645721869899519228299121336086063044225455455766848315063706359239402599986442505206891638458942007356271031141263297138109087425199062367247001071382002112813770704717586258245548988363949179015874517434895635584356501755389671286312623770256192993631886767421632795473819463067745458984969642726341476380961289222508408812572863105826446667785933359224291692923273026561574852740686946818579782023109443950595622264111068176822626997127758198062087079898798941721990201507703748508644785209407414025955434637091664227305936333558929059960968809921755838524158436686906013735571039525828364244823853344676748103151282495232842442016612270879207187933914390896724359722572846633034279752655655341278958441308393729189917839651193460232644615955089255125817014797664664762329954373640328464266629682393078626345447205138230181017461436470723294819046575903298016666390972870831338945038526147321433634810983814210908971584240787399296528023234629363791422824006082418168762314579562645809874466898913408318612903643706943247792381117662312816276576342895403261727285493289526434530306955214499631675115362394260959038061879212052351033336782619365861128441427296239656670353033578826639258299172284900368038079102180608104463553637103816472888600413777061375012968083543915942622858234793153807818589482256837000742997499499956512538196785538071522520262309118213644967656885401727965380946067228911549571363674374146747574338201297397654424091423853303966458240980343454610696352608542341932949666008218310945975010911339355350747998444139222395925749370386542037194619078647390778837157248702328393705626786969842169889445275060696281126110360154917547321930360053381803485857902595503514123360663044758973834538254596813277036319285333044578260555944598398206310825822930358162520830819844394339174639429431615691056235037939110616589562423215686557120769550874815714664519966038782350656088426774337768685479992863802630833092278754797343909118910005951884811680651405692726170770279995879074049234162419698619500138869761858125514720281126144803203468736462375229179292200365764258651011886930043654455133812534728826806333737005825953955095912002752901064047747771031255641282788123831544185263878520618312866915358005852681453568929421408025176978242665936892381906821422070486805084355421502295814107439957567105167517532409463858187851315585188804913857209822203288397284633531750174424231438273280986999846868696649480928591605940266163086099660166191832075679631527842601752677113441463488701005280703066329141480552228169183204084962433686090960396747381561861759083618921352270755796217446828550759065236177074486821229609510254956127048522919409299117276851562049593438095000029261487831188229471826430694471777740747647294809064872528512866885411671196140465805877553447265181415667450009161975064311785807629436404910107899328700719568144592696853654958806447714355396858218126513953021715072312886441206385464546826907456732876944686595729273937795059720014528310991495575664953124327805535017679404282413085271860612378295985063188262984893993588540264314974291742574743872281611213283672238097041394518768143871350227665211893078799387606210726793647710519241423164477420674120756729161676757944348884935047335540750873744414240124466207729117264841152002734603649415730676509640670678894958398855248613748574286002760242949331576512363165146310437428894702725565830333363489286280212755959893108861903743644195897552040979778259221549357228286447903226295140870918727330925531597804355633567001483133634197205787952125187110699979132030288360340771252646912808506150497998027607907301677081533075395805218083540816480259174104007100295640491564322269015899654252418978672621471156013792325261598857395358535229681573932601856118467092498507469424847863475896938112141191440006654133210714633967751324934432101680198176800326761378492896662575710165506805927526208260291431489153931374118170481392916888029015127483291390451985814257197203984413840581162260719832587399373681961778403590328332003206767983206502822215725913842323191481859101263228235284953973220376998761821432039161387397959824321748982347790090921496892306768740477162882163004326671197549673588118345333621854282334228050551929289893949314753798761408545734361189944637609792418906174935385405465939397056403393591644477177096881116677678709357359889926614985654955389428583997743300477132865439014386855689728354977362084277721636717177948057333497780993071931110075800180747464429160327916935183188427023809046390434901560124706511612212103356030996466398984549386617907877162855184565949191429882404000883303286541234110507765278538187831022830930098707731521534705188316805933369403612178482500835658868011771517705259214880180885377414220593892655910833758253875285412416110651738073206987861890740031540023352816728079378706976642071664036249365979399846163597447421773853371966540132692956093341515062812129783625973512249901359507943776816581119747864508460184418088338042630192267127172340528914940653455926034577979044801830154336460801033471248195802080480297081249623768241243513531042421829096287803558575418074846673633839462518601361446559575738016429981318602371582149532072561751079232356075031130682957289533558798448636638095191605433341652506915772064634099012145292991010816411481748268202376132262394915997408192882575276593779379119000057198315408027225685982859506355464280750904561904332409786550311496372437715104312981385034305637250784416371598866636969872148529084816386273677884639449785079512320702932215010063562159322769476950672835284329570561711594125649137771499636553940575388350407927684099686774945078027427811209000991105473360301648504174072175020641825081621256112753327510345072053403103116550554687026643553972411120391692884050510915689506990396724963208304768850475000181713010802895450178463166942265758164894154526070697222025026199114772136605002147200295035070582029063407797999291079992228535027883712577295830975376055238367558004615302594400179076356339209593197119325576512770038805026585936462011362350758529356070379765736679129658660686573171812608817577774566133791795607845815751981318755953200795341972008972647819720246272982030608056811770615100531647573616670606973236857737552514956235289779854656299555697039374364368696040809143035509414857029765348713667188463986328395920809861663408161033714665966509541976085376231811289082209858995827030355404192966173228462407520201933435988971112770929026733935220955043464410593535104417674975022412787636898300380977838758588220730464272772455276421546954640638617370096893609888418827192102021747826879097589499436630106966021093843591292732713169238528509101030652712501000890219660318923521755915357703581146048603469145499838785081288752086523705125685630235885913377218353891553088231703089811177003115059124781975084808239599377451836237896311447649716769160566411179208675320516341996221678577589341798087439698847956216765745063596997243033513768541059807609435236008520864449928705016314000256926837982369678534752345329761260391046984967427132066053066176680156948215670511179836164562996838592000829227990586506145694257086676060981553182092667086024929013149285912417884983001870710382914581267479599972240234519239675670982497745313293450620229650895748516831846876691962171733462125907156544796156625171828550931322936974730180062191922751971087161056388762949879727352371467246570132227064360185227742445323097027305830009688987257681588890151141719653846523401565531396301841590519577126882171342332588539544264045374711262050851186866553876270717672007797292732821355594657853136844156517880756235867495010851344300230309716007625127108965377464579182437050605973442850982763381725510573029944525203524418532945144844336220303114278628552518666251613101378221159476988925059456228336554696868768631429329795630585204070275487181028264919235835264478122729102299964378411836331423898034055183770172042877992440728345953277702303413821667540397178775223034797253061845931096921206842304474335173779446274642373077658080129203838790297046956315620079973317175735223928169819481431461019225328297958361699800904452250621717238920413797804560911469464730323173572296886241130523692051519171600295305781975297306723480245810989571238251158936177419974713908215376073902755567698672401748975277841179363133334693870029619749893994005092262182418406217857105306958139066290398693054168803221229361585651468308601222741177786098410622034488088923915591640180967193540710556098987384592209643436220694489367719362081976029481577902607545670476610990759422069310493062513130287172703129677279160875872426194449039254721396734819852771561894996141412017719696300145251279439553439758179552534068952738030907983524717317553716987679982331697992759354676160978481159447284896516932577854501884396637000735272675270402071566807870152325534295341992685628928846197669287225571355817267560762372564945521550775343128525135102191876635505556158165917625209358763107464798017615902791327073367949988874539270460618460510946659527200851648180518686926149816123829027038244443764803217405778566867325926840324388858444257726648983164733588559045680328227811902947074061656438146894392903470748221371621009405526537480037132624949864062984823460098557923094386204785463814986709085145570020862090761609956797351829254699566786689358670241969283919529643642303230370758615125481665239887130045095872769333720246354527489989925567603783934616878733949155637591547332409487544999382898661521880822310105029201745691125904763412023173541188684059995957845374605789044891180854494834457585604435247859151403778796714419312417054597053591722286883843815557309721450397576835984599961132167000864969957149407008063721109647174461539439019136284805345034804425787400875472586446103363928942895916445366927011367768486989814694024352301350259663231126959440138217348214536910173360830589021227353066177098221668248626675384095771019256057539603550738460795026655955232700863217096096607217592874786657595752988030731635684209437491804514192234454545148884141054365422277723769179370782786479083658792397034898442492027488673170504354585126702229985950670907703143797401007753445008006530365178221915013022737204100619682991996429910982798096003959341930646470240047729849703008242306442475059044668959358976

def tbl7 : Nat := 9218683739431643037744391490529163289619446710498869211639748833205330348517761955285107604744995335731157471029968762244576505591918033309471652988936153969078519723248700349926919221220671604766660645576862930152164544215808475328492994603437559697751916246711779416627289504806709902670439121881640810370589561221902776947719292797159421815685216480378640996375271425913816167931171550475456640178079914464678475034640989587871426806579501260372106504868255600249322859633750102423128418825235883005184705351558686471617507694749232047162531753114180624324325246454789874993626966648549482950903351992053360334426280588314975433455759911030453014850293895855803510242401822922142897410093249811186271997862914177950304455240191489931291914102033358079717072918490583886365143101421732702596581084529633022732120530087894254121846211617271083351037924134480427043063394071393083992881345443220043666826628454618896601288363373604271029782785304172067648688746210380095078234013054674274001621239391757276883104237975750139783282521428806108273900540022176673821121874109695186158399096270370767433370065673252111552704001798630514357298886656917189752708167953500791840141961012422707656911048934624720643332103870955326343857631860216351402793967422108068094959574033282958042198635948696624413874466333890926685062883425596921278115427292360276209860941314858232288714646062365025691897100668564913035354139939150784530333475964104516262536820138714699872202717018677607005546974550832831300883290959369244935974850650459182645546043324362685775543768750335951072431172497643251908126175880350644546378614564993635018934376084421253164344761072780590560415498916811154780339094731830578290391556603246520303266133553275456707108140921732224934797432118411273373782832858313314637049353790345543355203965059494920250417595093185157327956081826751521982362484356152961702745907520850776673486614233923123774733095887303638485122535437578594801789049647743506838638591475807959998889090577490583141208132287712987959821348491691438665817581723637505732702830121581866887274176789068545505011582131438146681356783109894535151866527085260309582129932588087232007201532575821484079993957982613805193982703087632182615853952262414565183339604149527442247839120562334365967461008829394970199202860535233570595955837569110201097595417733412379349623919051741970572758829290024312277456051596055412888694193535384744799728974047704832131296298198207701707679735641725063787811363911730835898079067206942655512919364625322562874028575115576318734730811020406877035459390837926991682507886105817290928568252734450660109213761968084203210686404719596461177524191305500444940063804065766136949600765686913270271047238654766286912544742372332975829418666005552345684093590152123675952887132108823809597091436099717130743272182732155769792362060444480689959907034891376414185889319310816377734936890137867905289172213393346789103693851638832815790988584534473693983840205630386446757700241504683933542576382985783955243384729063871089005783817521775976345068917165793219349770828027524360961945453365993293304783579980717118290265567553443888419025174238941346941529480008997599367817026543256662580997187572350509796811932644553466047106298862264684353386903227983836764257872804226216790157398746942405503054338873327006628691918535639285721428279838390339599940047117620391250802443941347288415758446458562871793536812771103726703613938464037260323248959605341703149466158335848045347333548725345278667425800689913803978335404911910213581440679193951278058561375882374373088803402989491444741441584093032159633420339787809262470466945111269632694698723553213508227777906748896689082555535882270677234022366326191525381775431306225517312294022271707635326807300739729092713034724050573447624963408670999702449648662740732701334290169279766768977462225748008111791475245399125572186586495646739541616928328208801460801579103188790211149267764824485717038269597090813917520151279266732484334549262862868473482228205138422598794752348482546815594006579377348402573048187858933720483080940043173366927547348384832218414936954230079809384668194642665112703914865867876038862065077867634252487194422461521813670417916182404526740497886095473724248488760355418175256941836118571187599733640187022150833161280338847169277607580153252347622502356847600312966081180247301191567645117445340224638197821207506814004454429778150864260777695254995995822948723000363363211518473324405552673650749943905845984023013359440576379688689406361055187331202738624197797143124117597702503825131918335917618853863311459605308147211397054484640522494505842053778842104990715201347439631223567344057763272457283546954769615817528557494670209809236204724989029951112653277368618935241486744221713417795808097983613301550352671005176393730467746098167694360863594471461421360140547063371219204952498314283144871283824175301679624246041098772265737275200689433279607239283685997945983447631971570421804306627692988060900606712893649551877795502437907241689290718743619947785536716810252076706520671229332047864694260111238497473498507156311904304050531657913456562454968177479030801852411889820125881135912892925325515936558614995113399852760708762468782749729290869955737580431567666618116118791534104481311790018474547255110659026344788315478124452419634432858815729224004406112622475949589716658610165294528839905031529942610898959891785661639042413183505597568576142821424140508959692319879069865786213730134761168278140398699656109187992539798079483105887047147682838816042936478579137750457097198205435920193202593570182228856354213701944708693920465713035998903204556157878775346751764747768247501366808209523763449039891683857194438389419656815421202629950268368668644233278782204072563564373642600150637424183577643793081357245174418684026327692056166537370227092958590349306888402789356152653012114753478011800013651129784840005354683418644241341314290223103450524286285952393917211429490016716724255134451749779280315679424169141014636539778626548382223936646352237378875203712799291147074318126763457886594333656935015795785845646040734697848083987565579307864716453625005182189239738682046132852222348614842338077256443756320276964503859174342049455987084882543379873882942410906741439288640062666533383843394164592343588697608521152216703725701264695705466087261711156835485887346525187316291992406702167045792754579126626264320145706620214628025624295601302244178144124666006765329819468115900687459212560704499432147756141592576442916750592544424284699271861155032625810419617320244376284627743549811810029802127422306234454932120375776233742851437833060970008663615243804088642427501982453181103139504840265920867373260027780652778905253508521619998883226561322252695777120007345744907272205973990862281510452582161131626383426720155551170038926822396727487104160430807507814607123236891435039956323652238715324145703061357434533600602305180603000841900122559871652833336609872436867869298518428765618458383842106578167249866977905062745964469828150689627625811998409906612875877216331203591161986751332172246505587715388832248718711341232194532431037002743867038304097546649530261249195319890409259973235477912522467772432253374209380281013103150950417705996541916826702211636967312057451041628520688732528836654974348650045317317932477296766239975594520204082964109661780325916014666323523942866889677938774958303504027268815470174903762046833116194329756732490474162703030064977447072012160734268480965254794097292355675515064698645755179855107623864630373745027801818895778710916794970964951430545236068469637246772302430720414052347540850489696103450936171852217201865623702273169897444370471127978930318548972516596282176610272688425606452379726220207703551693963639711818603239787046433992313551791435741010054952656714359751180375259568104869396947662880913342585631771710158623082270431623865982077427263874941737002055529703566516122033521764204938695834044637351505860739005452201907781432435107572035476640891789918960286590700316517700697697815408446551739513697631574308365971479249673910752391870948312495858950781400926451817109060867539400049712957449355951953420405107287968923213848381432385311180487957196209407285249855930924291462543672152468362601649239322481986279013624163138755349562746043166599309516684291964471851087052708616584330740169588443770679829200842337875998634337146359167987540929434336536018680110751600382562411967321624438101114675263084571066165465715540125509492319502745485563469261789783858343597636690794221490919883949322524886776028078089402739692335257489896394853289433685084683322382596716354647481157219661967585659989100126862283767095983836043104506269626258276395354449710655334146619859014199640602541161679197250059276136595016578599567360095012649457440220727652116870705582575080043124765217015138120590348433583059101364193017322363275918695955979683318693352423056940391161852214284704740598412667065614665755273116598733468254003898152114636085383094634873929513424879184134322631470401961512897832251037144451309714331264085819280592058013676977302270943187139807584973610398900094432568284392354803714987630953669777927378300982755614459777601045013252289617357703006078374062769616705990449282186695245115259673219814456344160539238375820284447621732375706568153685424393339163208063120632924070592960379000966968418779633233687144309776075960448142026092901335675160212148982437854192260638971791011733413900053499451795443326784252745080631031124288075606061025606050919334419256134272973967702966418114895052644928829556083871137103712595129298760328911667676650523603031973760911910309622856817369581429822966910205001991754537324959460687483854083488735289866976345353376439947486357043141148323597436589978184155661537077000422761421174110118814507985945307518238502319573938982238594801204397250270813407926797445198081858408710274024041060668184397023842290683848379189130848619801175189423509289016948560737909565776951385662206831397251098631128477725097677998287135767612364676605451476885632826503825408030005889406771244217431157555723028318601224676020208425633921701628431098263634964840086870751595128965961706427384895951122885214827518760944428049361369083416928702172275992603073014180304286897789060541312023855602011716279760901867849843825440767060775944750401791999635883957344605234054285134377070675154734085054135114661034644300028290664703297052012170545659594132332898859962875615476113159673147892532831289883935849005555094870223893932613642374439127150019925347254307732903113249034743192504063494886561898378386600359199837697644392930391225647721309289590301609502515571949883400957925451652981696069192062975137472927638087374516535617295368561548505510236388439796836081203800100253537757539309385213007355058723529814321211985469422400652176629997397072272576269842388501265373669910157533262864437154526604091312913375063580545499051187205785404431806622279068233284435965936334178790646119827294163852208967096953126964552460020297599414424721454195792319330109503636897982984992668073864189015847587149679247214850057861204051114844635240520316408383718245229211126361770073064513087650797010770559134495938619609559998851709810349155267222066435979145101493976807505594746197798333308821519711572182610635229451208609751759683425097871948600998651585090246571351631134821501654744475529038176601842004273874800002120089294102854011580541645181281095581370448816211881515633424849767345259517853646910126946364965744029750061723860634140159618881175426517782037338483956810245828648245401391729115180882747828613228619901552944097166194416497026978759146349299811167653916873746758101882598689285612916437432505682036876684055503224328787379490733301114632825536271684989896955995711014135296802454676429652446763749539578974514134733424196510830921005440518171933552901691770232122020177313278584158794734901580716508507180840406506403341978975279071880576631250247698399492194938195325000754748742518217779919095225105406755737496161707331886561183974990642382062359271858836881928902567711785163612344287590613842148547209928872344182769678354614640943110349435082299598548139460961147306041516359362237052308968945028913913086079441025139635292889331705024034743903773893255658132607761985026801128587576942302310455773752543164028512055644284122930908098963353979988082447166000481630803290648324745165251964038790525376911251115868117675613532294006010301938253372713220728091852531261443110094540848528302844938128716858568176826646634287401014466313979782062166632597049914719732895997409133950583367464808807327242967587184687870370820839371030954154393366492839049738577795132643356616366558099462327360383774180189521403246319014854505949373637330772964204805559397247895653121534755538498785404349178268133665234294347288368491306692274470674814434179697863138166876740029934280583701671208614410036568115865063616830093218060490343994321300516930677093610386330561199105405711393106747213004320074825304302605557751366672617792572089648448164259768739699112742377689350008365226159480369390890373312748120798874536461654698564063874242246478156433194906027829873742509283539244279124178583518208543884481234611469804775502964732614668875426016505392112463647282696850315283838403993253928617579468203388713013999443390622763818322191079102914657147699352548378795554583169532373390785451923378585826998436551969998151053162055495587068509257560376595561133810058155596654939370380944823134657931599213702249447483167329515985175034396052932004719363509929470530150360488160825769048418719635746642676613454291090808460112913698571134455907941992954156293575313088467515289912877503654143278031383495247597659340612820574929433770836629112583059013011468895161301750592406894205195272224754179382277380384861179157631244808585729746387246084127489689769937579996674427018467015976156311841787926464842695120514457567176744378084234866442609382394811264545148803846202454430544573734995737031693220989604026290841100338897823315264725381727878698320056554607570708508946552233164884067528694541759334333897960917742325963425157281810392001692287290422901390798837823329637490717323692233122843915972825401821560025889393768026316253346998849655838605761244926451267351447830045919802738641960415971577202243550453189091611080358579232189228997343482482328255522529411818648799687580452678072472569350439895339972007269053300919094273093378736043593323335273273180196002648709577530841659401794528494757968558998643235929633914642311173709549948992055411340373905079766843399576452931116044757776567195812501540646534320245429352856360541705284347074926871936029828806924251054842193090415451812554825442750226891854314674141820049265748838357569449270902877162376579685028617817934916380848752225427701096535161638650924762134058135579661849962382504042205917512576118171097187950130440027543648898606091265228093443404665557285784491951705727719608062347636247784435521846606461640865894432588436922345436554542782912226532517908732151446316484190578012447879679387933089272747145300269468002985016412245710423771705528215893105751298208520323623925120335556877562761003901768292307741546361477844511680013391572317135898527193581236408799570949738769425759932973449699485564350831977068577556264569380100177218402093658973418265954665181115319503503119746065767652884235060386856557994514956393383323145952087649636273012145297768372575882339915533306370721686300124422076627225165670466335003835941739104664796058353355435659204440330690150166191417206374997334878337792799257789141833769266219066014744500563060126701637502043956942066135859622612000443895711590965418657529522873400392596941589113905275828436409211591536673232014324097878044934223014720097696905758713351280992759377032851861789229335007895095468040455945784051733250758191865115596206298584440165071334412796067372028056601000135601356744634978201059324740079516334923481026705445329946914460091165090096180038904394465970463591950429261824866073277982148792750387454968448530788199132207092435315446902758028154985551527472283568335936441264801289259107666542552329812204762004988315427698549785634527011025007512184335652845812781983623352303455112010947166350327148098420427787322118532415547217930563207284708497282568354725402980240026223244040319942714963806317240673795790266014909496188239063201950191999777305529062462125796502517407268409946603969871417720749559689050757499932738629575849317065611627390197821004051802662336701093723424000317192330894075803331287595061844868414696233047466528056341280461142971559590071749779252594409106447882642260885289749805379008253940258073321530583443524442648273067995034006703747315139308973185862274171419917728723603231565840572509542363640293679162622071232002985452765653318520148540438865027739403184482837516187669960559429438618679938883229824606225060368792769077169016841467412169418009694862695365870575413381197771598547709267681183491809185528760969729914512739348919191939417240512256121677239876505923241646890328693687116618260935192723333818464657422147743525866569489772825089767647869604350760406256263023484922672197424919746335215960921232796825597376178406887729555436243904040492902850914927164118494948578149470332734010341145822155823883694129773229558755456047198385350953318879998295561543957531054955965130710996517631467110090683355850998313743424314068233011470145944092370537271892934906262099386210793928394438435927438512876963733884847741308084781953423865198539011115283204885082284091025839464449018448523148976288988034723976018928854179635296879359370382577338008318151921453155251131090621995322334300183175751538066800739541574628432649984006576975705406967501082102766815190062991620716598941732099675299916360981221192323267825908244414140153759201263863830642558039646729282123044855162450430064902574720561885948899083327852718214718129769809380234715007103305246376529914855630752248500756911799160136328672019683212481083856877707895561327576655256342085292099457789218237672844712351158735795071514856471619342541639115505010334963946912232858722860408169118544741617674668795394822158408255237898778382573091592227907040368829845842677611331433989141666119377501720320301991065688028925624021390153682443596597940652293028377546816862599878400641467175689083114741482397608837468449557498072917929930700067660396999391963148139749305137432277355707472310216609771087110549240416986028440358602817386710780700702804024836661257330922757733681870645226133216573211261485227380996769500339453786388551761277766902551109547757663695233340712850985433437025826073074805247008242839655256808664640855533417069832281772388163676090545785734760400811619893207688085989534171387775712826348710479093889977104300084026500477931559032499520321053056455410460501802158322162169322677128559536705170832727726102709097122886466006131979933160424712777569270918317515291054960775644804707088776543666216390563039408363778907022450015561341038874919372012016308651722828908507451109500689230213559491949369328423178291748590160685823982004314823625415087133379077327070914670599407561139558260075508736663303986796649173914757178387523030742912124850432049674057972745037019483945596882957952244075721475149060858592223454673633751559096830743483294163439486347446910728958672409360074944534144273207115183875813866894467585645683733928582841501831656358896136733722421709484448424454161834055029465685178217080296016995231522733782446179998451621427681366284376540343420199550361059931889397345950965672347471448001337428374818701824871002275085201094390219842665851380496331924722261279832646198592966993017061417757294331097457324306895976256198396484975717796084440589690373150354047679584436700019666157879769130509661160374215074357279218930572565195855710113041103177562711367934233247028119262221039478032684000273616647345483801651360733539088900050060526916670780203815553043248537831994455289844371552467797600714733775111288261862866747770889032730977391272459754010810236768749582718644126249660588139312041871406505039974845793837883438625736117264858213974489013606770631896112936980808078764193989401968075201584952402816099160463901894883710691377963343409493049890602791208021251404610010101657890829969479050303627762709097546150686695631091365166213549116860252867366756062543151889742883438710779547136541144675935471666289148976901459445820281714129890464946016286826547413808041261251850225283114782305577563638519419627536710431917418913667818917883758199017893230159815626367686966169165687625968966072171117528532903500502775069871969758582432624978166684742544480106438658424444811258467459133913681507370575710357186210207141945602134572715124279663094858854920750727862806198342281867350915916610456494621769139865619411567965398389816311036287460671296552353299760660608618085511351930141660179396354678754398684396323216866221805199706457598573609643665365941557050666895216478886654589257484570495732614418223685090398797029828982837991601668190679318347497335684371104482162105936734565974049474855359104884963803158547691218482178986768646121462167019605408696729225366790089465339006250501689737575016554190406375319373434270810393366898681407265535144348037850339479173519592471349289212900482702444243283502346789869537201056908077092451529906688208157440961201862383723005404588204375357731274510709398179403814407710043299933441420766958917594610283882496404360790456053047619899192147502427023619923341124202577536720225554083816339231269654499517451225239033930310286889399620276069915444930096657612530378133923343947936604682248801230136309850403586283424094333062711085111969504820252062311473370631290364016449419287486231098728540700655987656864293998820753333164361696713677129160215578639430180413143595258970473488217865615508642205242411375285603676665098488622019276030295366058882346009020615933739663772731073640810884065104990848736894217193463769777749450713679043286143178967788880766196851516684401805984252907316701066319846489373275005743167549241043088609298711171486490326606613645505428244734107598443142674028131768570222397433420818287709790335722223071695634960402416025582325569001016347899215114273679971602609262143201548776663231679643556474405345032458529465412858629806004444092946329823970107083437251878798056349796012951424946106046905575849683130491262338311017313331749846925350919267248269573613468416596036003822489538073182729672198326027524437688290115617694530003398202345267073500445978552355889214545620895298383117690270054133130920510608346244831745461214594543432661488987163660918766667241133518880290774616118748861668725499945061349905374895684017081286829601962191765050238983802980180358373359809895138492083803021392173040690510283934289788089429902986057083045266337291850671801222074630515530872050996798621007163338340604391775211744738062199497120838032168643243031246519400701685484978852813126916420154501218230371617793672130214886877356768203622942821949913630067231727667422592699101949996148710504808214814779130520803197888502482231503184109677645649507290375569503165694657614442054061565379186226389468093101903024404171771854159549324724267550536216423153218589181034333771224876356321498017887953712675996389299702448271859362467069599425597036885176118966231191711249068223486287717285896173147157287241627317505829317493519973130447516990695559798971389023583444930140058875581401760991490677126130259244420079291451143608956105241420964954804038977376410775778745410888449697832053145431607666131543602749200223724938909039658070398664659531787832986112013333048252812825021256875725289753881403036989012269555667491578604789794487092484814159619631533067607660032763186714989483460550072309832835528901278884946400178300406973071061499663102487406264908294000428430246889332535200140293166306526242840365085904504337808906018625117030332198139639782158900784691103715700031682505925985029931408430355473880323601174772837808219887483118066090889710877227960134748160178909075406892800921651148464372330717395519067116472211951556730476382829976701008347659138637667205666898631049153920963291953907783352706290909951494818564562810426342915299468349388707382622821704093820725207054336311301241392328949572321320041879342878762527439525679557347737152460229884919394607527599889159510972218298915409252751329017553940442693686123223684965946470865285263771736779089604036147838583282117330173925436949190429186531538323217818588288276169617506770817202458567606430937905035015658387833915717344111931051688801296162105635219491624808809212550275695334397644723977122461987678323419651810332165802367725316861361555020076581448096524827743042767341698900970224841566136316895927163188884812289726515834719463312215251302698163324391714833721961058146695440949621671944733343428735072897177281404258796284107146218157645582995309733176520331885231851469052415330172725479429966932037773859525743323948239112070360869549204631536777083530897408066119283753472071706701876141067393300977665954923230032241623999637506660336504122302948856385790930996579810727585454814833316542660211974472615081162943526118932061280802148905338092046047888350467598407544911419125442792068180793124008348088943584826882393683922334918530959456609522146303215211413753456316367455823356329096258486541620018804158041296067248225666439428541344042999727181834333295640960037756386907388322576256528574100975812019677879110158754810612162221619519589652029671095181071303579614026865566795567303366759780895304376342493553079989655257555113225796633493539439622723797011332198230834556428203356636430204294994306916467689323468890631659645400617242334420304515793998880776298258965186711996458869396046448396339526177823880250794527967954822289455075930264624643863322577854058394717094730461704883698732598377281750648252438905175335409886147420910815929330955567513787477274389486683593529571723177037612840221741064344797713244595684518293935429394546908010623357757864650484122800525557745547284549837099014052896763112516193977606094760184453293874583264776035140017084443530075055184081781646827844259509980018077531819087976293874729272664412182769864778832668654556929729920605866609564775044465921171374920125134597899866718536186141406554842043408869025749125789204883048819017735692300350851728193360808926625378752663304518273065467596069347219761166219384963043354013101056691213237708087453957235046006255149272672413908490610354420158676238687746238089948547919234738600000306464895635903145475233354993826455036911528108524941566667271413872698930755355113358306746855734169580930574200750326674696258712064081728163671232122680160569851522033707209697937411280234342007894954048182712462556590027789753648240804790377434327153480989260010644215931256102284873751934124690815156110945820257599222877718930263877139984118486097575976042904875268675758971627281108085605709326960837341677939733153154787337856985340797839404923805391730948050198715661632726084033520842229532275350054865573714230569082925399719691215844143660450032083590429480494626616054753228701729488320963369478268569812649153928216571777771424892485031843689017471313818709566214922726064003063056283375748226708284369376781931418735951538476540668187803089007112211277198206994248439012135235766842771660273994674258704117939682622940168841188975107052776588543355060473626959141969846206290748612264616038279276266271082885094922578229711089844305108966491418285826708430064436683654066803840024834935088967245575471840853127505425664924801340113052734380700384441332446295143698207999175721346134267140382831750758082265569672483605303429256439619821666534799112095196346612433149085789667697484952976024024097937576887775080002998911882713526419497522983476460000677626206032389722746449654851402199151684794352532531036302280671101765108881147170467720421814235747374967021304584835103979468883777641438235839642971598189450464807681773096160095102396586018327251231704851975471605960960406048623278281091640046512678026179253015828824528178364156487864213615667196560588977793826340237337688558950320955493723665878801743701108679748461848025453118238056384015516491699869833777733282758843247960764929862017185420620622349290228307186957806606784796293581607172220504829678019918270846077472837979218678526841607326270485270339356731754621153009572390976107361533886676230494676422724069816531705202129402117325081594356433907177624722642165703062808937087389447713879085032535642590560107258673589875525210109666159617014785982957937319152464302234927321202755230697986535798563096668461262121262779760371827427918910622717438463643226544475590624820080803178142960998612947896679540923974001131566060809118589321819337088359715467879661322578516215066830247271968104617364552657937696549617547937096857400966424573081639428531967286740179800530397150520985368100225601582549649458126536495346944371580783163993694520639705438048964595419844100684011930714031788743374642758488868901908785994834895865514990167410634592007061035310302525099448221123697926066865989918836905008047639650123536493135168351694659206330653265551504324097293641868763522358824759244501416779257888374255489048542679574199911085542171978694423257452187824584377797295837469969408141241954409458116680404077227832240381577391921423982836579677188212149749201480201185894879724750066092091433817920838740002962267295612378129778288878894785644965677673679027071329062783327166412919147427376461839148385634284542631609959350034187452831790084077984128256148634547281137097306952098252203138090915756945794727816559464424514772771059352763290953999201561904187865126771797409819075808780593838760712145946942713598322792727456009642116706931723421105477286888039846118833417132718814917119144043830382582302180010252073919778772839170410169903779892383983412870302360902124150894254631309503178667844411411036739170637238624469647020620489070891118553310695186721004816948738838368950963968988855544988304452634632625657034611216505036588372367499764420272705931826335517887233129966262606332173666054761581159662251705065165640717544826905775171007073084353468344964992391296785215629000919304336399583464187032112231092991637156074006097545523839950110718099076222420407707661064042966599589982632804546583165941937939799460405714564677212690534663161210477845481254090773424813366252373433333635109453080790831235483604119499776718052861462726835713316283477514666794158943944159345650643560775122935267192423850434381177323302338594832062596196314955654835677973940362563485753406081668166746518110349071286043932928103522755141754593700867637852268452908908647819163602530364580701865216200719843289790822585807138225236213513028976739032885609323040063552985514536757767072919370647805269320003949085242578604646378599270663386932700412054012444518639687158158150968634290483884290875631046036093547663990514262656016072089374045441296106016333895431227578932546113245270723132083397076410150742754556235834952548052376416717803163354250492427595901992647721916331324144420148608664475992991948915871328151806520746183107385310093864374215545124280455398228611771840170468159151985472293586497166354111257437172097064972495995491565251201459924666712842900642780780090140788281617660576427253459410125526266258765090907694949682029702413356914699540017631139818366175592259070690782009807856966293609161442395556440324065887003304616829840104818785661025302334155178654090115955091991195695256248631735363530782675168923248107182808125382621364383848401390717423436330702624426643244964402400920666263478946374708744080716963355975197236994616971896178072847967147258281268694853754707488543491601803883695086742767809491992282777046128659139652199176398163117937515101980760428728970191094298247048689988417634405449740305877920477916741941902193322680034622199203603840233261401409391136093264459778655734515433156489801043645483590189513971890585228255892536318521435717301669502780916453872558133422384841168935192996632184674565393666676250541180749694304080760563161439807974284950378468603557269263061145418806044135865529504150304827128980706204363914551641325524719289388961687859797930418415207066251998997554191152984549468000606289430557824100216439074868244872594377417344966550898441579467182139168425546424075132597792340486264464332214410004715455652723788419013767775686793829121422251784201728174437571261843346009074475984675572941209680091957121798352917908781267671153746080108485803546252808912803973659915440416011724828942502990205370710632459016989781786769500590279375945183495249333350593997710319440927724066210973647459812384671489856941503918674068526224033244132267298842097223983090062693526205750114660707904544979494138355463607602731246294614873970166589361680852965993901546912247919746560413962032395218595305070132487682554144053249027052413786534331167684849805025583858348263039889351110661174725480541072407660738192540324036368423174254914312610063089258248976209348133661394627599192736047064992309647512562558298231321186224619832502633011589589232416089055510288888166304031122218814735290316220386740798737927203353521137227846935673545386439253346055327149894860970833060557892798969196055288793730954941351000659103230066750684307801124067114092355796750905331145045592842748903173213578379130085321304671653939689116076940260966412046425059730595865112103741063461759766484684307999709488589376205808937797639229662120290698392310301120038064784302145763917623155532763439530830526679316967422891340967981672944909830167927957553330180738000960786791483862166590840416515659667526534175712433885758482389080357913078376843997393656805106875213909341933709877346951398648932209069090336145111914111892836668153799755843427840900474671080950223240678348988660761575253424325703647653900849609002148679828329283406671951426703912993729755174366232841735338559992230579144713919286461982688915179426474477206942735895865563334419969741394184743149343482049216715054936179482961177658407608794665816424384355036890233907533148799997618936440178104814355639754297846313246171031217225968436080200232086601301618607403902746563170358500345613693929901327636660140970879201079857560568125485089380389145463725768204943385301663532331616983551177252133400727999261174653330512569438141250624168942480663895396803637824587947677857006917283693234507295073819756900828561735212466816635138110026559587781579660236570023589196588870630362573422776532511784290481273446344226230259684456327465915787135339324163487156848712705674732204851626504090860671635653625761055751572299629396506966091605067384979125973316344563106444872576742922463782177441843479254483391980370428250867480883549591259844814411919764976562830409619484339282755833553941905728146656436198758752892368115589974231830741243722745161800652238953366679802678050953200016513007539317145759968972266823657286757097208217233836921352130619649663659739039456335793089969452769470274561265933597066373174394394097868555994093738612779768745656278979529324768003654833070399997765293545264855914221915758422450871942467942359914923464119422043376397987726790872103204005269828686708052744491363973339870962478259749259376135775073106045939157031733922132773520425188533129223635878766275661569197788659479913499183795472762013008161594605994943098269081163625162281677980813437940482906871581413508791623728924067400255302756149602660320898325517170264067856674577610702405009580544439298309527278324991791657171016961821847038643760817691695860483342279567787613454332764899677809594577874433602513040439094499400260627077152685558151213444334432062999878662126222791179512323535112529373302971533658345539895782470965862499289416152935150010401326602966288284922962854444893717769475074297679103293794770139478502184375708186232898542508374539970352165192798608685671818117133525043401249954291515438334375279200266262441358566960343689324938937496935136168373548680206533162241662886237269440406991663856421448164096046934412337308459397241246132454869692528327594173711429506469318312405483237483867206714010803194364455095705822620069634362752903055804194072443579045626542158167191551298938078836748645287095362341970309736154425285986980042191457924595285495055367220617774797018836122456028182065940483197358096748265991389322636227812458561584066061432847836841209435191789836369319081323375316813489113026075627042374362318538356199494474405498480899733205295403419631611984156584576683923599785661785456582511054057601554401554546519320027882071487361691955450630445416900475117408384608569498029394499610217252821245233691181905511048862600917653450494201584244396400071364862720377444437329003687119417938036965631067657657950789682887702537805407743343419886227964037680565848897733613049645199848836073238548523025062652470390570173962155044250940175412775669073192200956461914383629089123661711341915305867990890446280717861749482827071885927719462175918152316730306188654160814015809285303611722055315924736174829429507855521099622463564196699180716127013182885617016259084158359042493306701256577192868209866097360350003976690833431397240726894536229557021027113710856308130269222781753311654941109112294209592718964093192646800491837554777341884538162583031134862792510851091098698227691404200395345284810639505630444406700512488542237197748365372153234397769802040486099605073680686014512537533817117085671348041350344722675515231021005558217764500586818351186885065844972244852491971312021977972482320975773671560272008139948924462659242532914380011264444411000157767860400665130413816580389974730314205710038769222186503287755010078248017871054246612055263883290140868317352399824069872798933296092763421885216460424299193881353455591257683437679400121148514504139823118689141114954481699512231873760201860901399849533820291729293659659142337880339743922901538101030636914111003235408899272275801360324399504381333249670508993924176011763343427545615865496773696060220404726780018776310564246367970506263662740900389785828989438707760080957012120000850877884776352448829235200179922617806984247623488795104180548471211473496937330689129736752881168476373472284775703447782931837844640431328070266966585590315913597890020451508666118335687733358106269962585669904632244293986816208053518438808866538513036940621942490231333969186638703145525134588790860362139790065154505263770061544905958760366553657219030898882662471776965598189665140986047476038666015619015503758793334786153206389385074290756579423064001379642565692769467873060106238088531184658089881576636185598745160763448854019835713959447680234715789920151760629308910876423686009299600593138584335668228511906058774520956813247481169356550611354487223981006390792137909492230861199631551124893887058195653147390487917938791405581466392015933383841639907545459771936380624074918288150768571474149636030114167560431491166506432390514530216497500323228550790613748187452923739705347418741633178055990749858544732889122437544220291702526533569756614331375247655326290696743173273786660222633818408064435200430225791781847887292277884044580636637059004165335528344790481444423882918319327215221477632994821016938782688039413590110665357557559683372444644255414740288051661452601884763693847399030866869359703347801693129518525688452359659369563010540661855218214366063943910333771956818127608837150992340809129732736601543469812024446700519766810839028497193785247700454164743417072877227279733985131399294472706925746924953622184321420312501101379795309700702740292314685434978377228134307301849704778546481552698054254163551685179163065297961065543317983243826784293807286541335516760805434724406096485491711701655680368174249155522665312928068532939102806978061936370579196262146448258631592705761126501529381738285337958396172799274842229262482989394874316422077957144732926533895695549360365960855269642695381301064141619718085514958247223956821748414496071777951541170725617989926891393355153545400512364892360093061993686231722609760343270829209626518583155434566456586609981479923606604300576579122059284060539826293880977166398616933500951699783976242978176046216352709119766700539433298410769610546129282938545467874414279910062103447327156217907941680789621577990519628967545707972248724857038804677790539114339522749497003911504706126623973733623948140808307714108638399275875619800799585070698556592912374558291311757283456005830282884731000167952218826231650667791654897052889646934794554381240879711477675920554667083466953496845076042963637147430319064750696426956121798235704691924242013388870518165577921204797050280204970135918798163962870521150929690609175176882756016077785363835107393810707191768527182345072438088148954876212056908178596326898779118089868927925152972624028754132648380774400823499267482930305998977105282915601102691402474754896112605974274003390637102494306575013849922373917159299920600569294734914512804351402244383078623415541713691072321950295516614473512170810735352059735156698342081290913651479739091638669434944495604651494309323655455506873750300467238394477671398594451939915384828218201850553143218296045708075031293030379138287275332446085614834933080842361211367803839448306761350243970992178490256543195175751391070787635841522259409489879827811623671083691038070478860463347597317479429641152750526776933453089616048678647677104205553811071605382392875929353306821279200836126753961257703601814939397457438893542443362981421015533592604598845991099797571222273886445543423173038445036699833788527820239272095422653819265457083069797202458991866532086552585316485462895083555737406019258201909871038102784420190119335911416167096779933018685971717709428623801278354882385988461792838374552664215925622790374344397324198163228019102214601936844244743160916488650740789451090238699788314245551447131957077413733040840354594060901962634765574654937252535520688021824945346296613014262788170016482747047350156039069303557793542744969018479945293182726380989726966901986443481857974014355384836649027756140584401485723813719718289069222700399679064335910665626773482206784433837010829376500816367653198240739847801302510019829804129295713405459585850269538378995479665609011286537830697773779040232492837454904530621933658889047493446451596875039459355208774596602247132302747529618819417280757550393748710084349360526489307155983552552304173761612771199888201554678520818271395025114011159094780622409131934460746825944214583207298008501708982655588017821285791350123918062462365971828751413317537050348009093598048315552175070526906430296252694565054878028246059275234663245287005046166746687699674117306929584991657535823904777573731359789863428900000494879212881427982143003363175634905142823750851975866538290188810464447716701692200021974078811846544334540521744435959419527844631081123682646511526016235395909709689067585236377118282169379875782295040105660367105357028539885040731702749478924450840881765588172651533374666588473122406886970833561771973638173654729403751890072696414473210804114374960373071739572711082556330898936070847327649119258895832583779607580916587996223774036110862433594432815104

lemma initTable_eq : initTable = tbl0 := by decide!

lemma dpStep_tbl0 : dpStep tbl0 = tbl1 := by decide!

lemma dpStep_tbl1 : dpStep tbl1 = tbl2 := by decide!

lemma dpStep_tbl2 : dpStep tbl2 = tbl3 := by decide!

lemma dpStep_tbl3 : dpStep tbl3 = tbl4 := by decide!

lemma dpStep_tbl4 : dpStep tbl4 = tbl5 := by decide!

lemma dpStep_tbl5 : dpStep tbl5 = tbl6 := by decide!

lemma dpStep_tbl6 : dpStep tbl6 = tbl7 := by decide!

lemma dpIter0_eq : dpIter 0 = tbl0 := by
  have h : dpIter 0 = initTable := rfl
  rw [h, initTable_eq]

lemma dpIter1_eq : dpIter 1 = tbl1 := by
  have h := dpIter_succ 0
  norm_num at h
  rw [h, dpIter0_eq, dpStep_tbl0]

lemma dpIter2_eq : dpIter 2 = tbl2 := by
  have h := dpIter_succ 1
  norm_num at h
  rw [h, dpIter1_eq, dpStep_tbl1]

lemma dpIter3_eq : dpIter 3 = tbl3 := by
  have h := dpIter_succ 2
  norm_num at h
  rw [h, dpIter2_eq, dpStep_tbl2]

lemma dpIter4_eq : dpIter 4 = tbl4 := by
  have h := dpIter_succ 3
  norm_num at h
  rw [h, dpIter3_eq, dpStep_tbl3]

lemma dpIter5_eq : dpIter 5 = tbl5 := by
  have h := dpIter_succ 4
  norm_num at h
  rw [h, dpIter4_eq, dpStep_tbl4]

lemma dpIter6_eq : dpIter 6 = tbl6 := by
  have h := dpIter_succ 5
  norm_num at h
  rw [h, dpIter5_eq, dpStep_tbl5]

lemma dpIter7_eq : dpIter 7 = tbl7 := by
  have h := dpIter_succ 6
  norm_num at h
  rw [h, dpIter6_eq, dpStep_tbl6]

lemma sumStarts_tbl3 : sumStarts tbl3 = 1624 := by decide!

lemma sumStarts_tbl4 : sumStarts tbl4 = 7152 := by decide!

lemma sumStarts_tbl5 : sumStarts tbl5 = 26016 := by decide!

lemma sumStarts_tbl6 : sumStarts tbl6 = 72912 := by decide!

lemma sumStarts_tbl7 : sumStarts tbl7 = 140704 := by decide!

lemma sumStarts_level8 : sumStarts (dpStep tbl7) = 140704 := by decide!

lemma length_findAllCombinations : (findAllCombinations 9).length = 389112 := by
  have hrange : findAllCombinations 9 = [4, 5, 6, 7, 8, 9].flatMap findAllPatterns := rfl
  rw [hrange]
  have hsplit : ∀ (L : Nat) (ls : List Nat),
      ((L :: ls).flatMap findAllPatterns).length =
        (findAllPatterns L).length + (ls.flatMap findAllPatterns).length := by
    intro L ls
    rw [List.flatMap_cons, List.length_append]
  rw [hsplit, hsplit, hsplit, hsplit, hsplit, hsplit]
  have hnil : (([] : List Nat).flatMap findAllPatterns).length = 0 := rfl
  rw [hnil]
  have e4 := length_findAllPatterns_dp 4 (by omega) (by omega)
  have e5 := length_findAllPatterns_dp 5 (by omega) (by omega)
  have e6 := length_findAllPatterns_dp 6 (by omega) (by omega)
  have e7 := length_findAllPatterns_dp 7 (by omega) (by omega)
  have e8 := length_findAllPatterns_dp 8 (by omega) (by omega)
  have e9 := length_findAllPatterns_dp 9 (by omega) (by omega)
  norm_num at e4 e5 e6 e7 e8 e9
  have s3 : sumStarts (dpIter 3) = 1624 := by rw [dpIter3_eq, sumStarts_tbl3]
  have s4 : sumStarts (dpIter 4) = 7152 := by rw [dpIter4_eq, sumStarts_tbl4]
  have s5 : sumStarts (dpIter 5) = 26016 := by rw [dpIter5_eq, sumStarts_tbl5]
  have s6 : sumStarts (dpIter 6) = 72912 := by rw [dpIter6_eq, sumStarts_tbl6]
  have s7 : sumStarts (dpIter 7) = 140704 := by rw [dpIter7_eq, sumStarts_tbl7]
  have s8 : sumStarts (dpIter 8) = 140704 := by
    have h := dpIter_succ 7
    norm_num at h
    rw [h, dpIter7_eq, sumStarts_level8]
  omega

/-! ### Membership characterization of the enumeration -/

/-- `reach n p q`: the pattern `q` arises from `p` by `n` legal
extensions, one allowed dot appended per step. -/
def reach : Nat → List Nat → List Nat → Prop
  | 0, p, q => q = p
  | n + 1, p, q => ∃ d, d ∈ getAllowedNextDots p ∧ reach n (p ++ [d]) q

lemma mem_iterateBranches :
    ∀ (n : Nat) (ps : List (List Nat)) (q : List Nat),
      q ∈ iterateBranches n ps ↔ ∃ p, p ∈ ps ∧ reach n p q := by
  intro n
  induction n with
  | zero =>
      intro ps q
      rw [iterateBranches]
      show q ∈ ps ↔ ∃ p, p ∈ ps ∧ q = p
      constructor
      · intro h; exact ⟨q, h, rfl⟩
      · rintro ⟨p, hp, rfl⟩; exact hp
  | succ n ih =>
      intro ps q
      rw [iterateBranches, ih]
      constructor
      · rintro ⟨p', hp', hr⟩
        obtain ⟨p, hp, hmem⟩ := List.mem_flatMap.mp hp'
        obtain ⟨d, hd, rfl⟩ := List.mem_map.mp hmem
        exact ⟨p, hp, d, hd, hr⟩
      · rintro ⟨p, hp, d, hd, hr⟩
        exact ⟨p ++ [d], List.mem_flatMap.mpr ⟨p, hp,
          List.mem_map.mpr ⟨d, hd, rfl⟩⟩, hr⟩

lemma mem_findAllPatterns (n : Nat) (q : List Nat) :
    q ∈ findAllPatterns (n + 2) ↔ ∃ i, i < 9 ∧ reach (n + 1) [i] q := by
  unfold findAllPatterns
  rw [List.mem_flatMap]
  constructor
  · rintro ⟨i, hi, hq⟩
    rw [recursivelyEvaluate_succ] at hq
    obtain ⟨p, hp, hr⟩ := (mem_iterateBranches n _ q).mp hq
    obtain ⟨d, hd, rfl⟩ := List.mem_map.mp hp
    exact ⟨i, List.mem_range.mp hi, d, hd, hr⟩
  · rintro ⟨i, hi, d, hd, hr⟩
    refine ⟨i, List.mem_range.mpr hi, ?_⟩
    rw [recursivelyEvaluate_succ]
    exact (mem_iterateBranches n _ q).mpr
      ⟨[i] ++ [d], List.mem_map.mpr ⟨d, hd, rfl⟩, hr⟩

lemma reach_elems :
    ∀ (n : Nat) (p q : List Nat), reach n p q → p ≠ [] → (∀ x ∈ p, x < 9) →
      q ≠ [] ∧ (∀ x ∈ q, x < 9) := by
  intro n
  induction n with
  | zero =>
      intro p q hr hne hb
      rw [reach] at hr
      subst hr
      exact ⟨hne, hb⟩
  | succ n ih =>
      intro p q hr hne hb
      obtain ⟨d, hd, hr'⟩ := hr
      have hd9 : d < 9 := ((mem_getAllowedNextDots p hne hb d).mp hd).1
      apply ih (p ++ [d]) q hr' (by simp)
      intro x hx
      rcases List.mem_append.mp hx with h | h
      · exact hb x h
      · rw [List.mem_singleton.mp h]; exact hd9

/-! ### The invariant satisfied by every emitted pattern -/

/-- The consecutive-pair condition actually maintained by the legal-move
rule: each next dot is adjacent to its predecessor, or end-linear to it
with the intervening dot occurring strictly earlier in the pattern, or
neither adjacent nor end-linear to it (the fall-through case of
`getAllowedNextDots`). -/
def ChainCond (q : List Nat) : Prop :=
  ∀ i, i + 1 < q.length →
    q.getD (i + 1) 0 ∈ getAdjacent (q.getD i 0) ∨
    (q.getD (i + 1) 0 ∈ getEndLinear (q.getD i 0) ∧
      ∃ m, getMiddle (q.getD (i + 1) 0) (q.getD i 0) = some m ∧ m ∈ q.take (i + 1)) ∨
    (q.getD (i + 1) 0 ∉ getAdjacent (q.getD i 0) ∧
      q.getD (i + 1) 0 ∉ getEndLinear (q.getD i 0))

lemma chainCond_single (i : Nat) : ChainCond [i] := by
  intro j hj
  simp at hj

lemma chainCond_append (p : List Nat) (hne : p ≠ []) (hb : ∀ x ∈ p, x < 9)
    (d : Nat) (hd : d ∈ getAllowedNextDots p) (hcc : ChainCond p) :
    ChainCond (p ++ [d]) := by
  obtain ⟨hd9, hdp, hcond⟩ := (mem_getAllowedNextDots p hne hb d).mp hd
  intro i hi
  rw [List.length_append, List.length_singleton] at hi
  by_cases hlt : i + 1 < p.length
  · rw [List.getD_append _ _ _ _ (by omega), List.getD_append _ _ _ _ hlt,
      List.take_append_of_le_length (by omega)]
    exact hcc i hlt
  · have hip : i + 1 = p.length := by omega
    have hplen : 0 < p.length := List.length_pos.mpr hne
    have g1 : (p ++ [d]).getD i 0 = getLast p := by
      rw [List.getD_append _ _ _ _ (by omega)]
      show p.getD i 0 = p.getD (p.length - 1) 0
      congr 1
      omega
    have g2 : (p ++ [d]).getD (i + 1) 0 = d := by
      rw [hip, List.getD_append_right _ _ _ _ (Nat.le_refl _)]
      simp
    have g3 : (p ++ [d]).take (i + 1) = p := by
      rw [hip]
      exact List.take_left p [d]
    rw [g1, g2, g3]
    by_cases ha : d ∈ getAdjacent (getLast p)
    · exact Or.inl ha
    by_cases he : d ∈ getEndLinear (getLast p)
    · obtain ⟨m, hm1, hm2⟩ := hcond he
      exact Or.inr (Or.inl ⟨he, m, hm1, hm2⟩)
    · exact Or.inr (Or.inr ⟨ha, he⟩)

lemma nodup_append_singleton (p : List Nat) (d : Nat) (hnd : p.Nodup) (hdp : d ∉ p) :
    (p ++ [d]).Nodup := by
  rw [List.nodup_append]
  refine ⟨hnd, List.nodup_singleton d, ?_⟩
  intro x hx hx'
  rw [List.mem_singleton.mp hx'] at hx
  exact hdp hx

lemma reach_good :
    ∀ (n : Nat) (p q : List Nat), reach n p q → p ≠ [] → (∀ x ∈ p, x < 9) →
      p.Nodup → ChainCond p → q.Nodup ∧ ChainCond q := by
  intro n
  induction n with
  | zero =>
      intro p q hr _ _ hnd hcc
      rw [reach] at hr
      subst hr
      exact ⟨hnd, hcc⟩
  | succ n ih =>
      intro p q hr hne hb hnd hcc
      obtain ⟨d, hd, hr'⟩ := hr
      obtain ⟨hd9, hdp, -⟩ := (mem_getAllowedNextDots p hne hb d).mp hd
      apply ih (p ++ [d]) q hr' (by simp)
      · intro x hx
        rcases List.mem_append.mp hx with h | h
        · exact hb x h
        · rw [List.mem_singleton.mp h]; exact hd9
      · exact nodup_append_singleton p d hnd hdp
      · exact chainCond_append p hne hb d hd hcc

/-! ### The eight dihedral relabelings of the grid

The 3x3 grid has eight symmetries (four rotations, four reflections).
Each is given as its table of images of the points 0..8 in row-major
order: the identity, the three further rotations, the horizontal and
vertical reflections and the two diagonal reflections. -/

def dihedralTables : List (List Nat) :=
  [[0, 1, 2, 3, 4, 5, 6, 7, 8],
   [2, 5, 8, 1, 4, 7, 0, 3, 6],
   [8, 7, 6, 5, 4, 3, 2, 1, 0],
   [6, 3, 0, 7, 4, 1, 8, 5, 2],
   [2, 1, 0, 5, 4, 3, 8, 7, 6],
   [6, 7, 8, 3, 4, 5, 0, 1, 2],
   [0, 3, 6, 1, 4, 7, 2, 5, 8],
   [8, 5, 2, 7, 4, 1, 6, 3, 0]]

def applyPerm (t : List Nat) (x : Nat) : Nat := t.getD x x

lemma perm_lt : ∀ t ∈ dihedralTables, ∀ x < 9, applyPerm t x < 9 := by decide

lemma perm_inj : ∀ t ∈ dihedralTables, ∀ x < 9, ∀ y < 9,
    applyPerm t x = applyPerm t y → x = y := by decide

lemma perm_endLinear : ∀ t ∈ dihedralTables, ∀ l < 9, ∀ d < 9,
    (applyPerm t d ∈ getEndLinear (applyPerm t l) ↔ d ∈ getEndLinear l) := by decide

lemma perm_mid : ∀ t ∈ dihedralTables, ∀ l < 9, ∀ d ∈ getEndLinear l,
    getMiddle (applyPerm t d) (applyPerm t l) = some (applyPerm t ((d + l) / 2)) := by decide

lemma perm_inv : ∀ t ∈ dihedralTables, ∃ u ∈ dihedralTables, ∀ x < 9,
    applyPerm u (applyPerm t x) = x ∧ applyPerm t (applyPerm u x) = x := by decide

lemma mem_map_perm (t : List Nat) (ht : t ∈ dihedralTables) (p : List Nat)
    (hb : ∀ x ∈ p, x < 9) (x : Nat) (hx : x < 9) :
    applyPerm t x ∈ p.map (applyPerm t) ↔ x ∈ p := by
  constructor
  · intro h
    obtain ⟨y, hy, he⟩ := List.mem_map.mp h
    exact perm_inj t ht y (hb y hy) x hx he ▸ hy
  · exact fun h => List.mem_map.mpr ⟨x, h, rfl⟩

lemma map_perm_ne_nil (t : List Nat) (p : List Nat) (hne : p ≠ []) :
    p.map (applyPerm t) ≠ [] := by
  simpa using hne

lemma map_perm_bounds (t : List Nat) (ht : t ∈ dihedralTables) (p : List Nat)
    (hb : ∀ x ∈ p, x < 9) : ∀ x ∈ p.map (applyPerm t), x < 9 := by
  intro x hx
  obtain ⟨y, hy, rfl⟩ := List.mem_map.mp hx
  exact perm_lt t ht y (hb y hy)

/-- A dihedral relabeling preserves the legal-move relation. -/
lemma allowed_map (t : List Nat) (ht : t ∈ dihedralTables) (p : List Nat)
    (hne : p ≠ []) (hb : ∀ x ∈ p, x < 9) (d : Nat)
    (hd : d ∈ getAllowedNextDots p) :
    applyPerm t d ∈ getAllowedNextDots (p.map (applyPerm t)) := by
  obtain ⟨hd9, hdp, hcond⟩ := (mem_getAllowedNextDots p hne hb d).mp hd
  have hlast : getLast p < 9 := hb _ (getLast_mem p hne)
  apply (mem_getAllowedNextDots (p.map (applyPerm t)) (map_perm_ne_nil t p hne)
    (map_perm_bounds t ht p hb) (applyPerm t d)).mpr
  refine ⟨perm_lt t ht d hd9, ?_, ?_⟩
  · rw [mem_map_perm t ht p hb d hd9]
    exact hdp
  · intro hEL
    rw [getLast_map _ _ hne] at hEL ⊢
    have hdEL : d ∈ getEndLinear (getLast p) :=
      (perm_endLinear t ht _ hlast _ hd9).mp hEL
    obtain ⟨m, hm1, hm2⟩ := hcond hdEL
    obtain ⟨-, hmid, -, -, -, -⟩ := endLinear_facts _ hlast _ hdEL
    have hmeq : m = (d + getLast p) / 2 := by
      rw [hmid] at hm1
      injection hm1
      omega
    subst hmeq
    refine ⟨applyPerm t ((d + getLast p) / 2), ?_, ?_⟩
    · exact perm_mid t ht _ hlast _ hdEL
    · exact List.mem_map.mpr ⟨_, hm2, rfl⟩

/-- A dihedral relabeling maps reachable patterns to reachable patterns. -/
lemma reach_map (t : List Nat) (ht : t ∈ dihedralTables) :
    ∀ (n : Nat) (p q : List Nat), reach n p q → p ≠ [] → (∀ x ∈ p, x < 9) →
      reach n (p.map (applyPerm t)) (q.map (applyPerm t)) := by
  intro n
  induction n with
  | zero =>
      intro p q hr _ _
      rw [reach] at hr
      subst hr
      rfl
  | succ n ih =>
      intro p q hr hne hb
      obtain ⟨d, hd, hr'⟩ := hr
      have hd9 : d < 9 := ((mem_getAllowedNextDots p hne hb d).mp hd).1
      refine ⟨applyPerm t d, allowed_map t ht p hne hb d hd, ?_⟩
      have hmap : p.map (applyPerm t) ++ [applyPerm t d] = (p ++ [d]).map (applyPerm t) := by
        rw [List.map_append]
        rfl
      rw [hmap]
      apply ih (p ++ [d]) q hr' (by simp)
      intro x hx
      rcases List.mem_append.mp hx with h | h
      · exact hb x h
      · rw [List.mem_singleton.mp h]; exact hd9

/-- A dihedral relabeling sends `findAllPatterns` into itself. -/
lemma findAllPatterns_map_mem (t : List Nat) (ht : t ∈ dihedralTables)
    (n : Nat) (q : List Nat) (hq : q ∈ findAllPatterns (n + 2)) :
    q.map (applyPerm t) ∈ findAllPatterns (n + 2) := by
  obtain ⟨i, hi, hr⟩ := (mem_findAllPatterns n q).mp hq
  have hr' := reach_map t ht (n + 1) [i] q hr (by simp)
    (by intro x hx; rw [List.mem_singleton.mp hx]; exact hi)
  have hsi : ([i].map (applyPerm t)) = [applyPerm t i] := rfl
  rw [hsi] at hr'
  exact (mem_findAllPatterns n _).mpr ⟨applyPerm t i, perm_lt t ht i hi, hr'⟩

lemma findAllPatterns_bounds (n : Nat) (q : List Nat)
    (hq : q ∈ findAllPatterns (n + 2)) : ∀ x ∈ q, x < 9 := by
  obtain ⟨i, hi, hr⟩ := (mem_findAllPatterns n q).mp hq
  exact (reach_elems (n + 1) [i] q hr (by simp)
    (by intro x hx; rw [List.mem_singleton.mp hx]; exact hi)).2

/-! ### The specification's description of the allowed-next set

For claim C5 this is the set the specification describes: the unvisited
grid points, minus those end-linear dots whose intervening dot has not
been visited yet; written with the specification's argument order
`getMiddle(last, d)`. -/

def allowedNextDescribed (currentPattern : List Nat) : List Nat :=
  (List.range 9).filter (fun d =>
    !(currentPattern.contains d) &&
    !((getEndLinear (getLast currentPattern)).contains d &&
      !(optVisited currentPattern (getMiddle (getLast currentPattern) d))))

/-! ### The claims -/

/-- Claim C1, counterexample: dot 6 is returned by
`getAllowedNextDots([1])` although it is neither adjacent nor end-linear
to the last dot 1, so the claimed "(a) or (b), all other points
excluded" rule does not describe the code: unvisited dots that fail both
table lookups fall through the tests and stay allowed. -/
theorem claim_C1_counterexample :
    6 ∈ getAllowedNextDots [1] ∧ 6 ∉ getAdjacent (getLast [1]) ∧
    6 ∉ getEndLinear (getLast [1]) := by decide

/-- Claim C1, amended: for every non-empty duplicate-free pattern over
the grid points and every grid point `d` not already in the pattern, `d`
is in `getAllowedNextDots(pattern)` iff (a) `d` is adjacent to the last
point, or (b) `d` is end-linear to the last point and the midpoint is
already in the pattern, or (c) `d` is neither adjacent nor end-linear to
the last point; and every visited point is excluded. -/
theorem claim_C1_amended (p : List Nat) (hne : p ≠ []) (_hnd : p.Nodup)
    (hb : ∀ x ∈ p, x < 9) (d : Nat) (hd : d < 9) :
    (d ∉ p → (d ∈ getAllowedNextDots p ↔
      (d ∈ getAdjacent (getLast p) ∨
       (d ∈ getEndLinear (getLast p) ∧
         ∃ m, getMiddle d (getLast p) = some m ∧ m ∈ p) ∨
       (d ∉ getAdjacent (getLast p) ∧ d ∉ getEndLinear (getLast p))))) ∧
    (d ∈ p → d ∉ getAllowedNextDots p) := by
  have hlast : getLast p < 9 := hb _ (getLast_mem p hne)
  constructor
  · intro hdp
    rw [mem_getAllowedNextDots p hne hb d]
    simp only [hd, hdp, true_and, not_false_eq_true]
    constructor
    · intro hcond
      by_cases ha : d ∈ getAdjacent (getLast p)
      · exact Or.inl ha
      by_cases he : d ∈ getEndLinear (getLast p)
      · exact Or.inr (Or.inl ⟨he, hcond he⟩)
      · exact Or.inr (Or.inr ⟨ha, he⟩)
    · intro htri he
      rcases htri with ha | ⟨-, hex⟩ | ⟨-, hnEL⟩
      · exact absurd he (adjacent_facts _ hlast _ ha).2
      · exact hex
      · exact absurd he hnEL
  · intro hdp hmem
    exact ((mem_getAllowedNextDots p hne hb d).mp hmem).2.1 hdp

/-- Claim C1, witness instance: the amended rule evaluated for the
pattern `[0, 3, 6]` and dot 5, which is allowed by the fall-through
case (c). -/
theorem claim_C1_witness :
    5 ∈ getAllowedNextDots [0, 3, 6] ↔
      (5 ∈ getAdjacent (getLast [0, 3, 6]) ∨
       (5 ∈ getEndLinear (getLast [0, 3, 6]) ∧
         ∃ m, getMiddle 5 (getLast [0, 3, 6]) = some m ∧ m ∈ [0, 3, 6]) ∨
       (5 ∉ getAdjacent (getLast [0, 3, 6]) ∧ 5 ∉ getEndLinear (getLast [0, 3, 6]))) :=
  (claim_C1_amended [0, 3, 6] (by decide) (by decide) (by decide) 5 (by decide)).1
    (by decide)

/-- Claim C2, counterexample: the pattern `[0, 1, 2, 3]` is emitted by
the production run, but its consecutive pair `(2, 3)` is neither an
adjacent pair nor an end-linear pair, refuting the claimed
adjacent-or-far-collinear invariant. -/
theorem claim_C2_counterexample :
    [0, 1, 2, 3] ∈ findAllCombinations 9 ∧ 3 ∉ getAdjacent 2 ∧
    3 ∉ getEndLinear 2 := by decide

/-- Claim C2, amended: every pattern emitted by the production run
`findAllCombinations 9` consists of pairwise-distinct points, and every
consecutive pair `(a, b)` satisfies: `b` is adjacent to `a`, or `b` is
end-linear (far-collinear) to `a` with the intervening point occurring
earlier in the pattern than `b`, or `b` is neither adjacent nor
end-linear to `a`. -/
theorem claim_C2_amended (q : List Nat) (hq : q ∈ findAllCombinations 9) :
    q.Nodup ∧ ChainCond q := by
  have hq' : q ∈ (List.range' 4 6).flatMap findAllPatterns := hq
  obtain ⟨L, hL, hqL⟩ := List.mem_flatMap.mp hq'
  have hL' : 4 ≤ L ∧ L < 10 := by
    have := List.mem_range'_1.mp hL
    omega
  obtain ⟨n, rfl⟩ : ∃ n, L = n + 2 := ⟨L - 2, by omega⟩
  obtain ⟨i, hi, hr⟩ := (mem_findAllPatterns n q).mp hqL
  exact reach_good (n + 1) [i] q hr (by simp)
    (by intro x hx; rw [List.mem_singleton.mp hx]; exact hi)
    (List.nodup_singleton i) (chainCond_single i)

/-- Claim C2, witness instance: the amended invariant evaluated on the
first emitted pattern `[0, 1, 2, 3]`. -/
theorem claim_C2_witness : ([0, 1, 2, 3] : List Nat).Nodup ∧ ChainCond [0, 1, 2, 3] :=
  claim_C2_amended [0, 1, 2, 3] (by decide)

/-- Claim C3: the production run `findAllCombinations 9` emits exactly
389112 patterns (all valid patterns of lengths 4 through 9 over the nine
starting points). -/
theorem claim_C3 : (findAllCombinations 9).length = 389112 :=
  length_findAllCombinations

/-- Claim C4: `getAllowedNextDots [0, 3, 6]` is exactly the list
`[1, 4, 5, 7]` (so, as a set, `{1, 4, 5, 7}`), and contains none of
0, 2, 3, 6, 8. -/
theorem claim_C4 :
    getAllowedNextDots [0, 3, 6] = [1, 4, 5, 7] ∧
    0 ∉ getAllowedNextDots [0, 3, 6] ∧ 2 ∉ getAllowedNextDots [0, 3, 6] ∧
    3 ∉ getAllowedNextDots [0, 3, 6] ∧ 6 ∉ getAllowedNextDots [0, 3, 6] ∧
    8 ∉ getAllowedNextDots [0, 3, 6] := by decide

/-- Claim C5: for every non-empty duplicate-free pattern over the grid
points, `getAllowedNextDots` returns exactly the unvisited grid points
minus those end-linear dots `d` of the last point whose midpoint
`getMiddle(last, d)` is unvisited; in particular every unvisited point
that is neither adjacent nor end-linear to the last point (a
knight-move-style transition) is always allowed. -/
theorem claim_C5 (p : List Nat) (hne : p ≠ []) (_hnd : p.Nodup)
    (hb : ∀ x ∈ p, x < 9) :
    getAllowedNextDots p = allowedNextDescribed p ∧
    (∀ d, d < 9 → d ∉ p → d ∉ getAdjacent (getLast p) →
      d ∉ getEndLinear (getLast p) → d ∈ getAllowedNextDots p) := by
  have hlast : getLast p < 9 := hb _ (getLast_mem p hne)
  constructor
  · rw [getAllowedNextDots, allowedNextDescribed,
      show List.range 9 = allDots from rfl]
    apply List.filter_congr
    intro d hd
    have hd9 : d < 9 := mem_allDots.mp hd
    rw [getMiddle_comm (getLast p) d]
    by_cases hv : d ∈ p
    · have h1 : isAlreadyVisited p d = true := contains_iff_mem.mpr hv
      have h2 : p.contains d = true := contains_iff_mem.mpr hv
      simp only [allowedDot, h1, h2]
      simp
    · have h1 : isAlreadyVisited p d = false := by
        rw [Bool.eq_false_iff]
        intro hc
        exact hv (contains_iff_mem.mp hc)
      have h2 : p.contains d = false := h1
      simp only [allowedDot, h1, h2, Bool.false_eq_true, if_false,
        Bool.not_false, Bool.true_and]
      by_cases he : d ∈ getEndLinear (getLast p)
      · have hadj : d ∉ getAdjacent (getLast p) :=
          fun hc => (adjacent_facts _ hlast _ hc).2 he
        have h3 : (getAdjacent (getLast p)).contains d = false := by
          rw [Bool.eq_false_iff]
          intro hc
          exact hadj (contains_iff_mem.mp hc)
        have h4 : (getEndLinear (getLast p)).contains d = true :=
          contains_iff_mem.mpr he
        rw [h3, h4]
        simp
      · have h4 : (getEndLinear (getLast p)).contains d = false := by
          rw [Bool.eq_false_iff]
          intro hc
          exact he (contains_iff_mem.mp hc)
        rw [h4]
        cases hc : (getAdjacent (getLast p)).contains d <;> simp [hc]
  · intro d hd9 hdp _ hEL
    exact (mem_getAllowedNextDots p hne hb d).mpr
      ⟨hd9, hdp, fun hc => absurd hc hEL⟩

/-- Claim C5, witness instance: the description evaluated on the pattern
`[0, 3, 6]`. -/
theorem claim_C5_witness :
    getAllowedNextDots [0, 3, 6] = allowedNextDescribed [0, 3, 6] ∧
    (∀ d, d < 9 → d ∉ [0, 3, 6] → d ∉ getAdjacent (getLast [0, 3, 6]) →
      d ∉ getEndLinear (getLast [0, 3, 6]) → d ∈ getAllowedNextDots [0, 3, 6]) :=
  claim_C5 [0, 3, 6] (by decide) (by decide) (by decide)

/-- Claim C6 (code bug): `getAdjacent 4` returns the literal list
`[1, 3, 5, 7, 0, 3, 6, 8]`, which lists 3 twice and omits the
geometrically adjacent point 2, so the center does not have the claimed
8 king-move neighbors including 2; the duplicated `3` sits exactly where
`2` belongs in the source's orthogonal-then-diagonal ordering. -/
theorem claim_C6 :
    getAdjacent 4 = [1, 3, 5, 7, 0, 3, 6, 8] ∧ 2 ∉ getAdjacent 4 ∧
    ¬ (getAdjacent 4).Nodup := by decide

/-- Claim C7: on every non-empty duplicate-free pattern over the grid
points, `getAllowedNextDots` returns a duplicate-free list (a set)
without error, and that list is empty exactly when the pattern already
contains all nine points. -/
theorem claim_C7 (p : List Nat) (hne : p ≠ []) (_hnd : p.Nodup)
    (hb : ∀ x ∈ p, x < 9) :
    (getAllowedNextDots p).Nodup ∧
    (getAllowedNextDots p = [] ↔ ∀ d, d < 9 → d ∈ p) := by
  have hlast : getLast p < 9 := hb _ (getLast_mem p hne)
  constructor
  · exact List.Nodup.filter _ (by decide)
  constructor
  · intro hempty d hd9
    by_contra hdp
    by_cases hcond : d ∈ getEndLinear (getLast p) →
        ∃ m, getMiddle d (getLast p) = some m ∧ m ∈ p
    · have : d ∈ getAllowedNextDots p :=
        (mem_getAllowedNextDots p hne hb d).mpr ⟨hd9, hdp, hcond⟩
      rw [hempty] at this
      exact List.not_mem_nil d this
    · push_neg at hcond
      obtain ⟨he, hnm⟩ := hcond
      obtain ⟨-, hmid, hm9, hmadj, hmEL, -⟩ := endLinear_facts _ hlast _ he
      have hmnp : (d + getLast p) / 2 ∉ p := hnm _ hmid
      have : (d + getLast p) / 2 ∈ getAllowedNextDots p :=
        (mem_getAllowedNextDots p hne hb _).mpr
          ⟨hm9, hmnp, fun hc => absurd hc hmEL⟩
      rw [hempty] at this
      exact List.not_mem_nil _ this
  · intro hall
    apply List.eq_nil_iff_forall_not_mem.mpr
    intro d hd
    obtain ⟨hd9, hdp, -⟩ := (mem_getAllowedNextDots p hne hb d).mp hd
    exact hdp (hall d hd9)

/-- Claim C7, witness instance: the full pattern of all nine points has
an empty, duplicate-free allowed-next set. -/
theorem claim_C7_witness :
    (getAllowedNextDots [0, 1, 2, 3, 4, 5, 6, 7, 8]).Nodup ∧
    (getAllowedNextDots [0, 1, 2, 3, 4, 5, 6, 7, 8] = [] ↔
      ∀ d, d < 9 → d ∈ [0, 1, 2, 3, 4, 5, 6, 7, 8]) :=
  claim_C7 [0, 1, 2, 3, 4, 5, 6, 7, 8] (by decide) (by decide) (by decide)

/-- Claim C8, counterexample: called on the non-far-collinear pair
`(0, 1)`, `getMiddle` does not raise or abort: it silently returns the
null value (Python `None`, modelled as `none`), so the call completes
normally with a value rather than failing loudly. -/
theorem claim_C8_counterexample : getMiddle 0 1 = none := rfl

/-- Claim C8, amended: on a pair of grid points that are not
far-collinear endpoints, `getMiddle` silently returns `None` (it does
not raise); on the eight far-collinear pairs it returns the intervening
point — the arithmetic midpoint — and it is symmetric in its two
arguments. -/
theorem claim_C8_amended :
    (∀ a, a < 9 → ∀ b, b < 9 → b ∉ getEndLinear a → getMiddle a b = none) ∧
    (∀ a, a < 9 → ∀ b, b ∈ getEndLinear a → getMiddle a b = some ((a + b) / 2)) ∧
    (∀ a b, getMiddle a b = getMiddle b a) := by
  refine ⟨by decide, by decide, fun a b => getMiddle_comm a b⟩

/-- Claim C8, witness instance: the amended behavior at the
non-far-collinear pair `(0, 1)` and the far-collinear pair `(0, 2)`. -/
theorem claim_C8_witness :
    getMiddle 0 1 = none ∧ getMiddle 0 2 = some 1 ∧ getMiddle 0 2 = getMiddle 2 0 :=
  ⟨claim_C8_amended.1 0 (by decide) 1 (by decide) (by decide),
   by
     have h := claim_C8_amended.2.1 0 (by decide) 2 (by decide)
     simpa using h,
   claim_C8_amended.2.2 0 2⟩

/-- Claim C9: for each of the eight dihedral symmetries of the 3x3 grid
(acting as relabelings of the points 0..8) and every target length `L`,
relabeling every pattern of `findAllPatterns L` pointwise yields the
same set of patterns; equivalently, a relabeled enumerated pattern is
again an enumerated pattern. -/
theorem claim_C9 (t : List Nat) (ht : t ∈ dihedralTables) (L : Nat) (q : List Nat) :
    q ∈ (findAllPatterns L).map (List.map (applyPerm t)) ↔ q ∈ findAllPatterns L := by
  by_cases hL : 2 ≤ L
  · obtain ⟨n, rfl⟩ : ∃ n, L = n + 2 := ⟨L - 2, by omega⟩
    constructor
    · intro hq
      obtain ⟨q', hq', rfl⟩ := List.mem_map.mp hq
      exact findAllPatterns_map_mem t ht n q' hq'
    · intro hq
      have hbq := findAllPatterns_bounds n q hq
      obtain ⟨u, hu, huinv⟩ := perm_inv t ht
      refine List.mem_map.mpr
        ⟨q.map (applyPerm u), findAllPatterns_map_mem u hu n q hq, ?_⟩
      rw [List.map_map]
      have hpt : ∀ x ∈ q, (applyPerm t ∘ applyPerm u) x = x :=
        fun x hx => (huinv x (hbq x hx)).2
      rw [List.map_congr_left hpt, List.map_id']
  · have hfap : findAllPatterns L = [] := by
      have h01 : L = 0 ∨ L = 1 := by omega
      rcases h01 with rfl | rfl <;> rfl
    rw [hfap]
    simp

/-- Claim C9, witness instance: the quarter-turn relabeling applied to
the length-2 enumeration, evaluated at the pattern `[0, 1]`. -/
theorem claim_C9_witness :
    [0, 1] ∈ (findAllPatterns 2).map (List.map (applyPerm [2, 5, 8, 1, 4, 7, 0, 3, 6])) ↔
      [0, 1] ∈ findAllPatterns 2 :=
  claim_C9 [2, 5, 8, 1, 4, 7, 0, 3, 6] (by decide) 2 [0, 1]

/-- Claim C10, counterexample: `recursivelyEvaluate 0 1` does not return
the singleton collection `[[0]]` of patterns: the source's loop body
never runs for target length 1, so the function returns the bare pattern
`[0]` itself (a list of ints, the `Sum.inl` shape), not a list of
patterns. -/
theorem claim_C10_counterexample :
    recursivelyEvaluate 0 1 ≠ Sum.inr [[0]] := by decide

/-- Claim C10, amended: for every starting point, `recursivelyEvaluate`
with target length 1 returns the one-point pattern `[start]` itself (a
bare list of ints), not a collection of patterns containing it. -/
theorem claim_C10_amended :
    ∀ start : Nat, recursivelyEvaluate start 1 = Sum.inl [start] :=
  fun _ => rfl

end AndroidPatterns
